import Mathlib

/-!
# USB HID keyboard class handler (usbd_hid.c): embedding and properties

The definitions below embed the functions of
`Middlewares/APM32_USB_Library/Device/Class/HID/Src/usbd_hid.c`.

* The device context `USBD_INFO_T` is passed and returned explicitly.
* Calls into the device core (endpoint open / close / transfer, control data
  reply, control error) are external to the file; every handler returns the
  list of such calls it made, in order, as `Effect`s.
* A pointer to a byte buffer is the `Option` of the bytes it points to
  (`none` is `NULL`).
* The header `usbd_hid.h` and the device-core headers are not part of the
  sources at hand; the constants they define are the fields of `HidConsts`.
* Values of C type `uint8_t` and `uint16_t` are natural numbers; where the source
  narrows a value, the reduction modulo a power of two is written out.
* The debug output of `USBD_USR_LOG` and `USBD_USR_Debug` is left out.
-/

namespace UsbdHid

/-! ## Constants of the missing headers -/

/-- Constants that usbd_hid.c takes from headers which are not among the sources
(usbd_hid.h, usbd_stdReq.h and the device-core headers). Every definition below is
parametrised by such a record, so that nothing depends on a particular value. -/
structure HidConsts where
  /-- Array length of `USBD_HIDDesc`. -/
  USBD_HID_DESC_SIZE : Nat
  /-- Array length of `USBD_HIDReportDesc`. -/
  USBD_HID_MOUSE_REPORT_DESC_SIZE : Nat
  USBD_DESC_HID : Nat
  USBD_DESC_HID_REPORT : Nat
  USBD_HID_IN_EP_ADDR : Nat
  USBD_HID_IN_EP_SIZE : Nat
  USBD_HID_FS_INTERVAL : Nat
  USBD_HID_HS_INTERVAL : Nat
  EP_TYPE_INTERRUPT : Nat
  USBD_SPEED_FS : Nat
  USBD_DEV_CONFIGURE : Nat
  USBD_REQ_TYPE_STANDARD : Nat
  USBD_REQ_TYPE_CLASS : Nat
  USBD_REQ_TYPE_VENDOR : Nat
  USBD_STD_GET_DESCRIPTOR : Nat
  USBD_STD_GET_STATUS : Nat
  USBD_STD_GET_INTERFACE : Nat
  USBD_STD_SET_INTERFACE : Nat
  USBD_STD_CLEAR_FEATURE : Nat
  USBD_CLASS_SET_IDLE : Nat
  USBD_CLASS_GET_IDLE : Nat
  USBD_CLASS_SET_PROTOCOL : Nat
  USBD_CLASS_GET_PROTOCOL : Nat
  /-- Width in bits of the field `altSettingStatus` of `USBD_HID_INFO_T`. -/
  altSettingStatusBits : Nat
  deriving DecidableEq

/-- Modelled from the spec: the declaration of `USBD_HID_INFO_T` (usbd_hid.h) is not among
the sources, so the width of its field `altSettingStatus` is not given there. The
dispatch table of the spec has GET_INTERFACE "reply with 1 byte = altSettingStatus", and
the source sends exactly one byte from the address of the field: the field is taken to
be one byte wide. -/
def altSettingStatusBitsOfSpec : Nat := 8

/-- A sample record of constants (request codes and descriptor types of the USB 2.0 and
HID 1.11 documents, the endpoint address 0x81 of usbd_board.h), used only where a
property is evaluated on a concrete input. -/
def usbConsts : HidConsts where
  USBD_HID_DESC_SIZE := 9
  USBD_HID_MOUSE_REPORT_DESC_SIZE := 63
  USBD_DESC_HID := 0x21
  USBD_DESC_HID_REPORT := 0x22
  USBD_HID_IN_EP_ADDR := 0x81
  USBD_HID_IN_EP_SIZE := 8
  USBD_HID_FS_INTERVAL := 10
  USBD_HID_HS_INTERVAL := 7
  EP_TYPE_INTERRUPT := 3
  USBD_SPEED_FS := 0
  USBD_DEV_CONFIGURE := 3
  USBD_REQ_TYPE_STANDARD := 0
  USBD_REQ_TYPE_CLASS := 1
  USBD_REQ_TYPE_VENDOR := 2
  USBD_STD_GET_DESCRIPTOR := 6
  USBD_STD_GET_STATUS := 0
  USBD_STD_GET_INTERFACE := 10
  USBD_STD_SET_INTERFACE := 11
  USBD_STD_CLEAR_FEATURE := 1
  USBD_CLASS_SET_IDLE := 0x0A
  USBD_CLASS_GET_IDLE := 0x02
  USBD_CLASS_SET_PROTOCOL := 0x0B
  USBD_CLASS_GET_PROTOCOL := 0x03
  altSettingStatusBits := altSettingStatusBitsOfSpec

/-! ## Data model -/

/-- Operation status `USBD_STA_T`. -/
inductive USBD_STA_T where
  | USBD_OK
  | USBD_BUSY
  | USBD_FAIL
  deriving DecidableEq

/-- Transmit state of the class instance (`USBD_HID_IDLE`, `USBD_HID_BUSY`). -/
inductive USBD_HID_STATE_T where
  | USBD_HID_IDLE
  | USBD_HID_BUSY
  deriving DecidableEq

/-- Functional state of an endpoint slot (`ENABLE`, `DISABLE`). -/
inductive FunctionalState where
  | DISABLE
  | ENABLE
  deriving DecidableEq

/-- The class instance `USBD_HID_INFO_T`. -/
structure USBD_HID_INFO_T where
  state : USBD_HID_STATE_T
  epInAddr : Nat
  altSettingStatus : Nat
  idleStatus : Nat
  protocol : Nat
  deriving DecidableEq

/-- The setup packet `USBD_REQ_SETUP_T` (its `DATA_FIELD` view): the three parts of
`bmRequest`, the request code and the byte pairs of the 16-bit words. -/
structure USBD_REQ_SETUP_T where
  recipient : Nat
  type : Nat
  dir : Nat
  bRequest : Nat
  wValue0 : Nat
  wValue1 : Nat
  wIndex0 : Nat
  wIndex1 : Nat
  wLength0 : Nat
  wLength1 : Nat
  deriving DecidableEq

/-- The fields of an endpoint slot `usbInfo->devEpIn[i]` that the class writes. -/
structure USBD_EP_INFO_T where
  interval : Nat
  useStatus : FunctionalState
  deriving DecidableEq

/-- Descriptor information `USBD_DESC_INFO_T`: a buffer pointer and a size. -/
structure USBD_DESC_INFO_T where
  desc : Option (List Nat)
  size : Nat
  deriving DecidableEq

/-- The device context `USBD_INFO_T`, restricted to what usbd_hid.c reads or writes.
`classData` is `usbInfo->devClass[usbInfo->classID]->classData`. -/
structure USBD_INFO_T where
  devSpeed : Nat
  devState : Nat
  reqSetup : USBD_REQ_SETUP_T
  devEpIn : List USBD_EP_INFO_T
  classData : Option USBD_HID_INFO_T
  deriving DecidableEq

/-- What a handler does besides updating the device context: the calls into the
device core, and an access through a `NULL` instance pointer. -/
inductive Effect where
  | USBD_EP_OpenCallback (epAddr epType mps : Nat)
  | USBD_EP_CloseCallback (epAddr : Nat)
  | USBD_EP_TransferCallback (epAddr : Nat) (buffer : List Nat) (length : Nat)
  | USBD_CtrlSendData (buffer : List Nat) (length : Nat)
  | USBD_REQ_CtrlError (req : USBD_REQ_SETUP_T)
  | nullInstanceAccess
  deriving DecidableEq

/-- Result of one handler call. -/
structure Outcome where
  status : USBD_STA_T
  usbInfo : USBD_INFO_T
  effects : List Effect
  deriving DecidableEq

/-! ## Descriptor blobs -/

/-- A C array of declared length `n` with initialiser list `init`: the elements
without an initialiser are zero. -/
def cArray (n : Nat) (init : List Nat) : List Nat :=
  (init ++ List.replicate (n - init.length) 0).take n

/-- Initialiser list of `USBD_HIDDesc` (elements are `uint8_t`). -/
def USBD_HIDDesc_init (k : HidConsts) : List Nat :=
  [ 0x09,
    k.USBD_DESC_HID % 256,
    0x11, 0x01,
    0x00,
    0x01,
    k.USBD_DESC_HID_REPORT % 256,
    (k.USBD_HID_MOUSE_REPORT_DESC_SIZE &&& 0xFF) % 256,
    (k.USBD_HID_MOUSE_REPORT_DESC_SIZE >>> 8) % 256 ]

/-- The HID descriptor `USBD_HIDDesc[USBD_HID_DESC_SIZE]`. -/
def USBD_HIDDesc (k : HidConsts) : List Nat :=
  cArray k.USBD_HID_DESC_SIZE (USBD_HIDDesc_init k)

/-- Initialiser list of `USBD_HIDReportDesc`. -/
def USBD_HIDReportDesc_init : List Nat :=
  [ 0x05, 0x01,
    0x09, 0x06,
    0xa1, 0x01,
    0x05, 0x07,
    0x19, 0xe0,
    0x29, 0xe7,
    0x15, 0x00,
    0x25, 0x01,
    0x75, 0x01,
    0x95, 0x08,
    0x81, 0x02,
    0x95, 0x01,
    0x75, 0x08,
    0x81, 0x03,
    0x95, 0x05,
    0x75, 0x01,
    0x05, 0x08,
    0x19, 0x01,
    0x29, 0x05,
    0x91, 0x02,
    0x95, 0x01,
    0x75, 0x03,
    0x91, 0x03,
    0x95, 0x06,
    0x75, 0x08,
    0x15, 0x00,
    0x25, 0x65,
    0x05, 0x07,
    0x19, 0x00,
    0x29, 0x65,
    0x81, 0x00,
    0xc0 ]

/-- The report descriptor `USBD_HIDReportDesc[USBD_HID_MOUSE_REPORT_DESC_SIZE]`. -/
def USBD_HIDReportDesc (k : HidConsts) : List Nat :=
  cArray k.USBD_HID_MOUSE_REPORT_DESC_SIZE USBD_HIDReportDesc_init

/-- `USBD_HID_ReportDescHandler`: the report descriptor and its `sizeof`. -/
def USBD_HID_ReportDescHandler (k : HidConsts) (_usbSpeed : Nat) : USBD_DESC_INFO_T :=
  { desc := some (USBD_HIDReportDesc k), size := k.USBD_HID_MOUSE_REPORT_DESC_SIZE }

/-- `USBD_HID_DescHandler`: the HID descriptor and its `sizeof`. -/
def USBD_HID_DescHandler (k : HidConsts) (_usbSpeed : Nat) : USBD_DESC_INFO_T :=
  { desc := some (USBD_HIDDesc k), size := k.USBD_HID_DESC_SIZE }

/-! ## Handlers -/

/-- Write of `devEpIn[i].interval`. -/
def setInterval (eps : List USBD_EP_INFO_T) (i v : Nat) : List USBD_EP_INFO_T :=
  match eps[i]? with
  | some e => eps.set i { e with interval := v }
  | none => eps

/-- Write of `devEpIn[i].useStatus`. -/
def setUseStatus (eps : List USBD_EP_INFO_T) (i : Nat) (v : FunctionalState) :
    List USBD_EP_INFO_T :=
  match eps[i]? with
  | some e => eps.set i { e with useStatus := v }
  | none => eps

/-- `USBD_HID_ClassInitHandler`. `mallocOk` tells whether `malloc` returned a block.
The `memset` precedes the `NULL` test, so on a failed allocation it writes through the
`NULL` pointer before the handler returns `USBD_FAIL`. After the `memset` every field of
the block is zero; the state byte is then overwritten with `USBD_HID_IDLE`. -/
def USBD_HID_ClassInitHandler (k : HidConsts) (usbInfo : USBD_INFO_T) (_cfgIndex : Nat)
    (mallocOk : Bool) : Outcome :=
  if mallocOk then
    let usbDevHID : USBD_HID_INFO_T :=
      { state := USBD_HID_STATE_T.USBD_HID_IDLE, epInAddr := 0, altSettingStatus := 0,
        idleStatus := 0, protocol := 0 }
    let usbDevHID := { usbDevHID with epInAddr := k.USBD_HID_IN_EP_ADDR }
    let eps :=
      if usbInfo.devSpeed = k.USBD_SPEED_FS then
        setInterval usbInfo.devEpIn (usbDevHID.epInAddr &&& 0x0F) k.USBD_HID_FS_INTERVAL
      else
        setInterval usbInfo.devEpIn (usbDevHID.epInAddr &&& 0x0F) k.USBD_HID_HS_INTERVAL
    let eps := setUseStatus eps (usbDevHID.epInAddr &&& 0x0F) FunctionalState.ENABLE
    let usbDevHID := { usbDevHID with state := USBD_HID_STATE_T.USBD_HID_IDLE }
    { status := USBD_STA_T.USBD_OK,
      usbInfo := { usbInfo with devEpIn := eps, classData := some usbDevHID },
      effects := [Effect.USBD_EP_OpenCallback usbDevHID.epInAddr k.EP_TYPE_INTERRUPT
                    k.USBD_HID_IN_EP_SIZE] }
  else
    { status := USBD_STA_T.USBD_FAIL,
      usbInfo := { usbInfo with classData := none },
      effects := [Effect.nullInstanceAccess] }

/-- `USBD_HID_ClassDeInitHandler`. The handler reads `usbDevHID->epInAddr` before it
tests the pointer; `nullRead` is the value such a read yields when the pointer is
`NULL`. -/
def USBD_HID_ClassDeInitHandler (usbInfo : USBD_INFO_T) (_cfgIndex : Nat)
    (nullRead : Nat) : Outcome :=
  match usbInfo.classData with
  | some usbDevHID =>
    let eps := setInterval usbInfo.devEpIn (usbDevHID.epInAddr &&& 0x0F) 0
    let eps := setUseStatus eps (usbDevHID.epInAddr &&& 0x0F) FunctionalState.DISABLE
    { status := USBD_STA_T.USBD_OK,
      usbInfo := { usbInfo with devEpIn := eps, classData := none },
      effects := [Effect.USBD_EP_CloseCallback usbDevHID.epInAddr] }
  | none =>
    let eps := setInterval usbInfo.devEpIn (nullRead &&& 0x0F) 0
    let eps := setUseStatus eps (nullRead &&& 0x0F) FunctionalState.DISABLE
    { status := USBD_STA_T.USBD_OK,
      usbInfo := { usbInfo with devEpIn := eps },
      effects := [Effect.nullInstanceAccess, Effect.USBD_EP_CloseCallback nullRead] }

/-- `USBD_HID_SOFHandler`. -/
def USBD_HID_SOFHandler (usbInfo : USBD_INFO_T) : Outcome :=
  { status := USBD_STA_T.USBD_BUSY, usbInfo := usbInfo, effects := [] }

/-- The end of the `USBD_STD_GET_DESCRIPTOR` case: `if (descInfo.desc != NULL)` the
descriptor is sent. `pre` are the calls made before that test. -/
def sendDescriptor (usbInfo : USBD_INFO_T) (usbStatus : USBD_STA_T) (pre : List Effect)
    (descInfo : USBD_DESC_INFO_T) : Outcome :=
  match descInfo.desc with
  | some buf =>
    { status := usbStatus, usbInfo := usbInfo,
      effects := pre ++ [Effect.USBD_CtrlSendData buf descInfo.size] }
  | none => { status := usbStatus, usbInfo := usbInfo, effects := pre }

/-- `USBD_HID_SetupHandler`. The local `descInfo` is declared without an initialiser;
`descInfo0` is the value it holds on entry. The request type is read from
`usbInfo->reqSetup`, every other field from the packet `req`. -/
def USBD_HID_SetupHandler (k : HidConsts) (usbInfo : USBD_INFO_T) (req : USBD_REQ_SETUP_T)
    (descInfo0 : USBD_DESC_INFO_T) : Outcome :=
  let wValue := (req.wValue0 ||| (req.wValue1 <<< 8)) % 65536
  let wLength := (req.wLength0 ||| (req.wLength1 <<< 8)) % 65536
  match usbInfo.classData with
  | none => { status := USBD_STA_T.USBD_FAIL, usbInfo := usbInfo, effects := [] }
  | some usbDevHID =>
    let request := req.bRequest
    let reqType := usbInfo.reqSetup.type
    if reqType = k.USBD_REQ_TYPE_STANDARD then
      if request = k.USBD_STD_GET_DESCRIPTOR then
        if req.wValue1 = k.USBD_DESC_HID_REPORT then
          let descInfo := USBD_HID_ReportDescHandler k usbInfo.devSpeed
          sendDescriptor usbInfo USBD_STA_T.USBD_OK []
            { descInfo with
              size := if descInfo.size < wLength then descInfo.size else wLength }
        else if req.wValue1 = k.USBD_DESC_HID then
          let descInfo := USBD_HID_DescHandler k usbInfo.devSpeed
          sendDescriptor usbInfo USBD_STA_T.USBD_OK []
            { descInfo with
              size := if descInfo.size < wLength then descInfo.size else wLength }
        else
          sendDescriptor usbInfo USBD_STA_T.USBD_FAIL [Effect.USBD_REQ_CtrlError req] descInfo0
      else if request = k.USBD_STD_GET_STATUS then
        if usbInfo.devState = k.USBD_DEV_CONFIGURE then
          { status := USBD_STA_T.USBD_OK, usbInfo := usbInfo,
            effects := [Effect.USBD_CtrlSendData [0, 0] 2] }
        else
          { status := USBD_STA_T.USBD_FAIL, usbInfo := usbInfo,
            effects := [Effect.USBD_REQ_CtrlError req] }
      else if request = k.USBD_STD_GET_INTERFACE then
        if usbInfo.devState = k.USBD_DEV_CONFIGURE then
          { status := USBD_STA_T.USBD_OK, usbInfo := usbInfo,
            effects := [Effect.USBD_CtrlSendData [usbDevHID.altSettingStatus % 256] 1] }
        else
          { status := USBD_STA_T.USBD_FAIL, usbInfo := usbInfo,
            effects := [Effect.USBD_REQ_CtrlError req] }
      else if request = k.USBD_STD_SET_INTERFACE then
        if usbInfo.devState = k.USBD_DEV_CONFIGURE then
          { status := USBD_STA_T.USBD_OK,
            usbInfo :=
              { usbInfo with
                classData := some
                  { usbDevHID with
                    altSettingStatus := wValue % 2 ^ k.altSettingStatusBits } },
            effects := [] }
        else
          { status := USBD_STA_T.USBD_FAIL, usbInfo := usbInfo,
            effects := [Effect.USBD_REQ_CtrlError req] }
      else if request = k.USBD_STD_CLEAR_FEATURE then
        { status := USBD_STA_T.USBD_OK, usbInfo := usbInfo, effects := [] }
      else
        { status := USBD_STA_T.USBD_FAIL, usbInfo := usbInfo,
          effects := [Effect.USBD_REQ_CtrlError req] }
    else if reqType = k.USBD_REQ_TYPE_CLASS then
      if request = k.USBD_CLASS_SET_IDLE then
        { status := USBD_STA_T.USBD_OK,
          usbInfo :=
            { usbInfo with
              classData := some { usbDevHID with idleStatus := req.wValue1 } },
          effects := [] }
      else if request = k.USBD_CLASS_GET_IDLE then
        { status := USBD_STA_T.USBD_OK, usbInfo := usbInfo,
          effects := [Effect.USBD_CtrlSendData [usbDevHID.idleStatus % 256] 1] }
      else if request = k.USBD_CLASS_SET_PROTOCOL then
        { status := USBD_STA_T.USBD_OK,
          usbInfo :=
            { usbInfo with
              classData := some { usbDevHID with protocol := req.wValue0 } },
          effects := [] }
      else if request = k.USBD_CLASS_GET_PROTOCOL then
        { status := USBD_STA_T.USBD_OK, usbInfo := usbInfo,
          effects := [Effect.USBD_CtrlSendData [usbDevHID.protocol % 256] 1] }
      else
        { status := USBD_STA_T.USBD_FAIL, usbInfo := usbInfo,
          effects := [Effect.USBD_REQ_CtrlError req] }
    else if reqType = k.USBD_REQ_TYPE_VENDOR then
      { status := USBD_STA_T.USBD_FAIL, usbInfo := usbInfo,
        effects := [Effect.USBD_REQ_CtrlError req] }
    else
      { status := USBD_STA_T.USBD_FAIL, usbInfo := usbInfo,
        effects := [Effect.USBD_REQ_CtrlError req] }

/-- `USBD_HID_DataInHandler`. The parameter `epNum` is not read. -/
def USBD_HID_DataInHandler (usbInfo : USBD_INFO_T) (_epNum : Nat) : Outcome :=
  match usbInfo.classData with
  | none => { status := USBD_STA_T.USBD_FAIL, usbInfo := usbInfo, effects := [] }
  | some usbDevHID =>
    { status := USBD_STA_T.USBD_OK,
      usbInfo :=
        { usbInfo with
          classData := some { usbDevHID with state := USBD_HID_STATE_T.USBD_HID_IDLE } },
      effects := [] }

/-- `USBD_HID_TxReport`. -/
def USBD_HID_TxReport (k : HidConsts) (usbInfo : USBD_INFO_T) (report : List Nat)
    (length : Nat) : Outcome :=
  match usbInfo.classData with
  | none => { status := USBD_STA_T.USBD_FAIL, usbInfo := usbInfo, effects := [] }
  | some usbDevHID =>
    if usbInfo.devState = k.USBD_DEV_CONFIGURE then
      if usbDevHID.state = USBD_HID_STATE_T.USBD_HID_IDLE then
        { status := USBD_STA_T.USBD_OK,
          usbInfo :=
            { usbInfo with
              classData := some { usbDevHID with state := USBD_HID_STATE_T.USBD_HID_BUSY } },
          effects := [Effect.USBD_EP_TransferCallback usbDevHID.epInAddr report length] }
      else
        { status := USBD_STA_T.USBD_OK, usbInfo := usbInfo, effects := [] }
    else
      { status := USBD_STA_T.USBD_OK, usbInfo := usbInfo, effects := [] }

/-! ## Observations on the calls made -/

/-- The endpoint transfers among the calls made. -/
def transfers (es : List Effect) : List Effect :=
  es.filter fun e =>
    match e with
    | Effect.USBD_EP_TransferCallback _ _ _ => true
    | _ => false

/-- The control data replies among the calls made. -/
def ctrlReplies (es : List Effect) : List Effect :=
  es.filter fun e =>
    match e with
    | Effect.USBD_CtrlSendData _ _ => true
    | _ => false

/-- The protocol errors (stalls) among the calls made. -/
def ctrlErrors (es : List Effect) : List Effect :=
  es.filter fun e =>
    match e with
    | Effect.USBD_REQ_CtrlError _ => true
    | _ => false

/-- The bytes that a call `USBD_CtrlSendData(usbInfo, buffer, length)` puts on the
control endpoint: the first `length` bytes at `buffer`. -/
def replyBytes : Effect → List Nat
  | Effect.USBD_CtrlSendData buffer length => buffer.take length
  | _ => []

/-- The transmit state of the instance, when there is one. -/
def stateOf (usbInfo : USBD_INFO_T) : Option USBD_HID_STATE_T :=
  usbInfo.classData.map fun usbDevHID => usbDevHID.state

/-! ## Sequences of calls -/

/-- The four entry points that run between class init and class deinit. -/
inductive Entry where
  | HandleSetup (req : USBD_REQ_SETUP_T) (descInfo0 : USBD_DESC_INFO_T)
  | HandleStartOfFrame
  | SubmitReport (report : List Nat) (length : Nat)
  | HandleTransferComplete (epNum : Nat)
  deriving DecidableEq

/-- One call of an entry point, with the values that the device core has put in its
own fields of the device context by the time of the call. -/
structure Call where
  devSpeed : Nat
  devState : Nat
  reqSetup : USBD_REQ_SETUP_T
  entry : Entry
  deriving DecidableEq

/-- Whether the call is a transfer-complete callback. -/
def Call.isTransferComplete (c : Call) : Bool :=
  match c.entry with
  | Entry.HandleTransferComplete _ => true
  | _ => false

/-- Whether the call is a report submission. -/
def Call.isSubmitReport (c : Call) : Bool :=
  match c.entry with
  | Entry.SubmitReport _ _ => true
  | _ => false

/-- Runs one call on the device context. -/
def step (k : HidConsts) (usbInfo : USBD_INFO_T) (c : Call) : Outcome :=
  let u := { usbInfo with devSpeed := c.devSpeed, devState := c.devState,
                          reqSetup := c.reqSetup }
  match c.entry with
  | Entry.HandleSetup req descInfo0 => USBD_HID_SetupHandler k u req descInfo0
  | Entry.HandleStartOfFrame => USBD_HID_SOFHandler u
  | Entry.SubmitReport report length => USBD_HID_TxReport k u report length
  | Entry.HandleTransferComplete epNum => USBD_HID_DataInHandler u epNum

/-- The device context after a sequence of calls. -/
def run (k : HidConsts) (usbInfo : USBD_INFO_T) : List Call → USBD_INFO_T
  | [] => usbInfo
  | c :: cs => run k (step k usbInfo c).usbInfo cs

/-! ## Sample inputs -/

/-- An all-zero setup packet. -/
def sampleReq : USBD_REQ_SETUP_T :=
  { recipient := 0, type := 0, dir := 0, bRequest := 0, wValue0 := 0, wValue1 := 0,
    wIndex0 := 0, wIndex1 := 0, wLength0 := 0, wLength1 := 0 }

/-- An instance on endpoint 0x81 in the given state. -/
def sampleHid (st : USBD_HID_STATE_T) : USBD_HID_INFO_T :=
  { state := st, epInAddr := 0x81, altSettingStatus := 0, idleStatus := 0, protocol := 0 }

/-- A device context with eight unused endpoint slots. -/
def sampleDev (devState : Nat) (classData : Option USBD_HID_INFO_T) : USBD_INFO_T :=
  { devSpeed := 0, devState := devState, reqSetup := sampleReq,
    devEpIn := List.replicate 8 { interval := 0, useStatus := FunctionalState.DISABLE },
    classData := classData }

/-- A STANDARD GET_DESCRIPTOR packet of the sample constants for the descriptor type
`descType`, asking for `wLength0` bytes (`wLength0 < 256`). -/
def sampleGetDescriptor (descType wLength0 : Nat) : USBD_REQ_SETUP_T :=
  { sampleReq with bRequest := 6, wValue1 := descType, wLength0 := wLength0 }

/-- A possible content of the stack slot of the local `descInfo` on entry to the setup
handler: a pointer that is not `NULL`, to the two bytes 0xDE 0xAD, and the size 2. -/
def sampleStaleDescInfo : USBD_DESC_INFO_T :=
  { desc := some [0xDE, 0xAD], size := 2 }

/-- A call of the given entry point on a full-speed device in state `devState`. -/
def sampleCall (devState : Nat) (entry : Entry) : Call :=
  { devSpeed := 0, devState := devState, reqSetup := sampleReq, entry := entry }

/-- The sample device context whose stored setup packet has the request type `type`. -/
def sampleDevOfType (type devState : Nat) (classData : Option USBD_HID_INFO_T) :
    USBD_INFO_T :=
  { sampleDev devState classData with reqSetup := { sampleReq with type := type } }

/-- A setup packet with the given request code and the two bytes of `wValue`. -/
def sampleRequest (bRequest wValue0 wValue1 : Nat) : USBD_REQ_SETUP_T :=
  { sampleReq with bRequest := bRequest, wValue0 := wValue0, wValue1 := wValue1 }

/-- An eight-byte keyboard report (key `a` pressed). -/
def sampleReport : List Nat := [0, 0, 4, 0, 0, 0, 0, 0]

/-- A setup packet that is by its own fields a CLASS request (type 1) SET_IDLE (code
0x0A) with the idle rate 0x7D in the high byte of `wValue`. -/
def sampleClassSetIdle : USBD_REQ_SETUP_T :=
  { sampleReq with type := 1, bRequest := 0x0A, wValue1 := 0x7D }

/-- The IN endpoint address of the instance, when there is one. -/
def epInAddrOf (usbInfo : USBD_INFO_T) : Option Nat :=
  usbInfo.classData.map fun usbDevHID => usbDevHID.epInAddr

/-- A device context without an instance whose endpoint slot 1 is in use with the
interval 10. -/
def sampleDevSlotInUse : USBD_INFO_T :=
  { sampleDev 3 none with
    devEpIn := (List.replicate 8
      { interval := 0, useStatus := FunctionalState.DISABLE }).set 1
      { interval := 10, useStatus := FunctionalState.ENABLE } }

/-- Modelled from the spec: the constants `USBD_HID_DESC_SIZE`, `USBD_DESC_HID` and
`USBD_DESC_HID_REPORT`, which give the array length and two elements of `USBD_HIDDesc`,
are defined in headers that are not among the sources. The spec has "the 9-byte HID
descriptor layout (length, type=0x21, bcdHID=0x0111, countryCode=0, numDescriptors=1,
reportDescType=0x22, reportDescLength little-endian)": the array length is 9, the
descriptor type HID is 0x21 and the descriptor type REPORT is 0x22. -/
def specDescriptorConsts (k : HidConsts) : Prop :=
  k.USBD_HID_DESC_SIZE = 9 ∧ k.USBD_DESC_HID = 0x21 ∧ k.USBD_DESC_HID_REPORT = 0x22

/-! ## Short items of a report descriptor

The report descriptor is a sequence of short items (HID 1.11, section 6.2.2.2): a
prefix byte with the data size in bits 0-1 (0, 1, 2 or 4 bytes), the item type in
bits 2-3 (0 main, 1 global, 2 local) and the tag in bits 4-7, followed by the data
bytes, low byte first. The reader below consumes the bytes one at a time and keeps
the global items REPORT_SIZE, REPORT_COUNT, USAGE_PAGE, LOGICAL_MINIMUM and
LOGICAL_MAXIMUM, the local items USAGE_MINIMUM and USAGE_MAXIMUM, and the fields
declared by the main items INPUT, OUTPUT and FEATURE. Item data are read as unsigned
numbers. -/

/-- The fields declared by one main item INPUT (tag 8), OUTPUT (tag 9) or FEATURE
(tag 11): `reportCount` fields of `reportSize` bits each. Bit 0 of `flags` tells
constant from data, bit 1 variable from array. -/
structure ReportField where
  mainTag : Nat
  flags : Nat
  reportSize : Nat
  reportCount : Nat
  usagePage : Nat
  usageMin : Option Nat
  usageMax : Option Nat
  logicalMin : Nat
  logicalMax : Nat
  deriving DecidableEq

/-- State of the item reader. `need` data bytes of the item with prefix `pfx` are still
to come; `got` of them have been read and make up `data`. -/
structure ItemState where
  need : Nat
  pfx : Nat
  data : Nat
  got : Nat
  reportSize : Nat
  reportCount : Nat
  usagePage : Nat
  logicalMin : Nat
  logicalMax : Nat
  usageMin : Option Nat
  usageMax : Option Nat
  fields : List ReportField
  deriving DecidableEq

/-- The reader before the first byte. -/
def ItemState.start : ItemState :=
  { need := 0, pfx := 0, data := 0, got := 0, reportSize := 0, reportCount := 0,
    usagePage := 0, logicalMin := 0, logicalMax := 0, usageMin := none, usageMax := none,
    fields := [] }

/-- Number of data bytes announced by a prefix byte. -/
def itemDataSize (pfx : Nat) : Nat :=
  match pfx % 4 with
  | 0 => 0
  | 1 => 1
  | 2 => 2
  | _ => 4

/-- Effect of a complete item with prefix `pfx` and data `value`. -/
def applyItem (s : ItemState) (pfx value : Nat) : ItemState :=
  let tag := pfx / 16
  let type := (pfx / 4) % 4
  if type = 1 then
    if tag = 0 then { s with usagePage := value }
    else if tag = 1 then { s with logicalMin := value }
    else if tag = 2 then { s with logicalMax := value }
    else if tag = 7 then { s with reportSize := value }
    else if tag = 9 then { s with reportCount := value }
    else s
  else if type = 2 then
    if tag = 1 then { s with usageMin := some value }
    else if tag = 2 then { s with usageMax := some value }
    else s
  else if type = 0 then
    if tag = 8 ∨ tag = 9 ∨ tag = 11 then
      { s with
        usageMin := none, usageMax := none,
        fields := s.fields ++
          [{ mainTag := tag, flags := value, reportSize := s.reportSize,
             reportCount := s.reportCount, usagePage := s.usagePage,
             usageMin := s.usageMin, usageMax := s.usageMax,
             logicalMin := s.logicalMin, logicalMax := s.logicalMax }] }
    else { s with usageMin := none, usageMax := none }
  else s

/-- The reader takes one byte. -/
def readByte (s : ItemState) (b : Nat) : ItemState :=
  if s.need = 0 then
    if itemDataSize b = 0 then applyItem s b 0
    else { s with need := itemDataSize b, pfx := b, data := 0, got := 0 }
  else
    if s.need = 1 then
      applyItem { s with need := 0, data := 0, got := 0 } s.pfx (s.data + b * 256 ^ s.got)
    else
      { s with need := s.need - 1, data := s.data + b * 256 ^ s.got, got := s.got + 1 }

/-- The reader after a sequence of bytes. -/
def readItems (bytes : List Nat) : ItemState :=
  bytes.foldl readByte ItemState.start

/-- The fields declared by the main items with tag `mainTag`, in order. -/
def fieldsOf (mainTag : Nat) (bytes : List Nat) : List ReportField :=
  (readItems bytes).fields.filter fun f => f.mainTag = mainTag

/-- Number of report bits that a list of fields takes. -/
def reportBits (fields : List ReportField) : Nat :=
  (fields.map fun f => f.reportSize * f.reportCount).sum

/-- A short item: the prefix byte and the data bytes that follow it. -/
structure ShortItem where
  pfx : Nat
  data : List Nat
  deriving DecidableEq

/-- Splits a byte sequence into short items, from byte 0 on: a prefix byte, then as many
data bytes as the prefix announces. The result is `none` when the bytes end inside an
item. One unit of `fuel` is spent per item. -/
def shortItems : Nat → List Nat → Option (List ShortItem)
  | _, [] => some []
  | 0, _ :: _ => none
  | fuel + 1, pfx :: rest =>
    if rest.length < itemDataSize pfx then none
    else
      (shortItems fuel (rest.drop (itemDataSize pfx))).map fun items =>
        { pfx := pfx, data := rest.take (itemDataSize pfx) } :: items

/-- The item is the main item INPUT (prefix 1000 00 nn). -/
def ShortItem.isInput (it : ShortItem) : Bool := it.pfx / 4 = 0x20

/-- The item is the main item OUTPUT (prefix 1001 00 nn). -/
def ShortItem.isOutput (it : ShortItem) : Bool := it.pfx / 4 = 0x24

/-- The item is the main item COLLECTION (prefix 1010 00 nn). -/
def ShortItem.isCollection (it : ShortItem) : Bool := it.pfx / 4 = 0x28

/-- The item is the main item END_COLLECTION (prefix 1100 00 nn). -/
def ShortItem.isEndCollection (it : ShortItem) : Bool := it.pfx / 4 = 0x30

/-- The item is the global item REPORT_SIZE (prefix 0111 01 nn). -/
def ShortItem.isReportSize (it : ShortItem) : Bool := it.pfx / 4 = 0x1D

/-- The item is the global item REPORT_COUNT (prefix 1001 01 nn). -/
def ShortItem.isReportCount (it : ShortItem) : Bool := it.pfx / 4 = 0x25

/-- Nesting depth after the items, starting from `depth`; `none` when an END_COLLECTION
comes without an open COLLECTION. -/
def collectionDepth : Nat → List ShortItem → Option Nat
  | depth, [] => some depth
  | depth, it :: rest =>
    if it.isCollection then collectionDepth (depth + 1) rest
    else if it.isEndCollection then
      match depth with
      | 0 => none
      | d + 1 => collectionDepth d rest
    else collectionDepth depth rest

/-- Whether every INPUT and OUTPUT item has a REPORT_SIZE and a REPORT_COUNT among the
items since the INPUT or OUTPUT item before it (`sz` and `ct` tell whether they were
seen already). -/
def sizeCountBeforeFields : Bool → Bool → List ShortItem → Bool
  | _, _, [] => true
  | sz, ct, it :: rest =>
    if it.isInput || it.isOutput then sz && ct && sizeCountBeforeFields false false rest
    else sizeCountBeforeFields (sz || it.isReportSize) (ct || it.isReportCount) rest

/-- Whether every INPUT and OUTPUT item has a REPORT_SIZE and a REPORT_COUNT somewhere
before it. -/
def sizeCountPrecedeFields (items : List ShortItem) : Bool :=
  (List.range items.length).all fun n =>
    match items[n]? with
    | some it =>
      !(it.isInput || it.isOutput) ||
        ((items.take n).any ShortItem.isReportSize &&
         (items.take n).any ShortItem.isReportCount)
    | none => true

end UsbdHid

/-!
# LCD drawing routines (bsp_lcd.c): embedding

The definitions of this namespace embed `LCD_CalPow`, `LCD_DrawLine`, `LCD_DrawCircle`,
`LCD_DisplayChar` and `LCD_DisplayIntNum` of
`Examples/APM32F0xx/Device_Examples/USBD_HID/Source/bsp_lcd.c`.

* A routine returns, in order, the calls it makes to the routines below it.
* `int` is 32 bits wide on the target; its values are integers here, and no `int`
  of these routines leaves the 32-bit range. Values of type `uint8_t`, `uint16_t`
  and `uint32_t` are natural numbers, reduced modulo 2^8, 2^16, 2^32 where the
  source stores or passes them.
* A loop whose number of iterations is not bounded by its own text takes a `fuel`
  argument and yields `none` when the fuel runs out before the loop ends.
-/

namespace BspLcd

/-- A call made by the drawing routines: `LCD_Address_Set(x1, y1, x2, y2)`,
`LCD_WriteHalfword(data)` or `LCD_DrawPoint(x, y, color)`. -/
inductive LcdOp where
  | addressSet (x1 y1 x2 y2 : Nat)
  | writeHalfword (data : Nat)
  | drawPoint (x y color : Nat)
  deriving DecidableEq

/-- Conversion of an `int` to `uint16_t`. -/
def toU16 (v : Int) : Nat := (v % 65536).toNat

/-- The loop `while(n--) result *= m;` of `LCD_CalPow`, with `result` of type
`uint32_t`. -/
def LCD_CalPow_loop (m : Nat) : Nat → Nat → Nat
  | 0, result => result
  | n + 1, result => LCD_CalPow_loop m n ((result * m) % 2 ^ 32)

/-- `LCD_CalPow`. -/
def LCD_CalPow (m n : Nat) : Nat :=
  LCD_CalPow_loop m n 1

/-! ## LCD_DrawLine -/

/-- The variables of the loop of `LCD_DrawLine`: the counter `i` (`uint16_t`) and the
`int` variables `xErr`, `yErr`, `uRow`, `uCol`. -/
structure LineState where
  i : Nat
  xErr : Int
  yErr : Int
  uRow : Int
  uCol : Int
  deriving DecidableEq

/-- One pass through the body of the loop of `LCD_DrawLine`, after the point is drawn. -/
def LCD_DrawLine_body (xDelta yDelta distance xInc yInc : Int) (st : LineState) :
    LineState :=
  let xErr := st.xErr + xDelta
  let yErr := st.yErr + yDelta
  let stx : Int × Int := if xErr > distance then (xErr - distance, st.uRow + xInc)
                         else (xErr, st.uRow)
  let sty : Int × Int := if yErr > distance then (yErr - distance, st.uCol + yInc)
                         else (yErr, st.uCol)
  { i := (st.i + 1) % 65536, xErr := stx.1, yErr := sty.1, uRow := stx.2, uCol := sty.2 }

/-- The loop `for(i = 0; i < distance + 1; i++)` of `LCD_DrawLine`: the values of
`(uRow, uCol)` at the calls of `LCD_DrawPoint`, in order. The comparison is made in
`int`, the counter wraps at 2^16. -/
def LCD_DrawLine_loop (xDelta yDelta distance xInc yInc : Int) :
    Nat → LineState → Option (List (Int × Int))
  | 0, st => if (st.i : Int) < distance + 1 then none else some []
  | fuel + 1, st =>
    if (st.i : Int) < distance + 1 then
      (LCD_DrawLine_loop xDelta yDelta distance xInc yInc fuel
        (LCD_DrawLine_body xDelta yDelta distance xInc yInc st)).map
        fun pts => (st.uRow, st.uCol) :: pts
    else some []

/-- The values of `(uRow, uCol)` at the calls of `LCD_DrawPoint` made by
`LCD_DrawLine(x1, y1, x2, y2, color)`, in order; `none` when the loop has not ended
after `fuel` passes. -/
def LCD_DrawLine_points (x1 y1 x2 y2 : Nat) (fuel : Nat) : Option (List (Int × Int)) :=
  let xDelta : Int := (x2 : Int) - x1
  let yDelta : Int := (y2 : Int) - y1
  let uRow : Int := x1
  let uCol : Int := y1
  let sx : Int × Int := if xDelta > 0 then (1, xDelta)
                        else if xDelta = 0 then (0, xDelta) else (-1, -xDelta)
  let sy : Int × Int := if yDelta > 0 then (1, yDelta)
                        else if yDelta = 0 then (0, yDelta) else (-1, -yDelta)
  let distance : Int := if sx.2 > sy.2 then sx.2 else sy.2
  LCD_DrawLine_loop sx.2 sy.2 distance sx.1 sy.1 fuel
    { i := 0, xErr := 0, yErr := 0, uRow := uRow, uCol := uCol }

/-- `LCD_DrawLine`: the calls of `LCD_DrawPoint`, whose coordinate parameters are
`uint16_t`. -/
def LCD_DrawLine (x1 y1 x2 y2 color : Nat) (fuel : Nat) : Option (List LcdOp) :=
  (LCD_DrawLine_points x1 y1 x2 y2 fuel).map fun pts =>
    pts.map fun p => LcdOp.drawPoint (toU16 p.1) (toU16 p.2) color

/-! ## LCD_DrawCircle -/

/-- The loop `while(a <= b)` of `LCD_DrawCircle`: the values of `(a, b)` at the passes
through the body, in order. -/
def LCD_DrawCircle_loop (radius : Int) : Nat → Int → Int → Option (List (Int × Int))
  | 0, a, b => if a ≤ b then none else some []
  | fuel + 1, a, b =>
    if a ≤ b then
      (LCD_DrawCircle_loop radius fuel (a + 1)
        (if (a + 1) * (a + 1) + b * b > radius * radius then b - 1 else b)).map
        fun offs => (a, b) :: offs
    else some []

/-- The eight points of one pass through the body of the loop of `LCD_DrawCircle`, in
the order of the calls, as `int` values. -/
def LCD_DrawCircle_pass (x0 y0 : Nat) (a b : Int) : List (Int × Int) :=
  [ ((x0 : Int) - b, (y0 : Int) - a),
    ((x0 : Int) + b, (y0 : Int) - a),
    ((x0 : Int) - a, (y0 : Int) + b),
    ((x0 : Int) - a, (y0 : Int) - b),
    ((x0 : Int) + b, (y0 : Int) + a),
    ((x0 : Int) + a, (y0 : Int) - b),
    ((x0 : Int) + a, (y0 : Int) + b),
    ((x0 : Int) - b, (y0 : Int) + a) ]

/-- `LCD_DrawCircle`: the calls of `LCD_DrawPoint`, whose coordinate parameters are
`uint16_t`; `none` when the loop has not ended after `fuel` passes. -/
def LCD_DrawCircle (x0 y0 radius color : Nat) (fuel : Nat) : Option (List LcdOp) :=
  (LCD_DrawCircle_loop radius fuel 0 radius).map fun offs =>
    offs.flatMap fun ab =>
      (LCD_DrawCircle_pass x0 y0 ab.1 ab.2).map fun p =>
        LcdOp.drawPoint (toU16 p.1) (toU16 p.2) color

/-! ## LCD_DisplayChar -/

/-- The font tables of bsp_lcd_font.h, which is not among the sources: `table num i` is
the element `table[num][i]`. -/
structure LcdFonts where
  asciiFont_1206 : Nat → Nat → Nat
  asciiFont_1608 : Nat → Nat → Nat
  asciiFont_2412 : Nat → Nat → Nat
  asciiFont_3216 : Nat → Nat → Nat

/-- The variables that the loops of `LCD_DisplayChar` update: the parameters `x`, `y`
and the counter `m` (`uint8_t`). -/
structure CharState where
  x : Nat
  y : Nat
  m : Nat
  deriving DecidableEq

/-- The font selection at the head of the outer loop of `LCD_DisplayChar`: the byte read
into `temp` (`uint8_t`), or `none` where the source returns. -/
def LCD_DisplayChar_select (fonts : LcdFonts) (fontSize num i : Nat) : Option Nat :=
  if fontSize = 12 then some (fonts.asciiFont_1206 num i % 256)
  else if fontSize = 16 then some (fonts.asciiFont_1608 num i % 256)
  else if fontSize = 24 then some (fonts.asciiFont_2412 num i % 256)
  else if fontSize = 32 then some (fonts.asciiFont_3216 num i % 256)
  else none

/-- The loop `for(t = 0; t < 8; t++)` of `LCD_DisplayChar` from `t` on, for the byte
`temp`; it takes at most eight passes, so `fuel = 8` lets it end by its own test or
its `break`. -/
def LCD_DisplayChar_bits (temp xSize fc bc mode x0 : Nat) :
    Nat → Nat → CharState → List LcdOp × CharState
  | 0, _, st => ([], st)
  | fuel + 1, t, st =>
    if t < 8 then
      if mode = 0 then
        let px := LcdOp.writeHalfword (if temp &&& (0x01 <<< t) ≠ 0 then fc else bc)
        let m := (st.m + 1) % 256
        if m % xSize = 0 then ([px], { st with m := 0 })
        else
          let r := LCD_DisplayChar_bits temp xSize fc bc mode x0 fuel (t + 1)
            { st with m := m }
          (px :: r.1, r.2)
      else
        let pt := if temp &&& (0x01 <<< t) ≠ 0 then [LcdOp.drawPoint st.x st.y fc] else []
        let x := (st.x + 1) % 65536
        if (x : Int) - x0 = xSize then (pt, { st with x := x0, y := (st.y + 1) % 65536 })
        else
          let r := LCD_DisplayChar_bits temp xSize fc bc mode x0 fuel (t + 1)
            { st with x := x }
          (pt ++ r.1, r.2)
    else ([], st)

/-- The loop `for(i = 0; i < characterSize; i++)` of `LCD_DisplayChar` from `i` on. It
takes at most `characterSize` passes. -/
def LCD_DisplayChar_bytes (fonts : LcdFonts) (num xSize fc bc fontSize mode x0
    characterSize : Nat) : Nat → Nat → CharState → List LcdOp
  | 0, _, _ => []
  | fuel + 1, i, st =>
    if i < characterSize then
      match LCD_DisplayChar_select fonts fontSize num i with
      | none => []
      | some temp =>
        let r := LCD_DisplayChar_bits temp xSize fc bc mode x0 8 0 st
        r.1 ++ LCD_DisplayChar_bytes fonts num xSize fc bc fontSize mode x0 characterSize
          fuel (i + 1) r.2
    else []

/-- `LCD_DisplayChar`. -/
def LCD_DisplayChar (fonts : LcdFonts) (x y num fc bc fontSize mode : Nat) : List LcdOp :=
  let xSize := (fontSize / 2) % 256
  let characterSize := ((xSize / 8 + (if xSize % 8 ≠ 0 then 1 else 0)) * fontSize) % 65536
  let num := (num + 256 - 32) % 256
  LcdOp.addressSet x y (toU16 ((x : Int) + xSize - 1)) (toU16 ((y : Int) + fontSize - 1)) ::
    LCD_DisplayChar_bytes fonts num xSize fc bc fontSize mode x characterSize
      characterSize 0 { x := x, y := y, m := 0 }

/-! ## LCD_DisplayIntNum -/

/-- The arguments of one call `LCD_DisplayChar(x, y, num, fc, bc, fontSize, mode)`. -/
structure CharCall where
  x : Nat
  y : Nat
  num : Nat
  fc : Nat
  bc : Nat
  fontSize : Nat
  mode : Nat
  deriving DecidableEq

/-- The loop `for(t = 0; t < len; t++)` of `LCD_DisplayIntNum` from `t` on: the calls of
`LCD_DisplayChar`, in order. `t` and `len` are `uint8_t`, so the loop takes at most
255 passes. The quotient is taken in `uint32_t`; where `LCD_CalPow` yields 0 the
source divides by zero, and the quotient is 0 here. -/
def LCD_DisplayIntNum_loop (x y num len fc bc fontSize xSize : Nat) :
    Nat → Nat → Nat → List CharCall
  | 0, _, _ => []
  | fuel + 1, t, enshow =>
    if t < len then
      let temp := ((num / LCD_CalPow 10 ((len - t - 1) % 256)) % 10) % 256
      if enshow = 0 ∧ t < len - 1 then
        if temp = 0 then
          { x := (x + t * xSize) % 65536, y := y, num := 32, fc := fc, bc := bc,
            fontSize := fontSize, mode := 0 } ::
            LCD_DisplayIntNum_loop x y num len fc bc fontSize xSize fuel ((t + 1) % 256) enshow
        else
          { x := (x + t * xSize) % 65536, y := y, num := (temp + 48) % 256, fc := fc,
            bc := bc, fontSize := fontSize, mode := 0 } ::
            LCD_DisplayIntNum_loop x y num len fc bc fontSize xSize fuel ((t + 1) % 256) 1
      else
        { x := (x + t * xSize) % 65536, y := y, num := (temp + 48) % 256, fc := fc,
          bc := bc, fontSize := fontSize, mode := 0 } ::
          LCD_DisplayIntNum_loop x y num len fc bc fontSize xSize fuel ((t + 1) % 256) enshow
    else []

/-- `LCD_DisplayIntNum`: the calls of `LCD_DisplayChar`, in order. -/
def LCD_DisplayIntNum (x y num len fc bc fontSize : Nat) : List CharCall :=
  LCD_DisplayIntNum_loop x y num len fc bc fontSize ((fontSize / 2) % 256) 256 0 0

/-! ## Sample inputs and reference values -/

/-- The decimal digit of `num` with weight `10 ^ (len - 1 - t)`. -/
def digitAt (num len t : Nat) : Nat :=
  num / 10 ^ (len - 1 - t) % 10

/-- Whether the digits of `num` at the positions `0` to `t` of a field of `len` digits
are all zero. -/
def digitsZeroUpTo (num len t : Nat) : Bool :=
  (List.range (t + 1)).all fun s => digitAt num len s = 0

/-- Font tables in which the byte `i` of every glyph is `0xA5 + i`, for evaluation on
concrete inputs. -/
def sampleFonts : LcdFonts :=
  { asciiFont_1206 := fun _ i => 0xA5 + i,
    asciiFont_1608 := fun _ i => 0xA5 + i,
    asciiFont_2412 := fun _ i => 0xA5 + i,
    asciiFont_3216 := fun _ i => 0xA5 + i }

/-- The pixel written for the bit `t` of the glyph byte `temp`. -/
def pixelOf (temp t fc bc : Nat) : LcdOp :=
  LcdOp.writeHalfword (if temp &&& (0x01 <<< t) ≠ 0 then fc else bc)

/-- The pixels of a glyph of `rows` rows and `cols` columns stored row by row in
`bytesPerRow` bytes per row, least significant bit first: for the rows in order, the
columns in order. -/
def glyphPixels (glyph : Nat → Nat) (rows cols bytesPerRow fc bc : Nat) : List LcdOp :=
  (List.range rows).flatMap fun r =>
    (List.range cols).map fun c =>
      pixelOf (glyph (r * bytesPerRow + c / 8) % 256) (c % 8) fc bc

end BspLcd

namespace UsbdHid

open USBD_STA_T USBD_HID_STATE_T FunctionalState

/-! ## Frame lemmas on the transmit state -/

/-- The end of the GET_DESCRIPTOR case returns the device context it was given. -/
theorem sendDescriptor_usbInfo (usbInfo : USBD_INFO_T) (usbStatus : USBD_STA_T)
    (pre : List Effect) (descInfo : USBD_DESC_INFO_T) :
    (sendDescriptor usbInfo usbStatus pre descInfo).usbInfo = usbInfo := by
  unfold sendDescriptor
  cases descInfo.desc <;> rfl

/-- The end of the GET_DESCRIPTOR case returns the status it was given. -/
theorem sendDescriptor_status (usbInfo : USBD_INFO_T) (usbStatus : USBD_STA_T)
    (pre : List Effect) (descInfo : USBD_DESC_INFO_T) :
    (sendDescriptor usbInfo usbStatus pre descInfo).status = usbStatus := by
  unfold sendDescriptor
  cases descInfo.desc <;> rfl

/-- The setup handler never changes the transmit state. -/
theorem stateOf_SetupHandler (k : HidConsts) (usbInfo : USBD_INFO_T) (req : USBD_REQ_SETUP_T)
    (descInfo0 : USBD_DESC_INFO_T) :
    stateOf (USBD_HID_SetupHandler k usbInfo req descInfo0).usbInfo = stateOf usbInfo := by
  unfold USBD_HID_SetupHandler
  cases hc : usbInfo.classData with
  | none => simp [stateOf, hc]
  | some usbDevHID =>
    simp only
    split_ifs <;> simp [stateOf, hc, sendDescriptor_usbInfo]

/-- The start-of-frame handler returns the device context it was given. -/
theorem SOFHandler_usbInfo (usbInfo : USBD_INFO_T) :
    (USBD_HID_SOFHandler usbInfo).usbInfo = usbInfo := rfl

/-- A report submission leaves a BUSY instance BUSY. -/
theorem stateOf_TxReport_of_busy (k : HidConsts) (usbInfo : USBD_INFO_T)
    (report : List Nat) (length : Nat) (hbusy : stateOf usbInfo = some USBD_HID_BUSY) :
    stateOf (USBD_HID_TxReport k usbInfo report length).usbInfo = some USBD_HID_BUSY := by
  unfold USBD_HID_TxReport
  cases hc : usbInfo.classData with
  | none => simp [stateOf, hc] at hbusy
  | some usbDevHID =>
    have hb : usbDevHID.state = USBD_HID_BUSY := by simpa [stateOf, hc] using hbusy
    simp only
    split_ifs <;> simp_all [stateOf]

/-- A report submission that hands a transfer to the transport found the instance IDLE
and leaves it BUSY. -/
theorem TxReport_transfer_idle_busy (k : HidConsts) (usbInfo : USBD_INFO_T)
    (report : List Nat) (length : Nat)
    (ht : transfers (USBD_HID_TxReport k usbInfo report length).effects ≠ []) :
    stateOf usbInfo = some USBD_HID_IDLE ∧
    stateOf (USBD_HID_TxReport k usbInfo report length).usbInfo = some USBD_HID_BUSY := by
  unfold USBD_HID_TxReport at ht ⊢
  cases hc : usbInfo.classData with
  | none => simp [hc, transfers] at ht
  | some usbDevHID =>
    simp only [hc] at ht ⊢
    split_ifs at ht ⊢ <;> simp_all [stateOf, transfers]

/-- The transfer-complete handler leaves an existing instance IDLE. -/
theorem stateOf_DataInHandler (usbInfo : USBD_INFO_T) (epNum : Nat)
    (usbDevHID : USBD_HID_INFO_T) (hinst : usbInfo.classData = some usbDevHID) :
    stateOf (USBD_HID_DataInHandler usbInfo epNum).usbInfo = some USBD_HID_IDLE := by
  simp [USBD_HID_DataInHandler, stateOf, hinst]

/-! ## Report transmission -/

/-- C2: on a CONFIGURED device whose instance exists and is IDLE, for every report buffer
and length, `USBD_HID_TxReport` returns `USBD_OK`, makes exactly one call, the transfer of
the given buffer and length on the instance's `epInAddr`, and sets `state` to BUSY while
every other field of the instance and of the device context keeps its value. -/
theorem C2_submit_idle_accepted (k : HidConsts) (usbInfo : USBD_INFO_T)
    (usbDevHID : USBD_HID_INFO_T) (report : List Nat) (length : Nat)
    (hcfg : usbInfo.devState = k.USBD_DEV_CONFIGURE)
    (hinst : usbInfo.classData = some usbDevHID)
    (hidle : usbDevHID.state = USBD_HID_IDLE) :
    (USBD_HID_TxReport k usbInfo report length).status = USBD_OK ∧
    (USBD_HID_TxReport k usbInfo report length).effects =
      [Effect.USBD_EP_TransferCallback usbDevHID.epInAddr report length] ∧
    (USBD_HID_TxReport k usbInfo report length).usbInfo.classData =
      some { usbDevHID with state := USBD_HID_BUSY } ∧
    (USBD_HID_TxReport k usbInfo report length).usbInfo =
      { usbInfo with classData := some { usbDevHID with state := USBD_HID_BUSY } } := by
  simp [USBD_HID_TxReport, hcfg, hinst, hidle]

/-- Witness of C2 on the sample device. -/
theorem C2_submit_idle_accepted_witness :
    (USBD_HID_TxReport usbConsts (sampleDev 3 (some (sampleHid USBD_HID_IDLE)))
        sampleReport 8).status = USBD_OK ∧
    (USBD_HID_TxReport usbConsts (sampleDev 3 (some (sampleHid USBD_HID_IDLE)))
        sampleReport 8).effects = [Effect.USBD_EP_TransferCallback 0x81 sampleReport 8] ∧
    stateOf (USBD_HID_TxReport usbConsts (sampleDev 3 (some (sampleHid USBD_HID_IDLE)))
        sampleReport 8).usbInfo = some USBD_HID_BUSY := by
  have h := C2_submit_idle_accepted usbConsts (sampleDev 3 (some (sampleHid USBD_HID_IDLE)))
    (sampleHid USBD_HID_IDLE) sampleReport 8 rfl rfl rfl
  refine ⟨h.1, h.2.1, ?_⟩
  rw [stateOf, h.2.2.1]
  rfl

/-- C3: on a CONFIGURED device with an IDLE instance, two `USBD_HID_TxReport` calls in
immediate succession make exactly one transfer, that of the first report; the second
call makes no call at all and leaves the device context, with `state` BUSY and every
other instance field, as the first call left it. -/
theorem C3_submit_twice_one_transfer (k : HidConsts) (usbInfo : USBD_INFO_T)
    (usbDevHID : USBD_HID_INFO_T) (report1 report2 : List Nat) (length1 length2 : Nat)
    (hcfg : usbInfo.devState = k.USBD_DEV_CONFIGURE)
    (hinst : usbInfo.classData = some usbDevHID)
    (hidle : usbDevHID.state = USBD_HID_IDLE) :
    (USBD_HID_TxReport k usbInfo report1 length1).effects ++
        (USBD_HID_TxReport k (USBD_HID_TxReport k usbInfo report1 length1).usbInfo
          report2 length2).effects =
      [Effect.USBD_EP_TransferCallback usbDevHID.epInAddr report1 length1] ∧
    (USBD_HID_TxReport k (USBD_HID_TxReport k usbInfo report1 length1).usbInfo
        report2 length2).effects = [] ∧
    (USBD_HID_TxReport k (USBD_HID_TxReport k usbInfo report1 length1).usbInfo
        report2 length2).usbInfo = (USBD_HID_TxReport k usbInfo report1 length1).usbInfo ∧
    (USBD_HID_TxReport k (USBD_HID_TxReport k usbInfo report1 length1).usbInfo
        report2 length2).usbInfo.classData =
      some { usbDevHID with state := USBD_HID_BUSY } := by
  simp [USBD_HID_TxReport, hcfg, hinst, hidle]

/-- Witness of C3 on the sample device, with two different reports. -/
theorem C3_submit_twice_one_transfer_witness :
    (USBD_HID_TxReport usbConsts (sampleDev 3 (some (sampleHid USBD_HID_IDLE)))
        sampleReport 8).effects ++
      (USBD_HID_TxReport usbConsts
        (USBD_HID_TxReport usbConsts (sampleDev 3 (some (sampleHid USBD_HID_IDLE)))
          sampleReport 8).usbInfo [0, 0, 5, 0, 0, 0, 0, 0] 8).effects =
      [Effect.USBD_EP_TransferCallback 0x81 sampleReport 8] :=
  (C3_submit_twice_one_transfer usbConsts (sampleDev 3 (some (sampleHid USBD_HID_IDLE)))
    (sampleHid USBD_HID_IDLE) sampleReport [0, 0, 5, 0, 0, 0, 0, 0] 8 8 rfl rfl rfl).1

/-- C4, as stated, fails: on the CONFIGURED sample device the first submission is handed
to the transport, the second finds the instance BUSY and hands nothing over, and the
two calls return the same status. -/
theorem C4_busy_status_counterexample :
    (sampleDev 3 (some (sampleHid USBD_HID_IDLE))).devState = usbConsts.USBD_DEV_CONFIGURE ∧
    (USBD_HID_TxReport usbConsts (sampleDev 3 (some (sampleHid USBD_HID_IDLE)))
        sampleReport 8).effects = [Effect.USBD_EP_TransferCallback 0x81 sampleReport 8] ∧
    stateOf (sampleDev 3 (some (sampleHid USBD_HID_BUSY))) = some USBD_HID_BUSY ∧
    (USBD_HID_TxReport usbConsts (sampleDev 3 (some (sampleHid USBD_HID_BUSY)))
        sampleReport 8).effects = [] ∧
    ¬ ((USBD_HID_TxReport usbConsts (sampleDev 3 (some (sampleHid USBD_HID_BUSY)))
          sampleReport 8).status ≠
       (USBD_HID_TxReport usbConsts (sampleDev 3 (some (sampleHid USBD_HID_IDLE)))
          sampleReport 8).status) := by
  decide

/-- C4 (amended): on a CONFIGURED device whose instance is BUSY, `USBD_HID_TxReport`
hands nothing to the transport, leaves the device context as it is and returns
`USBD_OK`, which is the very status it returns on a CONFIGURED device with an IDLE
instance, where the report is handed to the transport. -/
theorem C4_busy_returns_ok (k : HidConsts) (usbInfo : USBD_INFO_T)
    (usbDevHID : USBD_HID_INFO_T) (report : List Nat) (length : Nat)
    (usbInfoI : USBD_INFO_T) (usbDevHIDI : USBD_HID_INFO_T) (reportI : List Nat)
    (lengthI : Nat)
    (hcfg : usbInfo.devState = k.USBD_DEV_CONFIGURE)
    (hinst : usbInfo.classData = some usbDevHID)
    (hbusy : usbDevHID.state = USBD_HID_BUSY)
    (hcfgI : usbInfoI.devState = k.USBD_DEV_CONFIGURE)
    (hinstI : usbInfoI.classData = some usbDevHIDI)
    (hidleI : usbDevHIDI.state = USBD_HID_IDLE) :
    (USBD_HID_TxReport k usbInfo report length).status = USBD_OK ∧
    (USBD_HID_TxReport k usbInfo report length).effects = [] ∧
    (USBD_HID_TxReport k usbInfo report length).usbInfo = usbInfo ∧
    transfers (USBD_HID_TxReport k usbInfoI reportI lengthI).effects =
      [Effect.USBD_EP_TransferCallback usbDevHIDI.epInAddr reportI lengthI] ∧
    (USBD_HID_TxReport k usbInfo report length).status =
      (USBD_HID_TxReport k usbInfoI reportI lengthI).status := by
  simp [USBD_HID_TxReport, transfers, hcfg, hinst, hbusy, hcfgI, hinstI, hidleI]

/-- Witness of the amended C4 on the sample device. -/
theorem C4_busy_returns_ok_witness :
    (sampleDev 3 (some (sampleHid USBD_HID_BUSY))).devState = usbConsts.USBD_DEV_CONFIGURE ∧
    (sampleHid USBD_HID_BUSY).state = USBD_HID_BUSY ∧
    (USBD_HID_TxReport usbConsts (sampleDev 3 (some (sampleHid USBD_HID_BUSY)))
        sampleReport 8).status = USBD_OK :=
  ⟨rfl, rfl,
    (C4_busy_returns_ok usbConsts (sampleDev 3 (some (sampleHid USBD_HID_BUSY)))
      (sampleHid USBD_HID_BUSY) sampleReport 8
      (sampleDev 3 (some (sampleHid USBD_HID_IDLE))) (sampleHid USBD_HID_IDLE)
      sampleReport 8 rfl rfl rfl rfl rfl rfl).1⟩

/-- C5, as stated, fails: on the sample device in a state other than CONFIGURED the
submission hands nothing over, yet it returns the same status as the accepted
submission on the CONFIGURED device. -/
theorem C5_not_ready_status_counterexample :
    (sampleDev 2 (some (sampleHid USBD_HID_IDLE))).devState ≠ usbConsts.USBD_DEV_CONFIGURE ∧
    (USBD_HID_TxReport usbConsts (sampleDev 2 (some (sampleHid USBD_HID_IDLE)))
        sampleReport 8).effects = [] ∧
    (USBD_HID_TxReport usbConsts (sampleDev 3 (some (sampleHid USBD_HID_IDLE)))
        sampleReport 8).effects = [Effect.USBD_EP_TransferCallback 0x81 sampleReport 8] ∧
    ¬ ((USBD_HID_TxReport usbConsts (sampleDev 2 (some (sampleHid USBD_HID_IDLE)))
          sampleReport 8).status ≠
       (USBD_HID_TxReport usbConsts (sampleDev 3 (some (sampleHid USBD_HID_IDLE)))
          sampleReport 8).status) := by
  decide

/-- C5 (amended): in every device state other than CONFIGURED, with the instance
present in either transmit state, `USBD_HID_TxReport` makes no call, leaves every field
of the instance and of the device context unchanged, and returns `USBD_OK`, the same
status as for a report that was handed to the transport. -/
theorem C5_not_configured_noop (k : HidConsts) (usbInfo : USBD_INFO_T)
    (usbDevHID : USBD_HID_INFO_T) (report : List Nat) (length : Nat)
    (usbInfoI : USBD_INFO_T) (usbDevHIDI : USBD_HID_INFO_T) (reportI : List Nat)
    (lengthI : Nat)
    (hcfg : usbInfo.devState ≠ k.USBD_DEV_CONFIGURE)
    (hinst : usbInfo.classData = some usbDevHID)
    (hcfgI : usbInfoI.devState = k.USBD_DEV_CONFIGURE)
    (hinstI : usbInfoI.classData = some usbDevHIDI)
    (hidleI : usbDevHIDI.state = USBD_HID_IDLE) :
    (USBD_HID_TxReport k usbInfo report length).effects = [] ∧
    (USBD_HID_TxReport k usbInfo report length).usbInfo = usbInfo ∧
    (USBD_HID_TxReport k usbInfo report length).status = USBD_OK ∧
    transfers (USBD_HID_TxReport k usbInfoI reportI lengthI).effects =
      [Effect.USBD_EP_TransferCallback usbDevHIDI.epInAddr reportI lengthI] ∧
    (USBD_HID_TxReport k usbInfo report length).status =
      (USBD_HID_TxReport k usbInfoI reportI lengthI).status := by
  simp [USBD_HID_TxReport, transfers, hcfg, hinst, hcfgI, hinstI, hidleI]

/-- Witness of the amended C5 on the sample device in state 2, instance BUSY. -/
theorem C5_not_configured_noop_witness :
    (sampleDev 2 (some (sampleHid USBD_HID_BUSY))).devState ≠ usbConsts.USBD_DEV_CONFIGURE ∧
    (USBD_HID_TxReport usbConsts (sampleDev 2 (some (sampleHid USBD_HID_BUSY)))
        sampleReport 8).effects = [] ∧
    (USBD_HID_TxReport usbConsts (sampleDev 2 (some (sampleHid USBD_HID_BUSY)))
        sampleReport 8).usbInfo = sampleDev 2 (some (sampleHid USBD_HID_BUSY)) :=
  ⟨by decide,
    (C5_not_configured_noop usbConsts (sampleDev 2 (some (sampleHid USBD_HID_BUSY)))
      (sampleHid USBD_HID_BUSY) sampleReport 8
      (sampleDev 3 (some (sampleHid USBD_HID_IDLE))) (sampleHid USBD_HID_IDLE)
      sampleReport 8 (by decide) rfl rfl rfl rfl).1,
    (C5_not_configured_noop usbConsts (sampleDev 2 (some (sampleHid USBD_HID_BUSY)))
      (sampleHid USBD_HID_BUSY) sampleReport 8
      (sampleDev 3 (some (sampleHid USBD_HID_IDLE))) (sampleHid USBD_HID_IDLE)
      sampleReport 8 (by decide) rfl rfl rfl rfl).2.1⟩

/-! ## Transfer complete -/

/-- C6: for every existing instance, in either prior state, `USBD_HID_DataInHandler`
called for the instance's IN endpoint number returns `USBD_OK`, makes no call, and
leaves `state` IDLE with every other field of the instance and of the device context
unchanged; a second application returns the same status and the same device context
as the first. -/
theorem C6_transfer_complete_idle (usbInfo : USBD_INFO_T) (usbDevHID : USBD_HID_INFO_T)
    (hinst : usbInfo.classData = some usbDevHID) :
    (USBD_HID_DataInHandler usbInfo (usbDevHID.epInAddr &&& 0x0F)).status = USBD_OK ∧
    (USBD_HID_DataInHandler usbInfo (usbDevHID.epInAddr &&& 0x0F)).effects = [] ∧
    (USBD_HID_DataInHandler usbInfo (usbDevHID.epInAddr &&& 0x0F)).usbInfo =
      { usbInfo with classData := some { usbDevHID with state := USBD_HID_IDLE } } ∧
    USBD_HID_DataInHandler
        (USBD_HID_DataInHandler usbInfo (usbDevHID.epInAddr &&& 0x0F)).usbInfo
        (usbDevHID.epInAddr &&& 0x0F) =
      USBD_HID_DataInHandler usbInfo (usbDevHID.epInAddr &&& 0x0F) := by
  simp [USBD_HID_DataInHandler, hinst]

/-- Witness of C6 on the sample device with a BUSY instance (IN endpoint number 1). -/
theorem C6_transfer_complete_idle_witness :
    (sampleDev 3 (some (sampleHid USBD_HID_BUSY))).classData = some (sampleHid USBD_HID_BUSY) ∧
    (USBD_HID_DataInHandler (sampleDev 3 (some (sampleHid USBD_HID_BUSY)))
        ((sampleHid USBD_HID_BUSY).epInAddr &&& 0x0F)).usbInfo =
      sampleDev 3 (some (sampleHid USBD_HID_IDLE)) :=
  ⟨rfl,
    (C6_transfer_complete_idle (sampleDev 3 (some (sampleHid USBD_HID_BUSY)))
      (sampleHid USBD_HID_BUSY) rfl).2.2.1⟩

/-- C7, as stated, fails: the sample instance is BUSY on endpoint address 0x81 (IN
endpoint number 1); `USBD_HID_DataInHandler` called with endpoint number 2 does not
leave `state` BUSY. -/
theorem C7_other_endpoint_counterexample :
    stateOf (sampleDev 3 (some (sampleHid USBD_HID_BUSY))) = some USBD_HID_BUSY ∧
    2 ≠ ((sampleHid USBD_HID_BUSY).epInAddr &&& 0x0F) ∧
    ¬ (stateOf (USBD_HID_DataInHandler (sampleDev 3 (some (sampleHid USBD_HID_BUSY))) 2).usbInfo
        = some USBD_HID_BUSY) := by
  decide

/-- C7 (amended): the state goes from BUSY to IDLE only on a transfer-complete callback,
whatever its endpoint number. For every BUSY instance, `USBD_HID_DataInHandler` leaves
`state` IDLE for every endpoint number, also one different from the instance's IN
endpoint number, while `USBD_HID_SetupHandler`, `USBD_HID_SOFHandler` and
`USBD_HID_TxReport` leave `state` BUSY. -/
theorem C7_busy_to_idle_only_on_transfer_complete (k : HidConsts) (usbInfo : USBD_INFO_T)
    (hbusy : stateOf usbInfo = some USBD_HID_BUSY) :
    (∀ epNum : Nat, stateOf (USBD_HID_DataInHandler usbInfo epNum).usbInfo
        = some USBD_HID_IDLE) ∧
    (∀ (req : USBD_REQ_SETUP_T) (descInfo0 : USBD_DESC_INFO_T),
        stateOf (USBD_HID_SetupHandler k usbInfo req descInfo0).usbInfo
          = some USBD_HID_BUSY) ∧
    stateOf (USBD_HID_SOFHandler usbInfo).usbInfo = some USBD_HID_BUSY ∧
    (∀ (report : List Nat) (length : Nat),
        stateOf (USBD_HID_TxReport k usbInfo report length).usbInfo
          = some USBD_HID_BUSY) := by
  refine ⟨?_, ?_, ?_, ?_⟩
  · intro epNum
    cases hc : usbInfo.classData with
    | none => simp [stateOf, hc] at hbusy
    | some usbDevHID => exact stateOf_DataInHandler usbInfo epNum usbDevHID hc
  · intro req descInfo0
    rw [stateOf_SetupHandler, hbusy]
  · rw [SOFHandler_usbInfo, hbusy]
  · intro report length
    exact stateOf_TxReport_of_busy k usbInfo report length hbusy

/-- Witness of the amended C7: on the BUSY sample instance (IN endpoint number 1) the
callback for endpoint number 2 leaves the state IDLE. -/
theorem C7_busy_to_idle_only_on_transfer_complete_witness :
    stateOf (sampleDev 3 (some (sampleHid USBD_HID_BUSY))) = some USBD_HID_BUSY ∧
    stateOf (USBD_HID_DataInHandler (sampleDev 3 (some (sampleHid USBD_HID_BUSY))) 2).usbInfo
      = some USBD_HID_IDLE :=
  ⟨rfl,
    (C7_busy_to_idle_only_on_transfer_complete usbConsts
      (sampleDev 3 (some (sampleHid USBD_HID_BUSY))) rfl).1 2⟩

/-! ## Setup requests: GET_DESCRIPTOR -/

/-- A C array has its declared length. -/
theorem cArray_length (n : Nat) (init : List Nat) : (cArray n init).length = n := by
  simp [cArray]
  omega

/-- A 16-bit word is recovered from its two bytes, low byte first. -/
theorem word_of_bytes (w : Nat) (hw : w < 65536) :
    ((w % 256) ||| ((w / 256) <<< 8)) % 65536 = w := by
  have h1 : (w / 256) <<< 8 = 2 ^ 8 * (w / 256) := by
    rw [Nat.shiftLeft_eq, Nat.mul_comm]
  have h2 : w % 256 < 2 ^ 8 := by
    have := Nat.mod_lt w (by decide : 0 < 256)
    simpa using this
  rw [Nat.or_comm, h1, ← Nat.mul_add_lt_is_or h2]
  have h3 : 2 ^ 8 * (w / 256) + w % 256 = w := by
    have := Nat.div_add_mod w 256
    simpa using this
  rw [h3]
  exact Nat.mod_eq_of_lt hw

/-- The GET_DESCRIPTOR case of the STANDARD branch, which the handler enters when the packet
stored in `usbInfo->reqSetup` has the type STANDARD. For every 16-bit `wLength` carried
low byte first in the packet `req`: when the high byte of `wValue` is REPORT (resp. HID,
a different value), the handler returns `USBD_OK`, leaves the device context and so
every instance field unchanged, signals no protocol error and makes exactly one call,
the control data reply of the first `min (blob size) wLength` bytes of the report
descriptor (resp. the HID descriptor): exactly `wLength` bytes, a prefix of the blob,
when `wLength` is smaller than the blob, and the whole blob when `wLength` is at least
its size. -/
theorem SetupHandler_get_descriptor_clamped (k : HidConsts) (usbInfo : USBD_INFO_T)
    (usbDevHID : USBD_HID_INFO_T) (req : USBD_REQ_SETUP_T) (descInfo0 : USBD_DESC_INFO_T)
    (wLength : Nat)
    (hinst : usbInfo.classData = some usbDevHID)
    (hstd : usbInfo.reqSetup.type = k.USBD_REQ_TYPE_STANDARD)
    (hreq : req.bRequest = k.USBD_STD_GET_DESCRIPTOR)
    (hlen : wLength < 65536)
    (hl0 : req.wLength0 = wLength % 256) (hl1 : req.wLength1 = wLength / 256) :
    (req.wValue1 = k.USBD_DESC_HID_REPORT →
      (USBD_HID_SetupHandler k usbInfo req descInfo0).status = USBD_OK ∧
      (USBD_HID_SetupHandler k usbInfo req descInfo0).usbInfo = usbInfo ∧
      ctrlErrors (USBD_HID_SetupHandler k usbInfo req descInfo0).effects = [] ∧
      (USBD_HID_SetupHandler k usbInfo req descInfo0).effects =
        [Effect.USBD_CtrlSendData (USBD_HIDReportDesc k)
          (min (USBD_HIDReportDesc k).length wLength)] ∧
      (USBD_HID_SetupHandler k usbInfo req descInfo0).effects.map replyBytes =
        [(USBD_HIDReportDesc k).take (min (USBD_HIDReportDesc k).length wLength)] ∧
      (wLength < (USBD_HIDReportDesc k).length →
        ((USBD_HIDReportDesc k).take (min (USBD_HIDReportDesc k).length wLength)).length
            = wLength ∧
        (USBD_HIDReportDesc k).take (min (USBD_HIDReportDesc k).length wLength)
            <+: USBD_HIDReportDesc k) ∧
      ((USBD_HIDReportDesc k).length ≤ wLength →
        (USBD_HIDReportDesc k).take (min (USBD_HIDReportDesc k).length wLength)
            = USBD_HIDReportDesc k)) ∧
    (req.wValue1 = k.USBD_DESC_HID → k.USBD_DESC_HID ≠ k.USBD_DESC_HID_REPORT →
      (USBD_HID_SetupHandler k usbInfo req descInfo0).status = USBD_OK ∧
      (USBD_HID_SetupHandler k usbInfo req descInfo0).usbInfo = usbInfo ∧
      ctrlErrors (USBD_HID_SetupHandler k usbInfo req descInfo0).effects = [] ∧
      (USBD_HID_SetupHandler k usbInfo req descInfo0).effects =
        [Effect.USBD_CtrlSendData (USBD_HIDDesc k) (min (USBD_HIDDesc k).length wLength)] ∧
      (USBD_HID_SetupHandler k usbInfo req descInfo0).effects.map replyBytes =
        [(USBD_HIDDesc k).take (min (USBD_HIDDesc k).length wLength)] ∧
      (wLength < (USBD_HIDDesc k).length →
        ((USBD_HIDDesc k).take (min (USBD_HIDDesc k).length wLength)).length = wLength ∧
        (USBD_HIDDesc k).take (min (USBD_HIDDesc k).length wLength) <+: USBD_HIDDesc k) ∧
      ((USBD_HIDDesc k).length ≤ wLength →
        (USBD_HIDDesc k).take (min (USBD_HIDDesc k).length wLength) = USBD_HIDDesc k)) := by
  have hw : (req.wLength0 ||| (req.wLength1 <<< 8)) % 65536 = wLength := by
    rw [hl0, hl1]
    exact word_of_bytes wLength hlen
  have hRlen : (USBD_HIDReportDesc k).length = k.USBD_HID_MOUSE_REPORT_DESC_SIZE :=
    cArray_length _ _
  have hHlen : (USBD_HIDDesc k).length = k.USBD_HID_DESC_SIZE := cArray_length _ _
  have hmin : ∀ a b : Nat, (if a < b then a else b) = min a b := by
    intro a b
    split_ifs with h
    · exact (Nat.min_eq_left (Nat.le_of_lt h)).symm
    · exact (Nat.min_eq_right (Nat.le_of_not_lt h)).symm
  constructor
  · intro hrep
    have ho : USBD_HID_SetupHandler k usbInfo req descInfo0 =
        { status := USBD_OK, usbInfo := usbInfo,
          effects := [Effect.USBD_CtrlSendData (USBD_HIDReportDesc k)
            (min (USBD_HIDReportDesc k).length wLength)] } := by
      simp only [USBD_HID_SetupHandler, hinst, hstd, hreq, hrep, hw, if_true,
        USBD_HID_ReportDescHandler, sendDescriptor, hmin, hRlen, List.nil_append]
    rw [ho]
    refine ⟨rfl, rfl, by simp [ctrlErrors], rfl, by simp [replyBytes], ?_, ?_⟩
    · intro hlt
      refine ⟨?_, List.take_prefix _ _⟩
      rw [List.length_take]
      omega
    · intro hle
      rw [Nat.min_eq_left hle]
      exact List.take_length _
  · intro hhid hne
    have hne2 : ¬ k.USBD_DESC_HID = k.USBD_DESC_HID_REPORT := hne
    have ho : USBD_HID_SetupHandler k usbInfo req descInfo0 =
        { status := USBD_OK, usbInfo := usbInfo,
          effects := [Effect.USBD_CtrlSendData (USBD_HIDDesc k)
            (min (USBD_HIDDesc k).length wLength)] } := by
      simp only [USBD_HID_SetupHandler, hinst, hstd, hreq, hhid, hne2, hw, if_true, if_false,
        USBD_HID_DescHandler, sendDescriptor, hmin, hHlen, List.nil_append]
    rw [ho]
    refine ⟨rfl, rfl, by simp [ctrlErrors], rfl, by simp [replyBytes], ?_, ?_⟩
    · intro hlt
      refine ⟨?_, List.take_prefix _ _⟩
      rw [List.length_take]
      omega
    · intro hle
      rw [Nat.min_eq_left hle]
      exact List.take_length _

/-- The default case of the descriptor-type switch, entered when the packet stored in
`usbInfo->reqSetup` has the type STANDARD: for a GET_DESCRIPTOR code in `req` whose
`wValue` high byte is neither REPORT nor HID, for every `wLength`, device state and
stack content, the handler signals exactly one protocol error, for the packet it was
given, returns `USBD_FAIL` and leaves the device context unchanged. -/
theorem SetupHandler_get_descriptor_unsupported (k : HidConsts) (usbInfo : USBD_INFO_T)
    (usbDevHID : USBD_HID_INFO_T) (req : USBD_REQ_SETUP_T) (descInfo0 : USBD_DESC_INFO_T)
    (hinst : usbInfo.classData = some usbDevHID)
    (hstd : usbInfo.reqSetup.type = k.USBD_REQ_TYPE_STANDARD)
    (hreq : req.bRequest = k.USBD_STD_GET_DESCRIPTOR)
    (hrep : req.wValue1 ≠ k.USBD_DESC_HID_REPORT)
    (hhid : req.wValue1 ≠ k.USBD_DESC_HID) :
    ctrlErrors (USBD_HID_SetupHandler k usbInfo req descInfo0).effects =
      [Effect.USBD_REQ_CtrlError req] ∧
    (USBD_HID_SetupHandler k usbInfo req descInfo0).status = USBD_FAIL ∧
    (USBD_HID_SetupHandler k usbInfo req descInfo0).usbInfo = usbInfo ∧
    (USBD_HID_SetupHandler k usbInfo req descInfo0).usbInfo.classData = some usbDevHID := by
  have ho : USBD_HID_SetupHandler k usbInfo req descInfo0 =
      sendDescriptor usbInfo USBD_FAIL [Effect.USBD_REQ_CtrlError req] descInfo0 := by
    simp only [USBD_HID_SetupHandler, hinst, hstd, hreq, hrep, hhid, if_true, if_false]
  rw [ho, sendDescriptor_status, sendDescriptor_usbInfo]
  refine ⟨?_, rfl, rfl, hinst⟩
  unfold sendDescriptor
  cases descInfo0.desc <;> simp [ctrlErrors]

/-- C9: for a packet `req` that is a STANDARD GET_DESCRIPTOR request whose `wValue` high
byte is neither REPORT nor HID, for every `wLength`, device state and stack content,
and whatever the packet stored in `usbInfo->reqSetup` is, the handler signals exactly
one protocol error, for the packet it was given, returns `USBD_FAIL` and leaves the
device context, hence every instance field, unchanged. The handler takes the type
from the stored packet: with the stored type STANDARD the default case of the
descriptor-type switch signals the error; with the stored type CLASS the code
GET_DESCRIPTOR is none of the four case labels of the CLASS branch (6 against 0x0A,
0x02, 0x0B, 0x03 in the USB 2.0 and HID 1.11 documents), so its default case does;
the VENDOR case and the default case of the type switch do so for every code. -/
theorem C9_get_descriptor_unsupported (k : HidConsts) (usbInfo : USBD_INFO_T)
    (usbDevHID : USBD_HID_INFO_T) (req : USBD_REQ_SETUP_T) (descInfo0 : USBD_DESC_INFO_T)
    (hinst : usbInfo.classData = some usbDevHID)
    (_hstd : req.type = k.USBD_REQ_TYPE_STANDARD)
    (hreq : req.bRequest = k.USBD_STD_GET_DESCRIPTOR)
    (hrep : req.wValue1 ≠ k.USBD_DESC_HID_REPORT)
    (hhid : req.wValue1 ≠ k.USBD_DESC_HID)
    (hc1 : k.USBD_STD_GET_DESCRIPTOR ≠ k.USBD_CLASS_SET_IDLE)
    (hc2 : k.USBD_STD_GET_DESCRIPTOR ≠ k.USBD_CLASS_GET_IDLE)
    (hc3 : k.USBD_STD_GET_DESCRIPTOR ≠ k.USBD_CLASS_SET_PROTOCOL)
    (hc4 : k.USBD_STD_GET_DESCRIPTOR ≠ k.USBD_CLASS_GET_PROTOCOL) :
    ctrlErrors (USBD_HID_SetupHandler k usbInfo req descInfo0).effects =
      [Effect.USBD_REQ_CtrlError req] ∧
    (USBD_HID_SetupHandler k usbInfo req descInfo0).status = USBD_FAIL ∧
    (USBD_HID_SetupHandler k usbInfo req descInfo0).usbInfo = usbInfo ∧
    (USBD_HID_SetupHandler k usbInfo req descInfo0).usbInfo.classData = some usbDevHID := by
  have key :
      USBD_HID_SetupHandler k usbInfo req descInfo0 =
          sendDescriptor usbInfo USBD_FAIL [Effect.USBD_REQ_CtrlError req] descInfo0 ∨
      USBD_HID_SetupHandler k usbInfo req descInfo0 =
          { status := USBD_FAIL, usbInfo := usbInfo,
            effects := [Effect.USBD_REQ_CtrlError req] } := by
    by_cases hs : usbInfo.reqSetup.type = k.USBD_REQ_TYPE_STANDARD
    · left
      simp only [USBD_HID_SetupHandler, hinst, hs, hreq, hrep, hhid, if_true, if_false]
    · right
      by_cases hc : usbInfo.reqSetup.type = k.USBD_REQ_TYPE_CLASS
      · have hcs : ¬ k.USBD_REQ_TYPE_CLASS = k.USBD_REQ_TYPE_STANDARD := hc ▸ hs
        simp only [USBD_HID_SetupHandler, hinst, hc, hcs, hreq, hc1, hc2, hc3, hc4, if_true,
          if_false]
      · simp only [USBD_HID_SetupHandler, hinst, hs, hc, if_false, ite_self]
  rcases key with ho | ho
  · rw [ho, sendDescriptor_status, sendDescriptor_usbInfo]
    refine ⟨?_, rfl, rfl, hinst⟩
    unfold sendDescriptor
    cases descInfo0.desc <;> simp [ctrlErrors]
  · rw [ho]
    exact ⟨by simp [ctrlErrors], rfl, rfl, hinst⟩

/-- Witness of C9: the STANDARD packet GET_DESCRIPTOR for the descriptor type 0x23
(physical descriptor), passed while the stored packet has the type CLASS and while it
has the type STANDARD. -/
theorem C9_get_descriptor_unsupported_witness :
    (sampleGetDescriptor 0x23 4).type = usbConsts.USBD_REQ_TYPE_STANDARD ∧
    (sampleGetDescriptor 0x23 4).bRequest = usbConsts.USBD_STD_GET_DESCRIPTOR ∧
    (sampleGetDescriptor 0x23 4).wValue1 ≠ usbConsts.USBD_DESC_HID_REPORT ∧
    (sampleGetDescriptor 0x23 4).wValue1 ≠ usbConsts.USBD_DESC_HID ∧
    (sampleDevOfType 1 3 (some (sampleHid USBD_HID_IDLE))).reqSetup.type
      = usbConsts.USBD_REQ_TYPE_CLASS ∧
    ctrlErrors (USBD_HID_SetupHandler usbConsts
        (sampleDevOfType 1 3 (some (sampleHid USBD_HID_IDLE)))
        (sampleGetDescriptor 0x23 4) sampleStaleDescInfo).effects =
      [Effect.USBD_REQ_CtrlError (sampleGetDescriptor 0x23 4)] ∧
    (USBD_HID_SetupHandler usbConsts (sampleDevOfType 1 3 (some (sampleHid USBD_HID_IDLE)))
        (sampleGetDescriptor 0x23 4) sampleStaleDescInfo).status = USBD_FAIL ∧
    (USBD_HID_SetupHandler usbConsts (sampleDev 3 (some (sampleHid USBD_HID_IDLE)))
        (sampleGetDescriptor 0x23 4) { desc := none, size := 0 }).status = USBD_FAIL :=
  ⟨rfl, rfl, by decide, by decide, rfl,
    (C9_get_descriptor_unsupported usbConsts
      (sampleDevOfType 1 3 (some (sampleHid USBD_HID_IDLE))) (sampleHid USBD_HID_IDLE)
      (sampleGetDescriptor 0x23 4) sampleStaleDescInfo rfl rfl rfl (by decide) (by decide)
      (by decide) (by decide) (by decide) (by decide)).1,
    (C9_get_descriptor_unsupported usbConsts
      (sampleDevOfType 1 3 (some (sampleHid USBD_HID_IDLE))) (sampleHid USBD_HID_IDLE)
      (sampleGetDescriptor 0x23 4) sampleStaleDescInfo rfl rfl rfl (by decide) (by decide)
      (by decide) (by decide) (by decide) (by decide)).2.1,
    (C9_get_descriptor_unsupported usbConsts (sampleDev 3 (some (sampleHid USBD_HID_IDLE)))
      (sampleHid USBD_HID_IDLE) (sampleGetDescriptor 0x23 4) { desc := none, size := 0 }
      rfl rfl rfl (by decide) (by decide) (by decide) (by decide) (by decide)
      (by decide)).2.1⟩

/-! ## Setup requests: the three outcomes -/

/-- C10 (the code departs from the claim): a GET_DESCRIPTOR request classified as
STANDARD with the unsupported descriptor type 0x23 reaches the test
`descInfo.desc != NULL` with `descInfo` never assigned. When the stack slot holds a
pointer that is not `NULL`, the one call both signals a protocol error and queues a
control data reply, of the stale bytes; it returns `USBD_FAIL`. -/
theorem C10_error_and_reply_in_one_call :
    (sampleDev 3 (some (sampleHid USBD_HID_IDLE))).reqSetup.type
      = usbConsts.USBD_REQ_TYPE_STANDARD ∧
    (sampleGetDescriptor 0x23 4).bRequest = usbConsts.USBD_STD_GET_DESCRIPTOR ∧
    (USBD_HID_SetupHandler usbConsts (sampleDev 3 (some (sampleHid USBD_HID_IDLE)))
        (sampleGetDescriptor 0x23 4) sampleStaleDescInfo).effects =
      [Effect.USBD_REQ_CtrlError (sampleGetDescriptor 0x23 4),
       Effect.USBD_CtrlSendData [0xDE, 0xAD] 2] ∧
    (ctrlErrors (USBD_HID_SetupHandler usbConsts (sampleDev 3 (some (sampleHid USBD_HID_IDLE)))
        (sampleGetDescriptor 0x23 4) sampleStaleDescInfo).effects).length = 1 ∧
    (ctrlReplies (USBD_HID_SetupHandler usbConsts (sampleDev 3 (some (sampleHid USBD_HID_IDLE)))
        (sampleGetDescriptor 0x23 4) sampleStaleDescInfo).effects).length = 1 ∧
    (USBD_HID_SetupHandler usbConsts (sampleDev 3 (some (sampleHid USBD_HID_IDLE)))
        (sampleGetDescriptor 0x23 4) sampleStaleDescInfo).status = USBD_FAIL := by
  decide

/-- Apart from that path the three outcomes are exclusive: when the stack slot of
`descInfo` holds `NULL` on entry, a call with the instance present makes at most one
call into the device core, a control data reply or a protocol error, and it returns
`USBD_FAIL` exactly when it signalled a protocol error. -/
theorem SetupHandler_outcomes_of_null (k : HidConsts) (usbInfo : USBD_INFO_T)
    (usbDevHID : USBD_HID_INFO_T) (req : USBD_REQ_SETUP_T) (size0 : Nat)
    (hinst : usbInfo.classData = some usbDevHID) :
    (ctrlReplies (USBD_HID_SetupHandler k usbInfo req { desc := none, size := size0 }).effects
        ).length +
      (ctrlErrors (USBD_HID_SetupHandler k usbInfo req { desc := none, size := size0 }).effects
        ).length ≤ 1 ∧
    (USBD_HID_SetupHandler k usbInfo req { desc := none, size := size0 }).effects.length =
      (ctrlReplies (USBD_HID_SetupHandler k usbInfo req { desc := none, size := size0 }).effects
        ).length +
      (ctrlErrors (USBD_HID_SetupHandler k usbInfo req { desc := none, size := size0 }).effects
        ).length ∧
    ((USBD_HID_SetupHandler k usbInfo req { desc := none, size := size0 }).status = USBD_FAIL ↔
      ctrlErrors (USBD_HID_SetupHandler k usbInfo req { desc := none, size := size0 }).effects
        ≠ []) := by
  unfold USBD_HID_SetupHandler
  simp only [hinst]
  split_ifs <;>
    simp [sendDescriptor, ctrlReplies, ctrlErrors, USBD_HID_ReportDescHandler,
      USBD_HID_DescHandler]

/-! ## At most one report transfer in flight -/

/-- The setup handler hands no transfer to the endpoint transport. -/
theorem transfers_SetupHandler (k : HidConsts) (usbInfo : USBD_INFO_T) (req : USBD_REQ_SETUP_T)
    (descInfo0 : USBD_DESC_INFO_T) :
    transfers (USBD_HID_SetupHandler k usbInfo req descInfo0).effects = [] := by
  unfold USBD_HID_SetupHandler
  cases usbInfo.classData with
  | none => simp [transfers]
  | some usbDevHID =>
    simp only
    split_ifs <;>
      first
        | (simp [transfers, sendDescriptor, USBD_HID_ReportDescHandler,
            USBD_HID_DescHandler]; done)
        | (unfold sendDescriptor; cases descInfo0.desc <;> simp [transfers])

/-- A report submission hands at most one transfer to the endpoint transport. -/
theorem transfers_TxReport_length (k : HidConsts) (usbInfo : USBD_INFO_T) (report : List Nat)
    (length : Nat) :
    (transfers (USBD_HID_TxReport k usbInfo report length).effects).length ≤ 1 := by
  unfold USBD_HID_TxReport
  cases usbInfo.classData with
  | none => simp [transfers]
  | some usbDevHID =>
    simp only
    split_ifs <;> simp [transfers]

/-- A call that hands a transfer to the endpoint transport is a report submission, hands
exactly one transfer, found the instance IDLE and leaves it BUSY. -/
theorem step_transfer (k : HidConsts) (usbInfo : USBD_INFO_T) (c : Call)
    (ht : transfers (step k usbInfo c).effects ≠ []) :
    c.isSubmitReport = true ∧
    (transfers (step k usbInfo c).effects).length = 1 ∧
    stateOf usbInfo = some USBD_HID_IDLE ∧
    stateOf (step k usbInfo c).usbInfo = some USBD_HID_BUSY := by
  obtain ⟨sp, st, rs, entry⟩ := c
  cases entry with
  | HandleSetup req descInfo0 =>
    exact absurd (transfers_SetupHandler k _ req descInfo0) ht
  | HandleStartOfFrame => simp [step, USBD_HID_SOFHandler, transfers] at ht
  | SubmitReport report length =>
    have h := TxReport_transfer_idle_busy k _ report length ht
    have hl := transfers_TxReport_length k
      { usbInfo with devSpeed := sp, devState := st, reqSetup := rs } report length
    have hpos : 0 < (transfers (USBD_HID_TxReport k
        { usbInfo with devSpeed := sp, devState := st, reqSetup := rs }
        report length).effects).length := List.length_pos.mpr ht
    exact ⟨rfl, Nat.le_antisymm hl hpos, h.1, h.2⟩
  | HandleTransferComplete epNum =>
    exfalso
    apply ht
    simp only [step, USBD_HID_DataInHandler]
    cases usbInfo.classData <;> simp [transfers]

/-- A call other than transfer-complete leaves a BUSY instance BUSY. -/
theorem step_busy (k : HidConsts) (usbInfo : USBD_INFO_T) (c : Call)
    (hc : c.isTransferComplete = false) (hbusy : stateOf usbInfo = some USBD_HID_BUSY) :
    stateOf (step k usbInfo c).usbInfo = some USBD_HID_BUSY := by
  obtain ⟨sp, st, rs, entry⟩ := c
  cases entry with
  | HandleSetup req descInfo0 =>
    simp only [step]
    rw [stateOf_SetupHandler]
    exact hbusy
  | HandleStartOfFrame => exact hbusy
  | SubmitReport report length =>
    exact stateOf_TxReport_of_busy k _ report length hbusy
  | HandleTransferComplete epNum => simp [Call.isTransferComplete] at hc

/-- A sequence of calls without a transfer-complete leaves a BUSY instance BUSY. -/
theorem run_busy (k : HidConsts) (mid : List Call) :
    ∀ usbInfo : USBD_INFO_T, stateOf usbInfo = some USBD_HID_BUSY →
      (∀ c ∈ mid, c.isTransferComplete = false) →
      stateOf (run k usbInfo mid) = some USBD_HID_BUSY := by
  induction mid with
  | nil => intro usbInfo hbusy _; exact hbusy
  | cons c cs ih =>
    intro usbInfo hbusy hmid
    simp only [run]
    apply ih
    · exact step_busy k usbInfo c (hmid c (List.mem_cons_self _ _)) hbusy
    · intro c1 hc1
      exact hmid c1 (List.mem_cons_of_mem _ hc1)

/-- Running a concatenation of call sequences. -/
theorem run_append (k : HidConsts) (pre post : List Call) :
    ∀ usbInfo : USBD_INFO_T, run k usbInfo (pre ++ post) = run k (run k usbInfo pre) post := by
  induction pre with
  | nil => intro usbInfo; rfl
  | cons c cs ih =>
    intro usbInfo
    simp only [List.cons_append, run]
    exact ih _

/-- From any device context: after a call that handed a transfer over, the instance is
BUSY for as long as no transfer-complete call follows. -/
theorem run_busy_after_transfer (k : HidConsts) (usbInfo : USBD_INFO_T) (pre mid : List Call)
    (c : Call) (ht : transfers (step k (run k usbInfo pre) c).effects ≠ [])
    (hmid : ∀ c1 ∈ mid, c1.isTransferComplete = false) :
    stateOf (run k usbInfo (pre ++ c :: mid)) = some USBD_HID_BUSY := by
  rw [run_append]
  simp only [run]
  exact run_busy k mid _ (step_transfer k _ c ht).2.2.2 hmid

/-- C1: on a successfully initialised device, for every finite sequence of setup,
start-of-frame, report-submission and transfer-complete calls (with any values of the
device core's own fields at each call): between any two calls that hand a transfer to
the endpoint transport there is at least one transfer-complete call; and every call
that hands a transfer over is a report submission that hands exactly one transfer,
found the instance IDLE, and leaves it BUSY for as long as no transfer-complete call
follows. -/
theorem C1_at_most_one_transfer_in_flight (k : HidConsts) (usbInfo0 : USBD_INFO_T)
    (cfgIndex : Nat) (mallocOk : Bool)
    (hinit : (USBD_HID_ClassInitHandler k usbInfo0 cfgIndex mallocOk).status = USBD_OK) :
    stateOf (USBD_HID_ClassInitHandler k usbInfo0 cfgIndex mallocOk).usbInfo
      = some USBD_HID_IDLE ∧
    (∀ (pre mid : List Call) (c1 c2 : Call),
      transfers (step k
        (run k (USBD_HID_ClassInitHandler k usbInfo0 cfgIndex mallocOk).usbInfo pre)
        c1).effects ≠ [] →
      transfers (step k
        (run k (USBD_HID_ClassInitHandler k usbInfo0 cfgIndex mallocOk).usbInfo
          (pre ++ c1 :: mid)) c2).effects ≠ [] →
      ∃ c ∈ mid, c.isTransferComplete = true) ∧
    (∀ (pre : List Call) (c : Call),
      transfers (step k
        (run k (USBD_HID_ClassInitHandler k usbInfo0 cfgIndex mallocOk).usbInfo pre)
        c).effects ≠ [] →
      c.isSubmitReport = true ∧
      (transfers (step k
        (run k (USBD_HID_ClassInitHandler k usbInfo0 cfgIndex mallocOk).usbInfo pre)
        c).effects).length = 1 ∧
      stateOf (run k (USBD_HID_ClassInitHandler k usbInfo0 cfgIndex mallocOk).usbInfo pre)
        = some USBD_HID_IDLE ∧
      ∀ mid : List Call, (∀ c1 ∈ mid, c1.isTransferComplete = false) →
        stateOf (run k (USBD_HID_ClassInitHandler k usbInfo0 cfgIndex mallocOk).usbInfo
          (pre ++ c :: mid)) = some USBD_HID_BUSY) := by
  refine ⟨?_, ?_, ?_⟩
  · cases mallocOk with
    | false => simp [USBD_HID_ClassInitHandler] at hinit
    | true => simp [USBD_HID_ClassInitHandler, stateOf]
  · intro pre mid c1 c2 h1 h2
    by_contra hno
    have hmid : ∀ c ∈ mid, c.isTransferComplete = false := by
      intro c hc
      cases hb : c.isTransferComplete with
      | false => rfl
      | true => exact absurd ⟨c, hc, hb⟩ hno
    have hbusy := run_busy_after_transfer k _ pre mid c1 h1 hmid
    have hidle := (step_transfer k _ c2 h2).2.2.1
    rw [hbusy] at hidle
    cases hidle
  · intro pre c ht
    have h := step_transfer k _ c ht
    exact ⟨h.1, h.2.1, h.2.2.1, fun mid hmid => run_busy_after_transfer k _ pre mid c ht hmid⟩

/-- Witness of C1: the sample device is initialised and configured; a report is
submitted, a start-of-frame and the transfer-complete for endpoint 1 follow, and a
second report is submitted. Both submissions hand a transfer over, and a
transfer-complete call lies between them. -/
theorem C1_at_most_one_transfer_in_flight_witness :
    (USBD_HID_ClassInitHandler usbConsts (sampleDev 2 none) 0 true).status = USBD_OK ∧
    transfers (step usbConsts
      (run usbConsts (USBD_HID_ClassInitHandler usbConsts (sampleDev 2 none) 0 true).usbInfo
        [])
      (sampleCall 3 (Entry.SubmitReport sampleReport 8))).effects ≠ [] ∧
    transfers (step usbConsts
      (run usbConsts (USBD_HID_ClassInitHandler usbConsts (sampleDev 2 none) 0 true).usbInfo
        ([] ++ sampleCall 3 (Entry.SubmitReport sampleReport 8) ::
          [sampleCall 3 Entry.HandleStartOfFrame,
           sampleCall 3 (Entry.HandleTransferComplete 1)]))
      (sampleCall 3 (Entry.SubmitReport sampleReport 8))).effects ≠ [] ∧
    ∃ c ∈ [sampleCall 3 Entry.HandleStartOfFrame,
           sampleCall 3 (Entry.HandleTransferComplete 1)], c.isTransferComplete = true :=
  ⟨by decide, by decide, by decide,
    (C1_at_most_one_transfer_in_flight usbConsts (sampleDev 2 none) 0 true (by decide)).2.1
      [] [sampleCall 3 Entry.HandleStartOfFrame, sampleCall 3 (Entry.HandleTransferComplete 1)]
      (sampleCall 3 (Entry.SubmitReport sampleReport 8))
      (sampleCall 3 (Entry.SubmitReport sampleReport 8)) (by decide) (by decide)⟩

/-! ## Setup requests: unsupported requests -/

/-- The default case of the STANDARD branch, entered when the packet stored in
`usbInfo->reqSetup` has the type STANDARD: for a request code in `req` that is none of
GET_DESCRIPTOR, GET_STATUS, GET_INTERFACE, SET_INTERFACE, CLEAR_FEATURE, the handler
makes exactly one call, the protocol error for the packet, queues no data reply,
returns `USBD_FAIL` and leaves the device context unchanged. -/
theorem SetupHandler_standard_unknown_code (k : HidConsts) (usbInfo : USBD_INFO_T)
    (usbDevHID : USBD_HID_INFO_T) (req : USBD_REQ_SETUP_T) (descInfo0 : USBD_DESC_INFO_T)
    (hinst : usbInfo.classData = some usbDevHID)
    (hstd : usbInfo.reqSetup.type = k.USBD_REQ_TYPE_STANDARD)
    (h1 : req.bRequest ≠ k.USBD_STD_GET_DESCRIPTOR)
    (h2 : req.bRequest ≠ k.USBD_STD_GET_STATUS)
    (h3 : req.bRequest ≠ k.USBD_STD_GET_INTERFACE)
    (h4 : req.bRequest ≠ k.USBD_STD_SET_INTERFACE)
    (h5 : req.bRequest ≠ k.USBD_STD_CLEAR_FEATURE) :
    (USBD_HID_SetupHandler k usbInfo req descInfo0).effects =
      [Effect.USBD_REQ_CtrlError req] ∧
    ctrlReplies (USBD_HID_SetupHandler k usbInfo req descInfo0).effects = [] ∧
    (USBD_HID_SetupHandler k usbInfo req descInfo0).status = USBD_FAIL ∧
    (USBD_HID_SetupHandler k usbInfo req descInfo0).usbInfo = usbInfo ∧
    (USBD_HID_SetupHandler k usbInfo req descInfo0).usbInfo.classData = some usbDevHID := by
  have ho : USBD_HID_SetupHandler k usbInfo req descInfo0 =
      { status := USBD_FAIL, usbInfo := usbInfo,
        effects := [Effect.USBD_REQ_CtrlError req] } := by
    simp only [USBD_HID_SetupHandler, hinst, hstd, h1, h2, h3, h4, h5, if_true, if_false]
  rw [ho]
  exact ⟨rfl, by simp [ctrlReplies], rfl, rfl, hinst⟩

/-- The VENDOR case, the default case of the request-type switch and the default case of the
CLASS branch, each selected by the type of the packet stored in `usbInfo->reqSetup`
(and, for the last, a code in `req` that is none of SET_IDLE, GET_IDLE, SET_PROTOCOL,
GET_PROTOCOL): the handler signals the protocol error for the packet as its only call,
queues no data reply, returns `USBD_FAIL` and leaves the device context unchanged.
(The case labels STANDARD, CLASS and VENDOR differ from one another.) -/
theorem SetupHandler_vendor_reserved_class_other (k : HidConsts) (usbInfo : USBD_INFO_T)
    (usbDevHID : USBD_HID_INFO_T) (req : USBD_REQ_SETUP_T) (descInfo0 : USBD_DESC_INFO_T)
    (hinst : usbInfo.classData = some usbDevHID)
    (hsc : k.USBD_REQ_TYPE_CLASS ≠ k.USBD_REQ_TYPE_STANDARD)
    (hsv : k.USBD_REQ_TYPE_VENDOR ≠ k.USBD_REQ_TYPE_STANDARD)
    (hcv : k.USBD_REQ_TYPE_VENDOR ≠ k.USBD_REQ_TYPE_CLASS)
    (hcase :
      usbInfo.reqSetup.type = k.USBD_REQ_TYPE_VENDOR ∨
      (usbInfo.reqSetup.type ≠ k.USBD_REQ_TYPE_STANDARD ∧
        usbInfo.reqSetup.type ≠ k.USBD_REQ_TYPE_CLASS ∧
        usbInfo.reqSetup.type ≠ k.USBD_REQ_TYPE_VENDOR) ∨
      (usbInfo.reqSetup.type = k.USBD_REQ_TYPE_CLASS ∧
        req.bRequest ≠ k.USBD_CLASS_SET_IDLE ∧
        req.bRequest ≠ k.USBD_CLASS_GET_IDLE ∧
        req.bRequest ≠ k.USBD_CLASS_SET_PROTOCOL ∧
        req.bRequest ≠ k.USBD_CLASS_GET_PROTOCOL)) :
    (USBD_HID_SetupHandler k usbInfo req descInfo0).effects =
      [Effect.USBD_REQ_CtrlError req] ∧
    ctrlReplies (USBD_HID_SetupHandler k usbInfo req descInfo0).effects = [] ∧
    (USBD_HID_SetupHandler k usbInfo req descInfo0).status = USBD_FAIL ∧
    (USBD_HID_SetupHandler k usbInfo req descInfo0).usbInfo = usbInfo ∧
    (USBD_HID_SetupHandler k usbInfo req descInfo0).usbInfo.classData = some usbDevHID := by
  have ho : USBD_HID_SetupHandler k usbInfo req descInfo0 =
      { status := USBD_FAIL, usbInfo := usbInfo,
        effects := [Effect.USBD_REQ_CtrlError req] } := by
    rcases hcase with hv | ⟨hs, hc, hv⟩ | ⟨hc, h1, h2, h3, h4⟩
    · simp only [USBD_HID_SetupHandler, hinst, hv, hsv, hcv, if_true, if_false]
    · simp only [USBD_HID_SetupHandler, hinst, hs, hc, hv, if_false]
    · simp only [USBD_HID_SetupHandler, hinst, hc, hsc, h1, h2, h3, h4, if_true, if_false]
  rw [ho]
  exact ⟨rfl, by simp [ctrlReplies], rfl, rfl, hinst⟩

/-! ## Setup requests: class requests -/

/-- The two bytes of a 16-bit word are byte values. -/
theorem word_bytes_lt (w : Nat) (hw : w < 65536) : w % 256 < 256 ∧ w / 256 < 256 := by
  omega

/-- The SET_IDLE and GET_IDLE cases of the CLASS branch, which the handler enters when the
packet stored in `usbInfo->reqSetup` has the type CLASS. For every 16-bit `wValue`
carried in the packet `req`, SET_IDLE stores the high byte of `wValue` in `idleStatus`,
makes no call and changes no other field; a following GET_IDLE makes exactly one call,
the control data reply of one byte equal to that high byte, and changes nothing. Both
return `USBD_OK`. (The case labels differ: CLASS from STANDARD, GET_IDLE from
SET_IDLE.) -/
theorem SetupHandler_set_idle_get_idle (k : HidConsts) (usbInfo usbInfo2 : USBD_INFO_T)
    (usbDevHID : USBD_HID_INFO_T) (req req2 : USBD_REQ_SETUP_T)
    (descInfo0 descInfo2 : USBD_DESC_INFO_T) (wValue : Nat)
    (hinst : usbInfo.classData = some usbDevHID)
    (hcls : usbInfo.reqSetup.type = k.USBD_REQ_TYPE_CLASS)
    (hsc : k.USBD_REQ_TYPE_CLASS ≠ k.USBD_REQ_TYPE_STANDARD)
    (hreq : req.bRequest = k.USBD_CLASS_SET_IDLE)
    (hw : wValue < 65536)
    (_hv0 : req.wValue0 = wValue % 256) (hv1 : req.wValue1 = wValue / 256)
    (hnext : usbInfo2.classData =
      (USBD_HID_SetupHandler k usbInfo req descInfo0).usbInfo.classData)
    (hcls2 : usbInfo2.reqSetup.type = k.USBD_REQ_TYPE_CLASS)
    (hreq2 : req2.bRequest = k.USBD_CLASS_GET_IDLE)
    (hgs : k.USBD_CLASS_GET_IDLE ≠ k.USBD_CLASS_SET_IDLE) :
    (USBD_HID_SetupHandler k usbInfo req descInfo0).status = USBD_OK ∧
    (USBD_HID_SetupHandler k usbInfo req descInfo0).effects = [] ∧
    (USBD_HID_SetupHandler k usbInfo req descInfo0).usbInfo =
      { usbInfo with classData := some { usbDevHID with idleStatus := wValue / 256 } } ∧
    (USBD_HID_SetupHandler k usbInfo2 req2 descInfo2).status = USBD_OK ∧
    (USBD_HID_SetupHandler k usbInfo2 req2 descInfo2).effects =
      [Effect.USBD_CtrlSendData [wValue / 256] 1] ∧
    (USBD_HID_SetupHandler k usbInfo2 req2 descInfo2).effects.map replyBytes =
      [[wValue / 256]] ∧
    (USBD_HID_SetupHandler k usbInfo2 req2 descInfo2).usbInfo = usbInfo2 := by
  have ho : USBD_HID_SetupHandler k usbInfo req descInfo0 =
      { status := USBD_OK,
        usbInfo :=
          { usbInfo with classData := some { usbDevHID with idleStatus := wValue / 256 } },
        effects := [] } := by
    simp only [USBD_HID_SetupHandler, hinst, hcls, hsc, hreq, hv1, if_true, if_false]
  rw [ho] at hnext
  have hmod : wValue / 256 % 256 = wValue / 256 :=
    Nat.mod_eq_of_lt (word_bytes_lt wValue hw).2
  have ho2 : USBD_HID_SetupHandler k usbInfo2 req2 descInfo2 =
      { status := USBD_OK, usbInfo := usbInfo2,
        effects := [Effect.USBD_CtrlSendData [wValue / 256] 1] } := by
    simp only [USBD_HID_SetupHandler, hnext, hcls2, hsc, hreq2, hgs, hmod, if_true, if_false]
  rw [ho, ho2]
  exact ⟨rfl, rfl, rfl, rfl, rfl, by simp [replyBytes], rfl⟩

/-- The SET_PROTOCOL and GET_PROTOCOL cases of the CLASS branch, which the handler enters
when the packet stored in `usbInfo->reqSetup` has the type CLASS. For every 16-bit
`wValue` carried in the packet `req`, SET_PROTOCOL stores the low byte of `wValue` in
`protocol`, makes no call and changes no other field; a following GET_PROTOCOL makes
exactly one call, the control data reply of one byte equal to that low byte, and
changes nothing. Both return `USBD_OK`. (The case labels differ: CLASS from STANDARD,
the four class request codes from one another.) -/
theorem SetupHandler_set_protocol_get_protocol (k : HidConsts) (usbInfo usbInfo2 : USBD_INFO_T)
    (usbDevHID : USBD_HID_INFO_T) (req req2 : USBD_REQ_SETUP_T)
    (descInfo0 descInfo2 : USBD_DESC_INFO_T) (wValue : Nat)
    (hinst : usbInfo.classData = some usbDevHID)
    (hcls : usbInfo.reqSetup.type = k.USBD_REQ_TYPE_CLASS)
    (hsc : k.USBD_REQ_TYPE_CLASS ≠ k.USBD_REQ_TYPE_STANDARD)
    (hreq : req.bRequest = k.USBD_CLASS_SET_PROTOCOL)
    (hps : k.USBD_CLASS_SET_PROTOCOL ≠ k.USBD_CLASS_SET_IDLE)
    (hpg : k.USBD_CLASS_SET_PROTOCOL ≠ k.USBD_CLASS_GET_IDLE)
    (_hw : wValue < 65536)
    (hv0 : req.wValue0 = wValue % 256) (_hv1 : req.wValue1 = wValue / 256)
    (hnext : usbInfo2.classData =
      (USBD_HID_SetupHandler k usbInfo req descInfo0).usbInfo.classData)
    (hcls2 : usbInfo2.reqSetup.type = k.USBD_REQ_TYPE_CLASS)
    (hreq2 : req2.bRequest = k.USBD_CLASS_GET_PROTOCOL)
    (hgs : k.USBD_CLASS_GET_PROTOCOL ≠ k.USBD_CLASS_SET_IDLE)
    (hgg : k.USBD_CLASS_GET_PROTOCOL ≠ k.USBD_CLASS_GET_IDLE)
    (hgp : k.USBD_CLASS_GET_PROTOCOL ≠ k.USBD_CLASS_SET_PROTOCOL) :
    (USBD_HID_SetupHandler k usbInfo req descInfo0).status = USBD_OK ∧
    (USBD_HID_SetupHandler k usbInfo req descInfo0).effects = [] ∧
    (USBD_HID_SetupHandler k usbInfo req descInfo0).usbInfo =
      { usbInfo with classData := some { usbDevHID with protocol := wValue % 256 } } ∧
    (USBD_HID_SetupHandler k usbInfo2 req2 descInfo2).status = USBD_OK ∧
    (USBD_HID_SetupHandler k usbInfo2 req2 descInfo2).effects =
      [Effect.USBD_CtrlSendData [wValue % 256] 1] ∧
    (USBD_HID_SetupHandler k usbInfo2 req2 descInfo2).effects.map replyBytes =
      [[wValue % 256]] ∧
    (USBD_HID_SetupHandler k usbInfo2 req2 descInfo2).usbInfo = usbInfo2 := by
  have ho : USBD_HID_SetupHandler k usbInfo req descInfo0 =
      { status := USBD_OK,
        usbInfo :=
          { usbInfo with classData := some { usbDevHID with protocol := wValue % 256 } },
        effects := [] } := by
    simp only [USBD_HID_SetupHandler, hinst, hcls, hsc, hreq, hps, hpg, hv0, if_true,
      if_false]
  rw [ho] at hnext
  have hmod : wValue % 256 % 256 = wValue % 256 := Nat.mod_mod _ _
  have ho2 : USBD_HID_SetupHandler k usbInfo2 req2 descInfo2 =
      { status := USBD_OK, usbInfo := usbInfo2,
        effects := [Effect.USBD_CtrlSendData [wValue % 256] 1] } := by
    simp only [USBD_HID_SetupHandler, hnext, hcls2, hsc, hreq2, hgs, hgg, hgp, hmod, if_true,
      if_false]
  rw [ho, ho2]
  exact ⟨rfl, rfl, rfl, rfl, rfl, by simp [replyBytes], rfl⟩

/-! ## Setup requests: GET_STATUS, GET_INTERFACE, SET_INTERFACE -/

/-- The GET_STATUS case of the STANDARD branch, entered when the packet stored in
`usbInfo->reqSetup` has the type STANDARD: on a CONFIGURED device the handler makes
exactly one call, the control data reply of two bytes, both zero, and returns
`USBD_OK`; in every other device state it makes exactly one call, the protocol error
for the packet, queues no reply and returns `USBD_FAIL`. In both cases the device
context is unchanged. (The case label GET_STATUS differs from GET_DESCRIPTOR.) -/
theorem SetupHandler_get_status (k : HidConsts) (usbInfo : USBD_INFO_T)
    (usbDevHID : USBD_HID_INFO_T) (req : USBD_REQ_SETUP_T) (descInfo0 : USBD_DESC_INFO_T)
    (hinst : usbInfo.classData = some usbDevHID)
    (hstd : usbInfo.reqSetup.type = k.USBD_REQ_TYPE_STANDARD)
    (hreq : req.bRequest = k.USBD_STD_GET_STATUS)
    (hd : k.USBD_STD_GET_STATUS ≠ k.USBD_STD_GET_DESCRIPTOR) :
    (usbInfo.devState = k.USBD_DEV_CONFIGURE →
      (USBD_HID_SetupHandler k usbInfo req descInfo0).status = USBD_OK ∧
      (USBD_HID_SetupHandler k usbInfo req descInfo0).effects =
        [Effect.USBD_CtrlSendData [0, 0] 2] ∧
      (USBD_HID_SetupHandler k usbInfo req descInfo0).effects.map replyBytes = [[0, 0]] ∧
      ctrlErrors (USBD_HID_SetupHandler k usbInfo req descInfo0).effects = []) ∧
    (usbInfo.devState ≠ k.USBD_DEV_CONFIGURE →
      (USBD_HID_SetupHandler k usbInfo req descInfo0).status = USBD_FAIL ∧
      (USBD_HID_SetupHandler k usbInfo req descInfo0).effects =
        [Effect.USBD_REQ_CtrlError req] ∧
      ctrlReplies (USBD_HID_SetupHandler k usbInfo req descInfo0).effects = []) ∧
    (USBD_HID_SetupHandler k usbInfo req descInfo0).usbInfo = usbInfo ∧
    (USBD_HID_SetupHandler k usbInfo req descInfo0).usbInfo.classData = some usbDevHID := by
  have hu : (USBD_HID_SetupHandler k usbInfo req descInfo0).usbInfo = usbInfo := by
    simp only [USBD_HID_SetupHandler, hinst, hstd, hreq, hd, if_true, if_false]
    split_ifs <;> rfl
  refine ⟨?_, ?_, hu, ?_⟩
  · intro hcfg
    simp [USBD_HID_SetupHandler, hinst, hstd, hreq, hd, hcfg, replyBytes, ctrlErrors]
  · intro hcfg
    simp [USBD_HID_SetupHandler, hinst, hstd, hreq, hd, hcfg, ctrlReplies]
  · rw [hu]
    exact hinst

/-- The GET_INTERFACE case of the STANDARD branch, entered when the packet stored in
`usbInfo->reqSetup` has the type STANDARD: on a CONFIGURED device the handler makes
exactly one call, the control data reply of the one byte at the address of
`altSettingStatus`, which equals the current `altSettingStatus` for every value that a
byte holds, and returns `USBD_OK`; in every other device state it makes exactly one
call, the protocol error for the packet, queues no reply and returns `USBD_FAIL`. In
both cases the device context is unchanged. (The case label GET_INTERFACE differs from
GET_DESCRIPTOR and GET_STATUS.) -/
theorem SetupHandler_get_interface (k : HidConsts) (usbInfo : USBD_INFO_T)
    (usbDevHID : USBD_HID_INFO_T) (req : USBD_REQ_SETUP_T) (descInfo0 : USBD_DESC_INFO_T)
    (hinst : usbInfo.classData = some usbDevHID)
    (hbyte : usbDevHID.altSettingStatus < 256)
    (hstd : usbInfo.reqSetup.type = k.USBD_REQ_TYPE_STANDARD)
    (hreq : req.bRequest = k.USBD_STD_GET_INTERFACE)
    (hd : k.USBD_STD_GET_INTERFACE ≠ k.USBD_STD_GET_DESCRIPTOR)
    (hs : k.USBD_STD_GET_INTERFACE ≠ k.USBD_STD_GET_STATUS) :
    (usbInfo.devState = k.USBD_DEV_CONFIGURE →
      (USBD_HID_SetupHandler k usbInfo req descInfo0).status = USBD_OK ∧
      (USBD_HID_SetupHandler k usbInfo req descInfo0).effects =
        [Effect.USBD_CtrlSendData [usbDevHID.altSettingStatus] 1] ∧
      (USBD_HID_SetupHandler k usbInfo req descInfo0).effects.map replyBytes =
        [[usbDevHID.altSettingStatus]] ∧
      ctrlErrors (USBD_HID_SetupHandler k usbInfo req descInfo0).effects = []) ∧
    (usbInfo.devState ≠ k.USBD_DEV_CONFIGURE →
      (USBD_HID_SetupHandler k usbInfo req descInfo0).status = USBD_FAIL ∧
      (USBD_HID_SetupHandler k usbInfo req descInfo0).effects =
        [Effect.USBD_REQ_CtrlError req] ∧
      ctrlReplies (USBD_HID_SetupHandler k usbInfo req descInfo0).effects = []) ∧
    (USBD_HID_SetupHandler k usbInfo req descInfo0).usbInfo = usbInfo ∧
    (USBD_HID_SetupHandler k usbInfo req descInfo0).usbInfo.classData = some usbDevHID := by
  have hmod : usbDevHID.altSettingStatus % 256 = usbDevHID.altSettingStatus :=
    Nat.mod_eq_of_lt hbyte
  have hu : (USBD_HID_SetupHandler k usbInfo req descInfo0).usbInfo = usbInfo := by
    simp only [USBD_HID_SetupHandler, hinst, hstd, hreq, hd, hs, if_true, if_false]
    split_ifs <;> rfl
  refine ⟨?_, ?_, hu, ?_⟩
  · intro hcfg
    simp [USBD_HID_SetupHandler, hinst, hstd, hreq, hd, hs, hcfg, hmod, replyBytes,
      ctrlErrors]
  · intro hcfg
    simp [USBD_HID_SetupHandler, hinst, hstd, hreq, hd, hs, hcfg, ctrlReplies]
  · rw [hu]
    exact hinst

/-- The assignment `usbDevHID->altSettingStatus = wValue` narrows `wValue` to the field. For a
field of one byte: on the CONFIGURED sample device, whose stored packet has the type
STANDARD, SET_INTERFACE with the packet bytes `wValue[0] = 0`, `wValue[1] = 1`
(`wValue = 256`) leaves `altSettingStatus = 0`, not 256. -/
theorem SetupHandler_set_interface_narrowed :
    (sampleDev 3 (some (sampleHid USBD_HID_IDLE))).devState = usbConsts.USBD_DEV_CONFIGURE ∧
    (sampleRequest 11 0 1).bRequest = usbConsts.USBD_STD_SET_INTERFACE ∧
    ((sampleRequest 11 0 1).wValue0 ||| ((sampleRequest 11 0 1).wValue1 <<< 8)) % 65536
      = 256 ∧
    (USBD_HID_SetupHandler usbConsts (sampleDev 3 (some (sampleHid USBD_HID_IDLE)))
        (sampleRequest 11 0 1) sampleStaleDescInfo).usbInfo.classData =
      some { sampleHid USBD_HID_IDLE with altSettingStatus := 0 } ∧
    ¬ ((USBD_HID_SetupHandler usbConsts (sampleDev 3 (some (sampleHid USBD_HID_IDLE)))
        (sampleRequest 11 0 1) sampleStaleDescInfo).usbInfo.classData =
      some { sampleHid USBD_HID_IDLE with altSettingStatus := 256 }) := by
  decide

/-- The SET_INTERFACE case of the STANDARD branch, entered when the packet stored in
`usbInfo->reqSetup` has the type STANDARD. For every 16-bit `wValue` carried low byte
first in the packet `req`: on a CONFIGURED device the handler makes no call, returns
`USBD_OK` and changes only `altSettingStatus`, which becomes `wValue` reduced to the
width of the field, that is `wValue` itself whenever `wValue` fits the field; in every
other device state it makes exactly one call, the protocol error for the packet,
returns `USBD_FAIL` and leaves the device context unchanged. (The case label
SET_INTERFACE differs from GET_DESCRIPTOR, GET_STATUS and GET_INTERFACE.) -/
theorem SetupHandler_set_interface (k : HidConsts) (usbInfo : USBD_INFO_T)
    (usbDevHID : USBD_HID_INFO_T) (req : USBD_REQ_SETUP_T) (descInfo0 : USBD_DESC_INFO_T)
    (wValue : Nat)
    (hinst : usbInfo.classData = some usbDevHID)
    (hstd : usbInfo.reqSetup.type = k.USBD_REQ_TYPE_STANDARD)
    (hreq : req.bRequest = k.USBD_STD_SET_INTERFACE)
    (hd : k.USBD_STD_SET_INTERFACE ≠ k.USBD_STD_GET_DESCRIPTOR)
    (hs : k.USBD_STD_SET_INTERFACE ≠ k.USBD_STD_GET_STATUS)
    (hi : k.USBD_STD_SET_INTERFACE ≠ k.USBD_STD_GET_INTERFACE)
    (hw : wValue < 65536)
    (hv0 : req.wValue0 = wValue % 256) (hv1 : req.wValue1 = wValue / 256) :
    (usbInfo.devState = k.USBD_DEV_CONFIGURE →
      (USBD_HID_SetupHandler k usbInfo req descInfo0).status = USBD_OK ∧
      (USBD_HID_SetupHandler k usbInfo req descInfo0).effects = [] ∧
      (USBD_HID_SetupHandler k usbInfo req descInfo0).usbInfo =
        { usbInfo with
          classData := some
            { usbDevHID with altSettingStatus := wValue % 2 ^ k.altSettingStatusBits } } ∧
      (wValue < 2 ^ k.altSettingStatusBits →
        (USBD_HID_SetupHandler k usbInfo req descInfo0).usbInfo =
          { usbInfo with
            classData := some { usbDevHID with altSettingStatus := wValue } })) ∧
    (usbInfo.devState ≠ k.USBD_DEV_CONFIGURE →
      (USBD_HID_SetupHandler k usbInfo req descInfo0).status = USBD_FAIL ∧
      (USBD_HID_SetupHandler k usbInfo req descInfo0).effects =
        [Effect.USBD_REQ_CtrlError req] ∧
      (USBD_HID_SetupHandler k usbInfo req descInfo0).usbInfo = usbInfo ∧
      (USBD_HID_SetupHandler k usbInfo req descInfo0).usbInfo.classData =
        some usbDevHID) := by
  have hword : (req.wValue0 ||| (req.wValue1 <<< 8)) % 65536 = wValue := by
    rw [hv0, hv1]
    exact word_of_bytes wValue hw
  constructor
  · intro hcfg
    have ho : USBD_HID_SetupHandler k usbInfo req descInfo0 =
        { status := USBD_OK,
          usbInfo :=
            { usbInfo with
              classData := some
                { usbDevHID with
                  altSettingStatus := wValue % 2 ^ k.altSettingStatusBits } },
          effects := [] } := by
      simp only [USBD_HID_SetupHandler, hinst, hstd, hreq, hd, hs, hi, hcfg, hword, if_true,
        if_false]
    rw [ho]
    refine ⟨rfl, rfl, rfl, ?_⟩
    intro hfit
    simp only [Nat.mod_eq_of_lt hfit]
  · intro hcfg
    have ho : USBD_HID_SetupHandler k usbInfo req descInfo0 =
        { status := USBD_FAIL, usbInfo := usbInfo,
          effects := [Effect.USBD_REQ_CtrlError req] } := by
      simp only [USBD_HID_SetupHandler, hinst, hstd, hreq, hd, hs, hi, hcfg, if_true,
        if_false]
    rw [ho]
    exact ⟨rfl, rfl, rfl, hinst⟩

/-! ## Class init -/

/-- Reading a slot after a write of `interval`. -/
theorem getElem?_setInterval (eps : List USBD_EP_INFO_T) (i v j : Nat) :
    (setInterval eps i v)[j]? =
      if j = i then eps[j]?.map (fun e => { e with interval := v }) else eps[j]? := by
  unfold setInterval
  cases he : eps[i]? with
  | none =>
    split_ifs with h
    · subst h
      simp [he]
    · rfl
  | some e =>
    split_ifs with h
    · subst h
      have hlt : j < eps.length := (List.getElem?_eq_some.mp he).1
      simp [he, List.getElem?_set_self hlt]
    · exact List.getElem?_set_ne (fun h1 => h h1.symm)

/-- Reading a slot after a write of `useStatus`. -/
theorem getElem?_setUseStatus (eps : List USBD_EP_INFO_T) (i : Nat) (v : FunctionalState)
    (j : Nat) :
    (setUseStatus eps i v)[j]? =
      if j = i then eps[j]?.map (fun e => { e with useStatus := v }) else eps[j]? := by
  unfold setUseStatus
  cases he : eps[i]? with
  | none =>
    split_ifs with h
    · subst h
      simp [he]
    · rfl
  | some e =>
    split_ifs with h
    · subst h
      have hlt : j < eps.length := (List.getElem?_eq_some.mp he).1
      simp [he, List.getElem?_set_self hlt]
    · exact List.getElem?_set_ne (fun h1 => h h1.symm)

/-- C18: for every device context, when the allocation succeeds and the IN endpoint
slot exists in `devEpIn`, `USBD_HID_ClassInitHandler` returns `USBD_OK`; afterwards the
instance exists with `state` IDLE, `altSettingStatus = 0`, `idleStatus = 0` and
`epInAddr = USBD_HID_IN_EP_ADDR`; the only call made is one `USBD_EP_OpenCallback` for
that address with type INTERRUPT and the packet size `USBD_HID_IN_EP_SIZE`; the slot
`epInAddr & 0x0F` is ENABLE with the interval `USBD_HID_FS_INTERVAL` on a full-speed
device and `USBD_HID_HS_INTERVAL` otherwise; every other slot and the device core's
own fields keep their values. -/
theorem C18_init_success (k : HidConsts) (usbInfo : USBD_INFO_T) (cfgIndex : Nat)
    (hslot : (k.USBD_HID_IN_EP_ADDR &&& 0x0F) < usbInfo.devEpIn.length) :
    (USBD_HID_ClassInitHandler k usbInfo cfgIndex true).status = USBD_OK ∧
    (USBD_HID_ClassInitHandler k usbInfo cfgIndex true).usbInfo.classData =
      some { state := USBD_HID_IDLE, epInAddr := k.USBD_HID_IN_EP_ADDR,
             altSettingStatus := 0, idleStatus := 0, protocol := 0 } ∧
    (USBD_HID_ClassInitHandler k usbInfo cfgIndex true).effects =
      [Effect.USBD_EP_OpenCallback k.USBD_HID_IN_EP_ADDR k.EP_TYPE_INTERRUPT
        k.USBD_HID_IN_EP_SIZE] ∧
    (USBD_HID_ClassInitHandler k usbInfo cfgIndex true).usbInfo.devEpIn[
        k.USBD_HID_IN_EP_ADDR &&& 0x0F]? =
      some { interval := if usbInfo.devSpeed = k.USBD_SPEED_FS
                         then k.USBD_HID_FS_INTERVAL else k.USBD_HID_HS_INTERVAL,
             useStatus := ENABLE } ∧
    (∀ j : Nat, j ≠ (k.USBD_HID_IN_EP_ADDR &&& 0x0F) →
      (USBD_HID_ClassInitHandler k usbInfo cfgIndex true).usbInfo.devEpIn[j]? =
        usbInfo.devEpIn[j]?) ∧
    (USBD_HID_ClassInitHandler k usbInfo cfgIndex true).usbInfo.devSpeed = usbInfo.devSpeed ∧
    (USBD_HID_ClassInitHandler k usbInfo cfgIndex true).usbInfo.devState = usbInfo.devState ∧
    (USBD_HID_ClassInitHandler k usbInfo cfgIndex true).usbInfo.reqSetup = usbInfo.reqSetup := by
  have hget : usbInfo.devEpIn[k.USBD_HID_IN_EP_ADDR &&& 0x0F]? =
      some (usbInfo.devEpIn[k.USBD_HID_IN_EP_ADDR &&& 0x0F]) :=
    List.getElem?_eq_getElem hslot
  refine ⟨rfl, rfl, rfl, ?_, ?_, rfl, rfl, rfl⟩
  · simp only [USBD_HID_ClassInitHandler, if_true]
    rw [getElem?_setUseStatus, if_pos rfl]
    by_cases hfs : usbInfo.devSpeed = k.USBD_SPEED_FS
    · rw [if_pos hfs, if_pos hfs, getElem?_setInterval, if_pos rfl, hget]
      rfl
    · rw [if_neg hfs, if_neg hfs, getElem?_setInterval, if_pos rfl, hget]
      rfl
  · intro j hj
    simp only [USBD_HID_ClassInitHandler, if_true]
    rw [getElem?_setUseStatus, if_neg hj]
    by_cases hfs : usbInfo.devSpeed = k.USBD_SPEED_FS
    · rw [if_pos hfs, getElem?_setInterval, if_neg hj]
    · rw [if_neg hfs, getElem?_setInterval, if_neg hj]

/-- Witness of C18: class init of the full-speed sample device (endpoint slot 1 of 8). -/
theorem C18_init_success_witness :
    (usbConsts.USBD_HID_IN_EP_ADDR &&& 0x0F) < (sampleDev 2 none).devEpIn.length ∧
    (USBD_HID_ClassInitHandler usbConsts (sampleDev 2 none) 0 true).usbInfo.devEpIn[
        usbConsts.USBD_HID_IN_EP_ADDR &&& 0x0F]? =
      some { interval := if (sampleDev 2 none).devSpeed = usbConsts.USBD_SPEED_FS
                         then usbConsts.USBD_HID_FS_INTERVAL
                         else usbConsts.USBD_HID_HS_INTERVAL,
             useStatus := ENABLE } :=
  ⟨by decide, (C18_init_success usbConsts (sampleDev 2 none) 0 (by decide)).2.2.2.1⟩

/-- After every successful `USBD_HID_ClassInitHandler` the field `protocol` of the instance
is 0, the value left by the `memset`. When the packet stored in `usbInfo->reqSetup`
has the type CLASS, a GET_PROTOCOL code in `req` served on that instance makes exactly
one call, the control data reply of the single byte 0, and returns `USBD_OK`. (The
case labels differ: CLASS from STANDARD, GET_PROTOCOL from the three other class
request codes.) -/
theorem ClassInitHandler_protocol_zero (k : HidConsts) (usbInfo usbInfo2 : USBD_INFO_T)
    (cfgIndex : Nat) (mallocOk : Bool) (req : USBD_REQ_SETUP_T)
    (descInfo0 : USBD_DESC_INFO_T)
    (hinit : (USBD_HID_ClassInitHandler k usbInfo cfgIndex mallocOk).status = USBD_OK)
    (hnext : usbInfo2.classData =
      (USBD_HID_ClassInitHandler k usbInfo cfgIndex mallocOk).usbInfo.classData)
    (hcls : usbInfo2.reqSetup.type = k.USBD_REQ_TYPE_CLASS)
    (hsc : k.USBD_REQ_TYPE_CLASS ≠ k.USBD_REQ_TYPE_STANDARD)
    (hreq : req.bRequest = k.USBD_CLASS_GET_PROTOCOL)
    (hgs : k.USBD_CLASS_GET_PROTOCOL ≠ k.USBD_CLASS_SET_IDLE)
    (hgg : k.USBD_CLASS_GET_PROTOCOL ≠ k.USBD_CLASS_GET_IDLE)
    (hgp : k.USBD_CLASS_GET_PROTOCOL ≠ k.USBD_CLASS_SET_PROTOCOL) :
    (USBD_HID_ClassInitHandler k usbInfo cfgIndex mallocOk).usbInfo.classData.map
      (fun usbDevHID => usbDevHID.protocol) = some 0 ∧
    (USBD_HID_SetupHandler k usbInfo2 req descInfo0).status = USBD_OK ∧
    (USBD_HID_SetupHandler k usbInfo2 req descInfo0).effects =
      [Effect.USBD_CtrlSendData [0] 1] ∧
    (USBD_HID_SetupHandler k usbInfo2 req descInfo0).effects.map replyBytes = [[0]] := by
  cases mallocOk with
  | false => simp [USBD_HID_ClassInitHandler] at hinit
  | true =>
    have hc : (USBD_HID_ClassInitHandler k usbInfo cfgIndex true).usbInfo.classData =
        some { state := USBD_HID_IDLE, epInAddr := k.USBD_HID_IN_EP_ADDR,
               altSettingStatus := 0, idleStatus := 0, protocol := 0 } := rfl
    rw [hc] at hnext
    have ho : USBD_HID_SetupHandler k usbInfo2 req descInfo0 =
        { status := USBD_OK, usbInfo := usbInfo2,
          effects := [Effect.USBD_CtrlSendData [0] 1] } := by
      simp only [USBD_HID_SetupHandler, hnext, hcls, hsc, hreq, hgs, hgg, hgp, if_true,
        if_false, Nat.zero_mod]
    rw [hc, ho]
    exact ⟨rfl, rfl, rfl, by simp [replyBytes]⟩

/-- C20 (the code departs from the claim): when `malloc` returns `NULL`, for every device
context, `USBD_HID_ClassInitHandler` returns `USBD_FAIL`, makes no call into the device
core, leaves every endpoint slot as it was and leaves the class-data slot without an
instance, but before its `NULL` test it has written through the `NULL` instance
pointer with `memset`. -/
theorem C20_init_alloc_failure (k : HidConsts) (usbInfo : USBD_INFO_T) (cfgIndex : Nat) :
    (USBD_HID_ClassInitHandler k usbInfo cfgIndex false).status = USBD_FAIL ∧
    (USBD_HID_ClassInitHandler k usbInfo cfgIndex false).effects =
      [Effect.nullInstanceAccess] ∧
    (USBD_HID_ClassInitHandler k usbInfo cfgIndex false).usbInfo.devEpIn =
      usbInfo.devEpIn ∧
    (USBD_HID_ClassInitHandler k usbInfo cfgIndex false).usbInfo.classData = none :=
  ⟨rfl, rfl, rfl, rfl⟩

/-! ## Class deinit and the absent instance -/

/-- C21: for every device context with an existing instance, in any state, whose IN
endpoint slot exists in `devEpIn`, `USBD_HID_ClassDeInitHandler` returns `USBD_OK`,
makes exactly one call, `USBD_EP_CloseCallback` for the instance's `epInAddr`, leaves
the slot `epInAddr & 0x0F` with interval 0 and DISABLE and every other slot as it was,
and leaves the class-data slot without an instance; in particular class init followed
by class deinit leaves no instance. -/
theorem C21_deinit_releases (k : HidConsts) (usbInfo : USBD_INFO_T)
    (usbDevHID : USBD_HID_INFO_T) (cfgIndex nullRead : Nat)
    (hinst : usbInfo.classData = some usbDevHID)
    (hslot : (usbDevHID.epInAddr &&& 0x0F) < usbInfo.devEpIn.length) :
    (USBD_HID_ClassDeInitHandler usbInfo cfgIndex nullRead).status = USBD_OK ∧
    (USBD_HID_ClassDeInitHandler usbInfo cfgIndex nullRead).effects =
      [Effect.USBD_EP_CloseCallback usbDevHID.epInAddr] ∧
    (USBD_HID_ClassDeInitHandler usbInfo cfgIndex nullRead).usbInfo.devEpIn[
        usbDevHID.epInAddr &&& 0x0F]? = some { interval := 0, useStatus := DISABLE } ∧
    (∀ j : Nat, j ≠ (usbDevHID.epInAddr &&& 0x0F) →
      (USBD_HID_ClassDeInitHandler usbInfo cfgIndex nullRead).usbInfo.devEpIn[j]? =
        usbInfo.devEpIn[j]?) ∧
    (USBD_HID_ClassDeInitHandler usbInfo cfgIndex nullRead).usbInfo.classData = none ∧
    (∀ (usbInfo0 : USBD_INFO_T) (cfgIndex0 : Nat),
      (USBD_HID_ClassDeInitHandler
        (USBD_HID_ClassInitHandler k usbInfo0 cfgIndex0 true).usbInfo cfgIndex0
        nullRead).usbInfo.classData = none) := by
  have hget : usbInfo.devEpIn[usbDevHID.epInAddr &&& 0x0F]? =
      some (usbInfo.devEpIn[usbDevHID.epInAddr &&& 0x0F]) :=
    List.getElem?_eq_getElem hslot
  refine ⟨?_, ?_, ?_, ?_, ?_, ?_⟩
  · simp [USBD_HID_ClassDeInitHandler, hinst]
  · simp [USBD_HID_ClassDeInitHandler, hinst]
  · simp only [USBD_HID_ClassDeInitHandler, hinst]
    rw [getElem?_setUseStatus, if_pos rfl, getElem?_setInterval, if_pos rfl, hget]
    rfl
  · intro j hj
    simp only [USBD_HID_ClassDeInitHandler, hinst]
    rw [getElem?_setUseStatus, if_neg hj, getElem?_setInterval, if_neg hj]
  · simp [USBD_HID_ClassDeInitHandler, hinst]
  · intro usbInfo0 cfgIndex0
    rfl

/-- Witness of C21: class init of the sample device followed by class deinit. -/
theorem C21_deinit_releases_witness :
    (USBD_HID_ClassInitHandler usbConsts (sampleDev 2 none) 0 true).usbInfo.classData =
      some (sampleHid USBD_HID_IDLE) ∧
    (USBD_HID_ClassDeInitHandler
        (USBD_HID_ClassInitHandler usbConsts (sampleDev 2 none) 0 true).usbInfo 0 0).effects =
      [Effect.USBD_EP_CloseCallback 0x81] ∧
    (USBD_HID_ClassDeInitHandler
        (USBD_HID_ClassInitHandler usbConsts (sampleDev 2 none) 0 true).usbInfo 0 0
      ).usbInfo.devEpIn[1]? = some { interval := 0, useStatus := DISABLE } :=
  ⟨rfl,
    (C21_deinit_releases usbConsts
      (USBD_HID_ClassInitHandler usbConsts (sampleDev 2 none) 0 true).usbInfo
      (sampleHid USBD_HID_IDLE) 0 0 rfl (by decide)).2.1,
    (C21_deinit_releases usbConsts
      (USBD_HID_ClassInitHandler usbConsts (sampleDev 2 none) 0 true).usbInfo
      (sampleHid USBD_HID_IDLE) 0 0 rfl (by decide)).2.2.1⟩

/-- C22: whenever the class-data slot holds no instance, `USBD_HID_SetupHandler` for
every setup packet (and stack content), `USBD_HID_TxReport` for every report and
`USBD_HID_DataInHandler` for every endpoint number each return `USBD_FAIL`, make no
call and no access through the `NULL` pointer, and leave the device context
unchanged; the slot holds no instance after class init followed by class deinit. -/
theorem C22_absent_instance_fails (k : HidConsts) (usbInfo : USBD_INFO_T)
    (habs : usbInfo.classData = none) :
    (∀ (req : USBD_REQ_SETUP_T) (descInfo0 : USBD_DESC_INFO_T),
      USBD_HID_SetupHandler k usbInfo req descInfo0 =
        { status := USBD_FAIL, usbInfo := usbInfo, effects := [] }) ∧
    (∀ (report : List Nat) (length : Nat),
      USBD_HID_TxReport k usbInfo report length =
        { status := USBD_FAIL, usbInfo := usbInfo, effects := [] }) ∧
    (∀ epNum : Nat,
      USBD_HID_DataInHandler usbInfo epNum =
        { status := USBD_FAIL, usbInfo := usbInfo, effects := [] }) ∧
    (∀ (usbInfo0 : USBD_INFO_T) (cfgIndex nullRead : Nat),
      (USBD_HID_ClassDeInitHandler
        (USBD_HID_ClassInitHandler k usbInfo0 cfgIndex true).usbInfo cfgIndex
        nullRead).usbInfo.classData = none) := by
  refine ⟨?_, ?_, ?_, ?_⟩
  · intro req descInfo0
    simp [USBD_HID_SetupHandler, habs]
  · intro report length
    simp [USBD_HID_TxReport, habs]
  · intro epNum
    simp [USBD_HID_DataInHandler, habs]
  · intro usbInfo0 cfgIndex nullRead
    rfl

/-- Witness of C22: a report submission on the sample device after class init followed
by class deinit. -/
theorem C22_absent_instance_fails_witness :
    (USBD_HID_ClassDeInitHandler
        (USBD_HID_ClassInitHandler usbConsts (sampleDev 3 none) 0 true).usbInfo 0 0
      ).usbInfo.classData = none ∧
    USBD_HID_TxReport usbConsts
        (USBD_HID_ClassDeInitHandler
          (USBD_HID_ClassInitHandler usbConsts (sampleDev 3 none) 0 true).usbInfo 0 0
        ).usbInfo sampleReport 8 =
      { status := USBD_FAIL,
        usbInfo := (USBD_HID_ClassDeInitHandler
          (USBD_HID_ClassInitHandler usbConsts (sampleDev 3 none) 0 true).usbInfo 0 0
        ).usbInfo,
        effects := [] } :=
  ⟨rfl,
    (C22_absent_instance_fails usbConsts
      (USBD_HID_ClassDeInitHandler
        (USBD_HID_ClassInitHandler usbConsts (sampleDev 3 none) 0 true).usbInfo 0 0
      ).usbInfo rfl).2.1 sampleReport 8⟩

/-- C23 (the code departs from the claim): class deinit on a device context without an
instance, whose endpoint slot 1 is in use with the interval 10. The handler reads
`epInAddr` through the `NULL` pointer (here the read yields 0x21), calls
`USBD_EP_CloseCallback` with that value, resets the slot `0x21 & 0x0F = 1` and returns
`USBD_OK`. The start-of-frame handler on the same context makes no access and no
call and returns `USBD_BUSY`, as for every context. -/
theorem C23_deinit_dereferences_null :
    sampleDevSlotInUse.classData = none ∧
    sampleDevSlotInUse.devEpIn[1]? = some { interval := 10, useStatus := ENABLE } ∧
    (USBD_HID_ClassDeInitHandler sampleDevSlotInUse 0 0x21).effects =
      [Effect.nullInstanceAccess, Effect.USBD_EP_CloseCallback 0x21] ∧
    (USBD_HID_ClassDeInitHandler sampleDevSlotInUse 0 0x21).usbInfo.devEpIn[1]? =
      some { interval := 0, useStatus := DISABLE } ∧
    (USBD_HID_ClassDeInitHandler sampleDevSlotInUse 0 0x21).status = USBD_OK ∧
    USBD_HID_SOFHandler sampleDevSlotInUse =
      { status := USBD_BUSY, usbInfo := sampleDevSlotInUse, effects := [] } := by
  decide

/-! ## The descriptor blobs -/

/-- A C array whose declared length is at least the length of its initialiser list is
the list followed by zeros. -/
theorem cArray_eq_append (n : Nat) (init : List Nat) (h : init.length ≤ n) :
    cArray n init = init ++ List.replicate (n - init.length) 0 := by
  unfold cArray
  apply List.take_of_length_le
  simp
  omega

/-- C24: with the array length 9 and the descriptor types 0x21 and 0x22 of the spec, and
a report descriptor size that fits 16 bits, `USBD_HIDDesc` is exactly the nine bytes
0x09, 0x21, 0x11, 0x01 (bcdHID 0x0111, low byte first), 0x00, 0x01, 0x22 and the
report descriptor length, low byte then high byte; the 16-bit number made of these
two bytes is the length in bytes of `USBD_HIDReportDesc`, which is the blob and the
size that `USBD_HID_ReportDescHandler` hands out for GET_DESCRIPTOR(REPORT). -/
theorem C24_hid_descriptor_layout (k : HidConsts) (usbSpeed : Nat)
    (hspec : specDescriptorConsts k)
    (hsize : k.USBD_HID_MOUSE_REPORT_DESC_SIZE < 65536) :
    USBD_HIDDesc k =
      [0x09, 0x21, 0x11, 0x01, 0x00, 0x01, 0x22,
       k.USBD_HID_MOUSE_REPORT_DESC_SIZE % 256, k.USBD_HID_MOUSE_REPORT_DESC_SIZE / 256] ∧
    (USBD_HIDDesc k).length = 9 ∧
    k.USBD_HID_MOUSE_REPORT_DESC_SIZE % 256 + 256 * (k.USBD_HID_MOUSE_REPORT_DESC_SIZE / 256)
      = (USBD_HIDReportDesc k).length ∧
    (USBD_HID_ReportDescHandler k usbSpeed).desc = some (USBD_HIDReportDesc k) ∧
    (USBD_HID_ReportDescHandler k usbSpeed).size = (USBD_HIDReportDesc k).length := by
  obtain ⟨h9, h21, h22⟩ := hspec
  have hlo : (k.USBD_HID_MOUSE_REPORT_DESC_SIZE &&& 0xFF) % 256 =
      k.USBD_HID_MOUSE_REPORT_DESC_SIZE % 256 := by
    have h := Nat.and_pow_two_sub_one_eq_mod k.USBD_HID_MOUSE_REPORT_DESC_SIZE 8
    have h255 : (0xFF : Nat) = 2 ^ 8 - 1 := by norm_num
    rw [h255, h]
    norm_num
  have hhi : (k.USBD_HID_MOUSE_REPORT_DESC_SIZE >>> 8) % 256 =
      k.USBD_HID_MOUSE_REPORT_DESC_SIZE / 256 := by
    rw [Nat.shiftRight_eq_div_pow]
    have h256 : (2 : Nat) ^ 8 = 256 := by norm_num
    rw [h256]
    apply Nat.mod_eq_of_lt
    omega
  have hblob : USBD_HIDDesc k =
      [0x09, 0x21, 0x11, 0x01, 0x00, 0x01, 0x22,
       k.USBD_HID_MOUSE_REPORT_DESC_SIZE % 256,
       k.USBD_HID_MOUSE_REPORT_DESC_SIZE / 256] := by
    simp only [USBD_HIDDesc, USBD_HIDDesc_init, h9, h21, h22, hlo, hhi]
    rfl
  have hlen : (USBD_HIDReportDesc k).length = k.USBD_HID_MOUSE_REPORT_DESC_SIZE :=
    cArray_length _ _
  refine ⟨hblob, ?_, ?_, rfl, ?_⟩
  · rw [hblob]
    rfl
  · rw [hlen]
    omega
  · rw [hlen]
    rfl

/-- Witness of C24 on the sample constants (report descriptor size 63). -/
theorem C24_hid_descriptor_layout_witness :
    specDescriptorConsts usbConsts ∧
    usbConsts.USBD_HID_MOUSE_REPORT_DESC_SIZE < 65536 ∧
    USBD_HIDDesc usbConsts = [0x09, 0x21, 0x11, 0x01, 0x00, 0x01, 0x22, 63, 0] :=
  ⟨⟨rfl, rfl, rfl⟩, by decide,
    (C24_hid_descriptor_layout usbConsts 0 ⟨rfl, rfl, rfl⟩ (by decide)).1⟩

/-- Between two items, a zero byte is a main item without data whose tag is none of
INPUT, OUTPUT, FEATURE: it clears the local items only. -/
theorem readByte_zero (s : ItemState) (h : s.need = 0) :
    readByte s 0 = { s with usageMin := none, usageMax := none } := by
  simp [readByte, h, itemDataSize, applyItem]

/-- Zero bytes read between two items declare no field. -/
theorem fields_foldl_readByte_zeros (n : Nat) :
    ∀ s : ItemState, s.need = 0 →
      ((List.replicate n 0).foldl readByte s).fields = s.fields := by
  induction n with
  | zero => intro s _; rfl
  | succ n ih =>
    intro s h
    rw [List.replicate_succ, List.foldl_cons, readByte_zero s h]
    exact ih _ h

set_option maxRecDepth 8000

/-- The reader after the 63 initialiser bytes is between two items. -/
theorem readItems_init_need : (readItems USBD_HIDReportDesc_init).need = 0 := by
  rfl

/-- The fields declared by the report descriptor are those of its 63 initialiser
bytes, whatever the declared array length from 63 on. -/
theorem fields_readItems_blob (k : HidConsts)
    (hsize : 63 ≤ k.USBD_HID_MOUSE_REPORT_DESC_SIZE) :
    (readItems (USBD_HIDReportDesc k)).fields =
      (readItems USBD_HIDReportDesc_init).fields := by
  have hblob : USBD_HIDReportDesc k =
      USBD_HIDReportDesc_init ++
        List.replicate (k.USBD_HID_MOUSE_REPORT_DESC_SIZE - USBD_HIDReportDesc_init.length) 0 :=
    cArray_eq_append _ _ hsize
  rw [hblob]
  unfold readItems
  rw [List.foldl_append]
  exact fields_foldl_readByte_zeros _ _ readItems_init_need

/-- C25: read as HID short items, with REPORT_SIZE and REPORT_COUNT tracked as global
items, the report descriptor (of any declared array length from 63 on) has three
INPUT items, in order: 8 fields of 1 bit, data and variable (flags 2), usage page 7
with usages 0xE0 to 0xE7; 1 constant field of 8 bits (flags 3); 6 fields of 8 bits,
data and array (flags 0), logical range 0 to 101; together 64 bits, an 8-byte input
report. It has two OUTPUT items: 5 fields of 1 bit, data and variable, LED page 8
with usages 1 to 5; then one constant field of 3 bits; together 8 bits, a 1-byte
output report. -/
theorem C25_report_descriptor_fields (k : HidConsts)
    (hsize : 63 ≤ k.USBD_HID_MOUSE_REPORT_DESC_SIZE) :
    fieldsOf 8 (USBD_HIDReportDesc k) =
      [ { mainTag := 8, flags := 2, reportSize := 1, reportCount := 8, usagePage := 7,
          usageMin := some 0xE0, usageMax := some 0xE7, logicalMin := 0, logicalMax := 1 },
        { mainTag := 8, flags := 3, reportSize := 8, reportCount := 1, usagePage := 7,
          usageMin := none, usageMax := none, logicalMin := 0, logicalMax := 1 },
        { mainTag := 8, flags := 0, reportSize := 8, reportCount := 6, usagePage := 7,
          usageMin := some 0, usageMax := some 101, logicalMin := 0, logicalMax := 101 } ] ∧
    reportBits (fieldsOf 8 (USBD_HIDReportDesc k)) = 64 ∧
    fieldsOf 9 (USBD_HIDReportDesc k) =
      [ { mainTag := 9, flags := 2, reportSize := 1, reportCount := 5, usagePage := 8,
          usageMin := some 1, usageMax := some 5, logicalMin := 0, logicalMax := 1 },
        { mainTag := 9, flags := 3, reportSize := 3, reportCount := 1, usagePage := 8,
          usageMin := none, usageMax := none, logicalMin := 0, logicalMax := 1 } ] ∧
    reportBits (fieldsOf 9 (USBD_HIDReportDesc k)) = 8 := by
  have h8 : fieldsOf 8 (USBD_HIDReportDesc k) = fieldsOf 8 USBD_HIDReportDesc_init := by
    unfold fieldsOf
    rw [fields_readItems_blob k hsize]
  have h9 : fieldsOf 9 (USBD_HIDReportDesc k) = fieldsOf 9 USBD_HIDReportDesc_init := by
    unfold fieldsOf
    rw [fields_readItems_blob k hsize]
  rw [h8, h9]
  exact ⟨rfl, rfl, rfl, rfl⟩

/-- Witness of C25 on the sample constants (declared array length 63). -/
theorem C25_report_descriptor_fields_witness :
    63 ≤ usbConsts.USBD_HID_MOUSE_REPORT_DESC_SIZE ∧
    reportBits (fieldsOf 8 (USBD_HIDReportDesc usbConsts)) = 64 ∧
    reportBits (fieldsOf 9 (USBD_HIDReportDesc usbConsts)) = 8 :=
  ⟨by decide,
    (C25_report_descriptor_fields usbConsts (by decide)).2.1,
    (C25_report_descriptor_fields usbConsts (by decide)).2.2.2⟩

/-! ## Where the request type is read -/

/-- C26 (the code departs from the claim): the same setup packet, a CLASS request
SET_IDLE by its own fields, is passed on two device contexts that agree on the
instance fields, the device state and the device speed, and differ only in the type
of the setup packet stored in `usbInfo->reqSetup`. With the stored type CLASS the
handler stores the idle rate and makes no call; with the stored type STANDARD it
takes the request code 0x0A for GET_INTERFACE, queues a one-byte reply and leaves
`idleStatus` unchanged. -/
theorem C26_outcome_depends_on_stored_packet :
    (sampleDevOfType 1 3 (some (sampleHid USBD_HID_IDLE))).classData =
      (sampleDevOfType 0 3 (some (sampleHid USBD_HID_IDLE))).classData ∧
    (sampleDevOfType 1 3 (some (sampleHid USBD_HID_IDLE))).devState =
      (sampleDevOfType 0 3 (some (sampleHid USBD_HID_IDLE))).devState ∧
    (sampleDevOfType 1 3 (some (sampleHid USBD_HID_IDLE))).devSpeed =
      (sampleDevOfType 0 3 (some (sampleHid USBD_HID_IDLE))).devSpeed ∧
    (USBD_HID_SetupHandler usbConsts (sampleDevOfType 1 3 (some (sampleHid USBD_HID_IDLE)))
        sampleClassSetIdle sampleStaleDescInfo).effects = [] ∧
    (USBD_HID_SetupHandler usbConsts (sampleDevOfType 1 3 (some (sampleHid USBD_HID_IDLE)))
        sampleClassSetIdle sampleStaleDescInfo).usbInfo.classData =
      some { sampleHid USBD_HID_IDLE with idleStatus := 0x7D } ∧
    (USBD_HID_SetupHandler usbConsts (sampleDevOfType 0 3 (some (sampleHid USBD_HID_IDLE)))
        sampleClassSetIdle sampleStaleDescInfo).effects =
      [Effect.USBD_CtrlSendData [0] 1] ∧
    (USBD_HID_SetupHandler usbConsts (sampleDevOfType 0 3 (some (sampleHid USBD_HID_IDLE)))
        sampleClassSetIdle sampleStaleDescInfo).usbInfo.classData =
      some (sampleHid USBD_HID_IDLE) := by
  decide

/-! ## Requests passed while the stored packet has another type

The handler takes the request type from `usbInfo->reqSetup` (line 273) and every other
field from the packet `req` it is given. The theorems of this section evaluate the
handler on the sample constants at packets whose own type differs from the type of the
stored packet. -/

/-- The setup handler never changes the IN endpoint address. -/
theorem epInAddrOf_SetupHandler (k : HidConsts) (usbInfo : USBD_INFO_T)
    (req : USBD_REQ_SETUP_T) (descInfo0 : USBD_DESC_INFO_T) :
    epInAddrOf (USBD_HID_SetupHandler k usbInfo req descInfo0).usbInfo
      = epInAddrOf usbInfo := by
  unfold USBD_HID_SetupHandler
  cases hc : usbInfo.classData with
  | none => simp [epInAddrOf, hc]
  | some usbDevHID =>
    simp only
    split_ifs <;> simp [epInAddrOf, hc, sendDescriptor_usbInfo]

/-- A report submission never changes the IN endpoint address. -/
theorem epInAddrOf_TxReport (k : HidConsts) (usbInfo : USBD_INFO_T) (report : List Nat)
    (length : Nat) :
    epInAddrOf (USBD_HID_TxReport k usbInfo report length).usbInfo = epInAddrOf usbInfo := by
  unfold USBD_HID_TxReport
  cases hc : usbInfo.classData with
  | none => simp [epInAddrOf, hc]
  | some usbDevHID =>
    simp only
    split_ifs <;> simp [epInAddrOf, hc]

/-- The transfer-complete handler never changes the IN endpoint address. -/
theorem epInAddrOf_DataInHandler (usbInfo : USBD_INFO_T) (epNum : Nat) :
    epInAddrOf (USBD_HID_DataInHandler usbInfo epNum).usbInfo = epInAddrOf usbInfo := by
  unfold USBD_HID_DataInHandler
  cases hc : usbInfo.classData with
  | none => simp [epInAddrOf, hc]
  | some usbDevHID => simp [epInAddrOf, hc]

/-- No call of the four entry points changes the IN endpoint address. -/
theorem epInAddrOf_step (k : HidConsts) (usbInfo : USBD_INFO_T) (c : Call) :
    epInAddrOf (step k usbInfo c).usbInfo = epInAddrOf usbInfo := by
  obtain ⟨sp, st, rs, entry⟩ := c
  cases entry with
  | HandleSetup req descInfo0 =>
    simp only [step]
    rw [epInAddrOf_SetupHandler]
    rfl
  | HandleStartOfFrame => rfl
  | SubmitReport report length =>
    simp only [step]
    rw [epInAddrOf_TxReport]
    rfl
  | HandleTransferComplete epNum =>
    simp only [step]
    rw [epInAddrOf_DataInHandler]
    rfl

/-- No sequence of calls of the four entry points changes the IN endpoint address. -/
theorem epInAddrOf_run (k : HidConsts) (calls : List Call) :
    ∀ usbInfo : USBD_INFO_T, epInAddrOf (run k usbInfo calls) = epInAddrOf usbInfo := by
  induction calls with
  | nil => intro usbInfo; rfl
  | cons c cs ih =>
    intro usbInfo
    simp only [run]
    rw [ih, epInAddrOf_step]

/-- C27: class init sets `epInAddr` to `USBD_HID_IN_EP_ADDR` for every device context,
whatever its speed; no call and no sequence of calls of the setup, start-of-frame,
report-submission and transfer-complete entry points changes `epInAddr`; the setup
handler and the start-of-frame handler never change the transmit state; a report
submission leaves a BUSY instance BUSY. -/
theorem C27_epInAddr_fixed (k : HidConsts) :
    (∀ (usbInfo0 : USBD_INFO_T) (cfgIndex : Nat),
      epInAddrOf (USBD_HID_ClassInitHandler k usbInfo0 cfgIndex true).usbInfo =
        some k.USBD_HID_IN_EP_ADDR) ∧
    (∀ (usbInfo : USBD_INFO_T) (c : Call),
      epInAddrOf (step k usbInfo c).usbInfo = epInAddrOf usbInfo) ∧
    (∀ (usbInfo : USBD_INFO_T) (calls : List Call),
      epInAddrOf (run k usbInfo calls) = epInAddrOf usbInfo) ∧
    (∀ (usbInfo : USBD_INFO_T) (req : USBD_REQ_SETUP_T) (descInfo0 : USBD_DESC_INFO_T),
      stateOf (USBD_HID_SetupHandler k usbInfo req descInfo0).usbInfo = stateOf usbInfo) ∧
    (∀ usbInfo : USBD_INFO_T,
      stateOf (USBD_HID_SOFHandler usbInfo).usbInfo = stateOf usbInfo) ∧
    (∀ (usbInfo : USBD_INFO_T) (report : List Nat) (length : Nat),
      stateOf usbInfo = some USBD_HID_BUSY →
      stateOf (USBD_HID_TxReport k usbInfo report length).usbInfo = some USBD_HID_BUSY) :=
  ⟨fun _ _ => rfl,
   fun usbInfo c => epInAddrOf_step k usbInfo c,
   fun usbInfo calls => epInAddrOf_run k calls usbInfo,
   fun usbInfo req descInfo0 => stateOf_SetupHandler k usbInfo req descInfo0,
   fun _ => rfl,
   fun usbInfo report length hbusy => stateOf_TxReport_of_busy k usbInfo report length hbusy⟩

/-- Witness of C27: on the sample device after class init, a report submission, a
SET_INTERFACE request and a transfer-complete leave `epInAddr` at 0x81; a second
submission on the BUSY instance leaves it BUSY. -/
theorem C27_epInAddr_fixed_witness :
    epInAddrOf (run usbConsts
        (USBD_HID_ClassInitHandler usbConsts (sampleDev 2 none) 0 true).usbInfo
        [sampleCall 3 (Entry.SubmitReport sampleReport 8),
         sampleCall 3 (Entry.HandleSetup (sampleRequest 11 1 0) sampleStaleDescInfo),
         sampleCall 3 (Entry.HandleTransferComplete 1)]) = some 0x81 ∧
    stateOf (sampleDev 3 (some (sampleHid USBD_HID_BUSY))) = some USBD_HID_BUSY ∧
    stateOf (USBD_HID_TxReport usbConsts (sampleDev 3 (some (sampleHid USBD_HID_BUSY)))
        sampleReport 8).usbInfo = some USBD_HID_BUSY :=
  ⟨((C27_epInAddr_fixed usbConsts).2.2.1 _ _).trans
      ((C27_epInAddr_fixed usbConsts).1 (sampleDev 2 none) 0),
    rfl,
    (C27_epInAddr_fixed usbConsts).2.2.2.2.2 _ sampleReport 8 rfl⟩

/-- The CLEAR_FEATURE case of the STANDARD branch, entered when the packet stored in
`usbInfo->reqSetup` has the type STANDARD: for every `wValue`, `wLength`, device state
and stack content, with the instance present, the handler returns `USBD_OK`, makes no
call and leaves the device context unchanged. (The case label CLEAR_FEATURE differs
from the four labels tested before it.) -/
theorem SetupHandler_clear_feature_noop (k : HidConsts) (usbInfo : USBD_INFO_T)
    (usbDevHID : USBD_HID_INFO_T) (req : USBD_REQ_SETUP_T) (descInfo0 : USBD_DESC_INFO_T)
    (hinst : usbInfo.classData = some usbDevHID)
    (hstd : usbInfo.reqSetup.type = k.USBD_REQ_TYPE_STANDARD)
    (hreq : req.bRequest = k.USBD_STD_CLEAR_FEATURE)
    (hd : k.USBD_STD_CLEAR_FEATURE ≠ k.USBD_STD_GET_DESCRIPTOR)
    (hs : k.USBD_STD_CLEAR_FEATURE ≠ k.USBD_STD_GET_STATUS)
    (hg : k.USBD_STD_CLEAR_FEATURE ≠ k.USBD_STD_GET_INTERFACE)
    (hi : k.USBD_STD_CLEAR_FEATURE ≠ k.USBD_STD_SET_INTERFACE) :
    (USBD_HID_SetupHandler k usbInfo req descInfo0).status = USBD_OK ∧
    (USBD_HID_SetupHandler k usbInfo req descInfo0).effects = [] ∧
    (USBD_HID_SetupHandler k usbInfo req descInfo0).usbInfo = usbInfo ∧
    (USBD_HID_SetupHandler k usbInfo req descInfo0).usbInfo.classData = some usbDevHID := by
  have ho : USBD_HID_SetupHandler k usbInfo req descInfo0 =
      { status := USBD_OK, usbInfo := usbInfo, effects := [] } := by
    simp only [USBD_HID_SetupHandler, hinst, hstd, hreq, hd, hs, hg, hi, if_true, if_false]
  rw [ho]
  exact ⟨rfl, rfl, rfl, hinst⟩

/-- C29: for every device context, with or without an instance,
`USBD_HID_SOFHandler` returns `USBD_BUSY`, makes no call and returns the device
context as it was: no field of the instance and no endpoint slot changes. -/
theorem C29_sof_busy_noop (usbInfo : USBD_INFO_T) :
    (USBD_HID_SOFHandler usbInfo).status = USBD_BUSY ∧
    (USBD_HID_SOFHandler usbInfo).effects = [] ∧
    (USBD_HID_SOFHandler usbInfo).usbInfo = usbInfo ∧
    (USBD_HID_SOFHandler usbInfo).usbInfo.classData = usbInfo.classData ∧
    (USBD_HID_SOFHandler usbInfo).usbInfo.devEpIn = usbInfo.devEpIn :=
  ⟨rfl, rfl, rfl, rfl, rfl⟩

/-- The CLASS branch, entered when the packet stored in `usbInfo->reqSetup` has the type
CLASS, reads neither the device state nor the transmit state. On two device contexts
that differ in the device state and in the transmit state of the instance (and in the
stack content), for a code SET_IDLE, GET_IDLE, SET_PROTOCOL or GET_PROTOCOL in `req`,
the handler returns `USBD_OK` both times, makes the same calls, and leaves the same
`epInAddr`, `altSettingStatus`, `idleStatus` and `protocol`, each call keeping the
transmit state it found. (The case label CLASS differs from STANDARD.) -/
theorem SetupHandler_class_branch_any_device_state (k : HidConsts) (usbInfo : USBD_INFO_T)
    (usbDevHID : USBD_HID_INFO_T) (req : USBD_REQ_SETUP_T)
    (descInfo1 descInfo2 : USBD_DESC_INFO_T) (devState1 devState2 : Nat)
    (state1 state2 : USBD_HID_STATE_T)
    (hcls : usbInfo.reqSetup.type = k.USBD_REQ_TYPE_CLASS)
    (hsc : k.USBD_REQ_TYPE_CLASS ≠ k.USBD_REQ_TYPE_STANDARD)
    (hreq : req.bRequest = k.USBD_CLASS_SET_IDLE ∨ req.bRequest = k.USBD_CLASS_GET_IDLE ∨
      req.bRequest = k.USBD_CLASS_SET_PROTOCOL ∨ req.bRequest = k.USBD_CLASS_GET_PROTOCOL) :
    (USBD_HID_SetupHandler k
        { usbInfo with devState := devState1,
                       classData := some { usbDevHID with state := state1 } }
        req descInfo1).status = USBD_OK ∧
    (USBD_HID_SetupHandler k
        { usbInfo with devState := devState2,
                       classData := some { usbDevHID with state := state2 } }
        req descInfo2).status = USBD_OK ∧
    (USBD_HID_SetupHandler k
        { usbInfo with devState := devState1,
                       classData := some { usbDevHID with state := state1 } }
        req descInfo1).effects =
      (USBD_HID_SetupHandler k
        { usbInfo with devState := devState2,
                       classData := some { usbDevHID with state := state2 } }
        req descInfo2).effects ∧
    (USBD_HID_SetupHandler k
        { usbInfo with devState := devState1,
                       classData := some { usbDevHID with state := state1 } }
        req descInfo1).usbInfo.classData.map
        (fun h => (h.epInAddr, h.altSettingStatus, h.idleStatus, h.protocol)) =
      (USBD_HID_SetupHandler k
        { usbInfo with devState := devState2,
                       classData := some { usbDevHID with state := state2 } }
        req descInfo2).usbInfo.classData.map
        (fun h => (h.epInAddr, h.altSettingStatus, h.idleStatus, h.protocol)) ∧
    stateOf (USBD_HID_SetupHandler k
        { usbInfo with devState := devState1,
                       classData := some { usbDevHID with state := state1 } }
        req descInfo1).usbInfo = some state1 ∧
    stateOf (USBD_HID_SetupHandler k
        { usbInfo with devState := devState2,
                       classData := some { usbDevHID with state := state2 } }
        req descInfo2).usbInfo = some state2 := by
  have hne : ¬ k.USBD_REQ_TYPE_CLASS = k.USBD_REQ_TYPE_STANDARD := hsc
  simp only [USBD_HID_SetupHandler, hcls, hne, if_true, if_false]
  split_ifs with h1 h2 h3 h4
  · simp [stateOf]
  · simp [stateOf]
  · simp [stateOf]
  · simp [stateOf]
  · exfalso
    rcases hreq with h | h | h | h
    · exact h1 h
    · exact h2 h
    · exact h3 h
    · exact h4 h

/-! ## The report descriptor as a sequence of short items -/

/-- C31: the 63 bytes that initialise `USBD_HIDReportDesc` split, from byte 0 on, into 32
short items without a truncated item and without a leftover byte: every item has 0,
1, 2 or 4 data bytes as its prefix announces, and the items written out again are the
63 bytes. There is exactly one COLLECTION item and exactly one END_COLLECTION item,
which closes it and is the last item and the last byte, 0xC0. Every INPUT and OUTPUT
item has a REPORT_SIZE and a REPORT_COUNT before it, even among the items since the
INPUT or OUTPUT item before it. -/
theorem C31_report_descriptor_well_formed :
    USBD_HIDReportDesc_init.length = 63 ∧
    (shortItems 63 USBD_HIDReportDesc_init).isSome = true ∧
    (shortItems 63 USBD_HIDReportDesc_init).map List.length = some 32 ∧
    (shortItems 63 USBD_HIDReportDesc_init).map
        (fun items => items.all fun it =>
          it.data.length = itemDataSize it.pfx &&
          (it.data.length = 0 || it.data.length = 1 || it.data.length = 2 ||
           it.data.length = 4)) = some true ∧
    (shortItems 63 USBD_HIDReportDesc_init).map
        (fun items => items.flatMap fun it => it.pfx :: it.data) =
      some USBD_HIDReportDesc_init ∧
    (shortItems 63 USBD_HIDReportDesc_init).map
        (fun items => items.countP ShortItem.isCollection) = some 1 ∧
    (shortItems 63 USBD_HIDReportDesc_init).map
        (fun items => items.countP ShortItem.isEndCollection) = some 1 ∧
    (shortItems 63 USBD_HIDReportDesc_init).bind (collectionDepth 0) = some 0 ∧
    (shortItems 63 USBD_HIDReportDesc_init).bind List.getLast? =
      some { pfx := 0xC0, data := [] } ∧
    USBD_HIDReportDesc_init.getLast? = some 0xC0 ∧
    (shortItems 63 USBD_HIDReportDesc_init).map (sizeCountBeforeFields false false) =
      some true ∧
    (shortItems 63 USBD_HIDReportDesc_init).map sizeCountPrecedeFields = some true := by
  refine ⟨rfl, rfl, rfl, rfl, rfl, rfl, rfl, rfl, rfl, rfl, rfl, rfl⟩

end UsbdHid

/-!
# LCD drawing routines (bsp_lcd.c): properties
-/

namespace BspLcd

set_option maxRecDepth 20000

/-! ## LCD_DrawLine -/

/-- C32 (the code departs from the claim): the call `LCD_DrawLine(64, 40, 64, 0, color)`
made by `Menu_DisplayInit`, with the colour `LCD_FCOLOR = 0x06F3`. The loop ends after
41 calls of `LCD_DrawPoint`; the start point (64, 40) is plotted, twice, and the
points down to (64, 1) follow; the end point (64, 0) is not plotted. The shortest
line from (0, 0) to (1, 0) plots (0, 0) twice and nothing else. -/
theorem C32_end_point_not_plotted :
    LCD_DrawLine_points 0 0 1 0 2 = some [(0, 0), (0, 0)] ∧
    (LCD_DrawLine 64 40 64 0 0x06F3 41).map List.length = some 41 ∧
    (LCD_DrawLine 64 40 64 0 0x06F3 41).map (fun ops => ops.take 3) =
      some [LcdOp.drawPoint 64 40 0x06F3, LcdOp.drawPoint 64 40 0x06F3,
            LcdOp.drawPoint 64 39 0x06F3] ∧
    (LCD_DrawLine 64 40 64 0 0x06F3 41).bind List.getLast? =
      some (LcdOp.drawPoint 64 1 0x06F3) ∧
    (LCD_DrawLine 64 40 64 0 0x06F3 41).map
      (fun ops => decide (LcdOp.drawPoint 64 40 0x06F3 ∈ ops)) = some true ∧
    (LCD_DrawLine 64 40 64 0 0x06F3 41).map
      (fun ops => decide (LcdOp.drawPoint 64 0 0x06F3 ∈ ops)) = some false := by
  refine ⟨rfl, rfl, rfl, rfl, rfl, rfl⟩

/-- With the distance 65535 the test `i < distance + 1` holds for every value of the
16-bit counter: the loop does not end, whatever the fuel. -/
theorem LCD_DrawLine_loop_none (xDelta yDelta xInc yInc : Int) (fuel : Nat) :
    ∀ st : LineState, st.i < 65536 →
      LCD_DrawLine_loop xDelta yDelta 65535 xInc yInc fuel st = none := by
  induction fuel with
  | zero =>
    intro st hst
    have h : (st.i : Int) < 65535 + 1 := by omega
    simp [LCD_DrawLine_loop, hst]
  | succ fuel ih =>
    intro st hst
    have h : (st.i : Int) < 65535 + 1 := by omega
    have hnext : (LCD_DrawLine_body xDelta yDelta 65535 xInc yInc st).i < 65536 := by
      simp only [LCD_DrawLine_body]
      exact Nat.mod_lt _ (by decide)
    simp [LCD_DrawLine_loop, hst, ih _ hnext]

/-- C33 (the code departs from the claim): for the coordinates `x1 = 0`, `x2 = 65535`,
`y1 = y2 = 0`, where `max(|x2-x1|, |y2-y1|) + 1 = 65536`, the loop of `LCD_DrawLine`
has not ended after any number of passes: the 16-bit counter `i` is below
`distance + 1 = 65536` at every test. -/
theorem C33_line_loop_does_not_end (color fuel : Nat) :
    LCD_DrawLine 0 0 65535 0 color fuel = none ∧
    LCD_DrawLine_points 0 0 65535 0 fuel = none := by
  have h : LCD_DrawLine_points 0 0 65535 0 fuel = none := by
    simp only [LCD_DrawLine_points]
    exact LCD_DrawLine_loop_none _ _ _ _ fuel _ (by decide)
  simp [LCD_DrawLine, h]

/-- With a distance of at most 65534 the loop of `LCD_DrawLine` ends: from a counter `i`
with `i + n = distance + 1` it makes `n` more calls of `LCD_DrawPoint`, the first at the
current `(uRow, uCol)`, and two consecutive points differ by at most 1 in each
coordinate. -/
theorem LCD_DrawLine_loop_ends (xDelta yDelta distance xInc yInc : Int)
    (hx : |xInc| ≤ 1) (hy : |yInc| ≤ 1) (hd : distance ≤ 65534) :
    ∀ (n fuel : Nat) (st : LineState), (st.i : Int) + n = distance + 1 → n ≤ fuel →
      ∃ pts, LCD_DrawLine_loop xDelta yDelta distance xInc yInc fuel st = some pts ∧
        pts.length = n ∧ (0 < n → pts.head? = some (st.uRow, st.uCol)) ∧
        List.Chain' (fun p q : Int × Int => |q.1 - p.1| ≤ 1 ∧ |q.2 - p.2| ≤ 1) pts ∧
        ∀ p ∈ pts, |p.1 - st.uRow| + 1 ≤ n ∧ |p.2 - st.uCol| + 1 ≤ n := by
  rw [abs_le] at hx hy
  intro n
  induction n with
  | zero =>
    intro fuel st h _
    have hlt : ¬ (st.i : Int) < distance + 1 := by omega
    refine ⟨[], ?_, rfl, fun h0 => absurd h0 (by decide), List.chain'_nil, ?_⟩
    · cases fuel <;> simp [LCD_DrawLine_loop, hlt]
    · intro p hp
      simp at hp
  | succ n ih =>
    intro fuel st h hf
    cases fuel with
    | zero => omega
    | succ fuel =>
      have hlt : (st.i : Int) < distance + 1 := by omega
      have hi : (LCD_DrawLine_body xDelta yDelta distance xInc yInc st).i = st.i + 1 := by
        simp only [LCD_DrawLine_body]
        exact Nat.mod_eq_of_lt (by omega)
      obtain ⟨pts, hp, hl, hh, hc, hb⟩ :=
        ih fuel (LCD_DrawLine_body xDelta yDelta distance xInc yInc st)
          (by rw [hi]; push_cast; omega) (by omega)
      have hrow : |(LCD_DrawLine_body xDelta yDelta distance xInc yInc st).uRow - st.uRow|
          ≤ 1 := by
        simp only [LCD_DrawLine_body]
        rw [abs_le]
        split_ifs <;> constructor <;> simp <;> omega
      have hcol : |(LCD_DrawLine_body xDelta yDelta distance xInc yInc st).uCol - st.uCol|
          ≤ 1 := by
        simp only [LCD_DrawLine_body]
        rw [abs_le]
        split_ifs <;> constructor <;> simp <;> omega
      refine ⟨(st.uRow, st.uCol) :: pts, ?_, ?_, fun _ => rfl, ?_, ?_⟩
      · simp [LCD_DrawLine_loop, hlt, hp]
      · simp [hl]
      · rw [List.chain'_cons']
        refine ⟨?_, hc⟩
        intro q hq
        rcases Nat.eq_zero_or_pos n with h0 | h0
        · subst h0
          rw [List.length_eq_zero.mp hl] at hq
          simp at hq
        · rw [hh h0] at hq
          simp only [Option.mem_def, Option.some.injEq] at hq
          subst hq
          exact ⟨hrow, hcol⟩
      · intro p hmem
        rcases List.mem_cons.mp hmem with h0 | h0
        · subst h0
          simp
        · obtain ⟨h1, h2⟩ := hb p h0
          rw [abs_le] at hrow hcol
          have e1 : p.1 - st.uRow = (p.1 -
              (LCD_DrawLine_body xDelta yDelta distance xInc yInc st).uRow) +
              ((LCD_DrawLine_body xDelta yDelta distance xInc yInc st).uRow - st.uRow) := by
            ring
          have e2 : p.2 - st.uCol = (p.2 -
              (LCD_DrawLine_body xDelta yDelta distance xInc yInc st).uCol) +
              ((LCD_DrawLine_body xDelta yDelta distance xInc yInc st).uCol - st.uCol) := by
            ring
          have a1 := abs_add (p.1 - (LCD_DrawLine_body xDelta yDelta distance xInc yInc st).uRow)
            ((LCD_DrawLine_body xDelta yDelta distance xInc yInc st).uRow - st.uRow)
          have a2 := abs_add (p.2 - (LCD_DrawLine_body xDelta yDelta distance xInc yInc st).uCol)
            ((LCD_DrawLine_body xDelta yDelta distance xInc yInc st).uCol - st.uCol)
          have b1 := abs_le.mpr hrow
          have b2 := abs_le.mpr hcol
          rw [← e1] at a1
          rw [← e2] at a2
          push_cast
          constructor <;> omega

/-- The first pass of the loop of `LCD_DrawLine` moves neither coordinate, since the error
terms start at 0 and neither delta exceeds the distance. With a distance between 1 and
65534, every point drawn is therefore nearer to the start than the distance, in each
coordinate. -/
theorem LCD_DrawLine_loop_first (xDelta yDelta distance xInc yInc : Int)
    (hx : |xInc| ≤ 1) (hy : |yInc| ≤ 1) (h1 : 1 ≤ distance) (hd : distance ≤ 65534)
    (hxd : xDelta ≤ distance) (hyd : yDelta ≤ distance) (fuel : Nat)
    (hf : distance + 1 ≤ fuel) (uRow uCol : Int) :
    ∃ pts, LCD_DrawLine_loop xDelta yDelta distance xInc yInc fuel
        { i := 0, xErr := 0, yErr := 0, uRow := uRow, uCol := uCol } = some pts ∧
      ∀ p ∈ pts, |p.1 - uRow| < distance ∧ |p.2 - uCol| < distance := by
  cases fuel with
  | zero => exact absurd hf (by push_cast; omega)
  | succ f =>
    have hbody : LCD_DrawLine_body xDelta yDelta distance xInc yInc
        { i := 0, xErr := 0, yErr := 0, uRow := uRow, uCol := uCol } =
        { i := 1, xErr := xDelta, yErr := yDelta, uRow := uRow, uCol := uCol } := by
      simp [LCD_DrawLine_body, not_lt.mpr hxd, not_lt.mpr hyd]
    obtain ⟨pts, hp, _, _, _, hb⟩ := LCD_DrawLine_loop_ends xDelta yDelta distance xInc yInc
      hx hy hd distance.toNat f
      { i := 1, xErr := xDelta, yErr := yDelta, uRow := uRow, uCol := uCol }
      (by simp only [Int.toNat_of_nonneg (le_trans (by decide : (0 : Int) ≤ 1) h1)]
          push_cast; omega)
      (by push_cast at hf; omega)
    refine ⟨(uRow, uCol) :: pts, ?_, ?_⟩
    · have h0 : ((0 : Nat) : Int) < distance + 1 := by push_cast; omega
      simp only [LCD_DrawLine_loop, h0, if_true, hbody, hp, Option.map_some']
    · intro p hmem
      rcases List.mem_cons.mp hmem with h0 | h0
      · subst h0
        simp only [sub_self, abs_zero]
        omega
      · obtain ⟨a1, a2⟩ := hb p h0
        simp only at a1 a2
        have hn := Int.toNat_of_nonneg (le_trans (by decide : (0 : Int) ≤ 1) h1)
        constructor <;> omega

/-- The distance and the increments computed by `LCD_DrawLine` from the two deltas: the
distance is the larger of the two absolute values, the increment is -1, 0 or 1, and the
delta kept is the absolute value. -/
theorem LCD_DrawLine_distance (dx dy : Int) :
    (if (if dx > 0 then ((1 : Int), dx) else if dx = 0 then (0, dx) else (-1, -dx)).2 >
        (if dy > 0 then ((1 : Int), dy) else if dy = 0 then (0, dy) else (-1, -dy)).2
      then (if dx > 0 then ((1 : Int), dx) else if dx = 0 then (0, dx) else (-1, -dx)).2
      else (if dy > 0 then ((1 : Int), dy) else if dy = 0 then (0, dy) else (-1, -dy)).2)
    = max |dx| |dy| ∧
    |(if dx > 0 then ((1 : Int), dx) else if dx = 0 then (0, dx) else (-1, -dx)).1| ≤ 1 ∧
    (if dx > 0 then ((1 : Int), dx) else if dx = 0 then (0, dx) else (-1, -dx)).2 = |dx| := by
  refine ⟨?_, ?_, ?_⟩
  · rcases abs_cases dx with ⟨h1, h2⟩ | ⟨h1, h2⟩ <;>
      rcases abs_cases dy with ⟨h3, h4⟩ | ⟨h3, h4⟩ <;>
      rw [h1, h3] <;> split_ifs <;> simp only [] <;> omega
  · split_ifs <;> simp
  · rcases abs_cases dx with ⟨h1, h2⟩ | ⟨h1, h2⟩ <;>
      rw [h1] <;> split_ifs <;> simp only [] <;> omega

/-- The distance computed by `LCD_DrawLine` is `max(|x2-x1|, |y2-y1|)`. When it is at
most 65534, the loop ends after exactly `max(|x2-x1|, |y2-y1|) + 1` calls of
`LCD_DrawPoint`, the first at `(x1, y1)`, and two consecutive points differ by at most
1 in each coordinate. -/
theorem LCD_DrawLine_points_ends (x1 y1 x2 y2 fuel : Nat)
    (hD : max |(x2 : Int) - x1| |(y2 : Int) - y1| ≤ 65534)
    (hfuel : max |(x2 : Int) - x1| |(y2 : Int) - y1| + 1 ≤ fuel) :
    ∃ pts, LCD_DrawLine_points x1 y1 x2 y2 fuel = some pts ∧
      (pts.length : Int) = max |(x2 : Int) - x1| |(y2 : Int) - y1| + 1 ∧
      pts.head? = some ((x1 : Int), (y1 : Int)) ∧
      List.Chain' (fun p q : Int × Int => |q.1 - p.1| ≤ 1 ∧ |q.2 - p.2| ≤ 1) pts := by
  obtain ⟨hk, hsx, _⟩ := LCD_DrawLine_distance ((x2 : Int) - x1) ((y2 : Int) - y1)
  obtain ⟨_, hsy, _⟩ := LCD_DrawLine_distance ((y2 : Int) - y1) ((x2 : Int) - x1)
  have hn : 0 ≤ max |(x2 : Int) - x1| |(y2 : Int) - y1| :=
    le_trans (abs_nonneg _) (le_max_left _ _)
  obtain ⟨pts, hp, hl, hh, hc, _⟩ := LCD_DrawLine_loop_ends
    (if (x2 : Int) - x1 > 0 then ((1 : Int), (x2 : Int) - x1)
      else if (x2 : Int) - x1 = 0 then (0, (x2 : Int) - x1) else (-1, -((x2 : Int) - x1))).2
    (if (y2 : Int) - y1 > 0 then ((1 : Int), (y2 : Int) - y1)
      else if (y2 : Int) - y1 = 0 then (0, (y2 : Int) - y1) else (-1, -((y2 : Int) - y1))).2
    (max |(x2 : Int) - x1| |(y2 : Int) - y1|) _ _ hsx hsy hD
    ((max |(x2 : Int) - x1| |(y2 : Int) - y1|).toNat + 1) fuel
    { i := 0, xErr := 0, yErr := 0, uRow := x1, uCol := y1 }
    (by simp only [Nat.cast_add, Nat.cast_one, Int.toNat_of_nonneg hn]; simp)
    (by omega)
  refine ⟨pts, ?_, ?_, hh (Nat.succ_pos _), hc⟩
  · simp only [LCD_DrawLine_points]
    rw [hk]
    exact hp
  · rw [hl]
    simp only [Nat.cast_add, Nat.cast_one, Int.toNat_of_nonneg hn]

/-- Every point drawn by `LCD_DrawLine` is nearer to the start point than
`max(|x2-x1|, |y2-y1|)` in each coordinate, when that distance is between 1 and 65534;
the end point, which is at that distance in one coordinate, is not drawn. -/
theorem LCD_DrawLine_points_near_start (x1 y1 x2 y2 fuel : Nat)
    (hD1 : 1 ≤ max |(x2 : Int) - x1| |(y2 : Int) - y1|)
    (hD : max |(x2 : Int) - x1| |(y2 : Int) - y1| ≤ 65534)
    (hfuel : max |(x2 : Int) - x1| |(y2 : Int) - y1| + 1 ≤ fuel) :
    ∃ pts, LCD_DrawLine_points x1 y1 x2 y2 fuel = some pts ∧
      (∀ p ∈ pts, |p.1 - x1| < max |(x2 : Int) - x1| |(y2 : Int) - y1| ∧
        |p.2 - y1| < max |(x2 : Int) - x1| |(y2 : Int) - y1|) ∧
      ((x2 : Int), (y2 : Int)) ∉ pts := by
  obtain ⟨hk, hsx, hx2⟩ := LCD_DrawLine_distance ((x2 : Int) - x1) ((y2 : Int) - y1)
  obtain ⟨_, hsy, hy2⟩ := LCD_DrawLine_distance ((y2 : Int) - y1) ((x2 : Int) - x1)
  obtain ⟨pts, hp, hb⟩ := LCD_DrawLine_loop_first
    (if (x2 : Int) - x1 > 0 then ((1 : Int), (x2 : Int) - x1)
      else if (x2 : Int) - x1 = 0 then (0, (x2 : Int) - x1) else (-1, -((x2 : Int) - x1))).2
    (if (y2 : Int) - y1 > 0 then ((1 : Int), (y2 : Int) - y1)
      else if (y2 : Int) - y1 = 0 then (0, (y2 : Int) - y1) else (-1, -((y2 : Int) - y1))).2
    (max |(x2 : Int) - x1| |(y2 : Int) - y1|) _ _ hsx hsy hD1 hD
    (by rw [hx2]; exact le_max_left _ _) (by rw [hy2]; exact le_max_right _ _)
    fuel hfuel x1 y1
  refine ⟨pts, ?_, hb, ?_⟩
  · simp only [LCD_DrawLine_points]
    rw [hk]
    exact hp
  · intro hmem
    obtain ⟨a1, a2⟩ := hb _ hmem
    simp only at a1 a2
    rcases max_cases |(x2 : Int) - x1| |(y2 : Int) - y1| with ⟨e, _⟩ | ⟨e, _⟩
    · rw [e] at a1
      exact lt_irrefl _ a1
    · rw [e] at a2
      exact lt_irrefl _ a2

/-! ## LCD_DrawCircle -/

/-- The loop of `LCD_DrawCircle` started at `(a, b)` with `a*a + b*b <= r*r` ends within
`b + 1 - a` passes, and `a <= b`, `a*a + b*b <= r*r` hold at every pass. -/
theorem LCD_DrawCircle_loop_spec (r : Int) (fuel : Nat) :
    ∀ a b : Int, 0 ≤ a → b ≤ r → (a ≤ b → a * a + b * b ≤ r * r) → b + 1 - a ≤ fuel →
      ∃ offs, LCD_DrawCircle_loop r fuel a b = some offs ∧
        (offs.length : Int) ≤ max 0 (b + 1 - a) ∧
        ∀ ab ∈ offs, a ≤ ab.1 ∧ ab.1 ≤ ab.2 ∧ ab.2 ≤ b ∧
          ab.1 * ab.1 + ab.2 * ab.2 ≤ r * r := by
  induction fuel with
  | zero =>
    intro a b _ _ _ hfuel
    have hab : ¬ a ≤ b := by
      have : b + 1 - a ≤ 0 := by simpa using hfuel
      omega
    exact ⟨[], by simp [LCD_DrawCircle_loop, hab], by simp, by simp⟩
  | succ fuel ih =>
    intro a b ha hb hinv hfuel
    by_cases hab : a ≤ b
    · have hsq := hinv hab
      have hfuel1 : b + 1 - a ≤ (fuel : Int) + 1 := by
        have := hfuel
        push_cast at this
        exact this
      by_cases hdec : (a + 1) * (a + 1) + b * b > r * r
      · obtain ⟨offs, hrun, hlen, hall⟩ := ih (a + 1) (b - 1) (by omega) (by omega)
          (by
            intro h1
            nlinarith)
          (by omega)
        refine ⟨(a, b) :: offs, ?_, ?_, ?_⟩
        · simp [LCD_DrawCircle_loop, hab, hdec, hrun]
        · have h0 : max 0 (b + 1 - a) = b + 1 - a := max_eq_right (by omega)
          rw [h0]
          have h1 : max 0 (b - 1 + 1 - (a + 1)) ≤ b - a := max_le (by omega) (by omega)
          simp only [List.length_cons]
          push_cast
          omega
        · intro ab hmem
          rcases List.mem_cons.mp hmem with h | h
          · subst h
            exact ⟨le_refl _, hab, le_refl _, hsq⟩
          · obtain ⟨h1, h2, h3, h4⟩ := hall ab h
            exact ⟨by omega, h2, by omega, h4⟩
      · obtain ⟨offs, hrun, hlen, hall⟩ := ih (a + 1) b (by omega) hb
          (by
            intro _
            exact not_lt.mp hdec)
          (by omega)
        refine ⟨(a, b) :: offs, ?_, ?_, ?_⟩
        · simp [LCD_DrawCircle_loop, hab, hdec, hrun]
        · have h0 : max 0 (b + 1 - a) = b + 1 - a := max_eq_right (by omega)
          rw [h0]
          have h1 : max 0 (b + 1 - (a + 1)) ≤ b - a := max_le (by omega) (by omega)
          simp only [List.length_cons]
          push_cast
          omega
        · intro ab hmem
          rcases List.mem_cons.mp hmem with h | h
          · subst h
            exact ⟨le_refl _, hab, le_refl _, hsq⟩
          · obtain ⟨h1, h2, h3, h4⟩ := hall ab h
            exact ⟨by omega, h2, h3, h4⟩
    · exact ⟨[], by simp [LCD_DrawCircle_loop, hab], by simp, by simp⟩

/-- The eight points of a pass with the offsets `(a, b)` are at the squared distance
`a*a + b*b` from the centre. -/
theorem LCD_DrawCircle_pass_dist (x0 y0 : Nat) (a b : Int) :
    ∀ p ∈ LCD_DrawCircle_pass x0 y0 a b,
      (p.1 - x0) * (p.1 - x0) + (p.2 - y0) * (p.2 - y0) = a * a + b * b := by
  intro p hp
  simp only [LCD_DrawCircle_pass, List.mem_cons, List.mem_singleton, List.not_mem_nil,
    or_false] at hp
  rcases hp with h | h | h | h | h | h | h | h <;> subst h <;> simp only [] <;> ring

/-- C34: for every radius from 0 to 255 (and every centre and colour), the loop of
`LCD_DrawCircle` ends within `radius + 1` passes; at every pass the offsets `(a, b)`
used for the eight points satisfy `0 <= a <= b <= radius` and
`a*a + b*b <= radius*radius`, and each of the eight points, taken before the
conversion of its coordinates to 16 bits, is at a squared distance of at most
`radius*radius` from `(x0, y0)`. The points plotted are those of the passes. -/
theorem C34_circle_inside (x0 y0 radius color : Nat) (_hr : radius ≤ 255) :
    ∃ offs : List (Int × Int),
      LCD_DrawCircle_loop radius (radius + 1) 0 radius = some offs ∧
      offs.length ≤ radius + 1 ∧
      (∀ ab ∈ offs, 0 ≤ ab.1 ∧ ab.1 ≤ ab.2 ∧ ab.2 ≤ radius ∧
        ab.1 * ab.1 + ab.2 * ab.2 ≤ (radius : Int) * radius ∧
        ∀ p ∈ LCD_DrawCircle_pass x0 y0 ab.1 ab.2,
          (p.1 - x0) * (p.1 - x0) + (p.2 - y0) * (p.2 - y0) ≤ (radius : Int) * radius) ∧
      LCD_DrawCircle x0 y0 radius color (radius + 1) =
        some (offs.flatMap fun ab =>
          (LCD_DrawCircle_pass x0 y0 ab.1 ab.2).map fun p =>
            LcdOp.drawPoint (toU16 p.1) (toU16 p.2) color) := by
  obtain ⟨offs, hrun, hlen, hall⟩ :=
    LCD_DrawCircle_loop_spec (radius : Int) (radius + 1) 0 radius (le_refl _) (le_refl _)
      (by intro _; simp) (by push_cast; omega)
  refine ⟨offs, hrun, ?_, ?_, ?_⟩
  · have h0 : max (0 : Int) ((radius : Int) + 1 - 0) = (radius : Int) + 1 :=
      max_eq_right (by omega)
    rw [h0] at hlen
    exact_mod_cast hlen
  · intro ab hmem
    obtain ⟨h1, h2, h3, h4⟩ := hall ab hmem
    refine ⟨h1, h2, h3, h4, ?_⟩
    intro p hp
    rw [LCD_DrawCircle_pass_dist x0 y0 ab.1 ab.2 p hp]
    exact h4
  · simp [LCD_DrawCircle, hrun]

/-- Witness of C34: the circle of radius 25 drawn by `Menu_DisplayInit` around
(40, 130) takes 18 passes, the first with the offsets (0, 25), the last with
(17, 18). -/
theorem C34_circle_inside_witness :
    (25 : Nat) ≤ 255 ∧
    LCD_DrawCircle_loop 25 26 0 25 =
      some [(0, 25), (1, 24), (2, 24), (3, 24), (4, 24), (5, 24), (6, 24), (7, 24),
            (8, 23), (9, 23), (10, 22), (11, 22), (12, 21), (13, 21), (14, 20), (15, 20),
            (16, 19), (17, 18)] ∧
    ∃ offs : List (Int × Int),
      LCD_DrawCircle_loop (25 : Nat) (25 + 1) 0 (25 : Nat) = some offs ∧
      offs.length ≤ 25 + 1 :=
  ⟨by decide, by rfl,
    (C34_circle_inside 40 130 25 0x06F3 (by decide)).imp
      fun _ h => ⟨h.1, h.2.1⟩⟩

/-! ## LCD_CalPow and LCD_DisplayIntNum -/

/-- The loop of `LCD_CalPow` multiplies `result` by `m ^ n` modulo 2^32. -/
theorem LCD_CalPow_loop_eq (m n : Nat) :
    ∀ result : Nat, result < 2 ^ 32 →
      LCD_CalPow_loop m n result = (result * m ^ n) % 2 ^ 32 := by
  induction n with
  | zero =>
    intro result h
    rw [LCD_CalPow_loop, Nat.pow_zero, Nat.mul_one, Nat.mod_eq_of_lt h]
  | succ n ih =>
    intro result _
    rw [LCD_CalPow_loop, ih _ (Nat.mod_lt _ (by decide)), Nat.mod_mul_mod, Nat.pow_succ]
    congr 1
    ring

/-- `LCD_CalPow(m, n)` is `m ^ n` modulo 2^32. -/
theorem LCD_CalPow_eq (m n : Nat) : LCD_CalPow m n = m ^ n % 2 ^ 32 := by
  rw [LCD_CalPow, LCD_CalPow_loop_eq m n 1 (by decide), Nat.one_mul]

/-- Up to the exponent 9 the power of ten is below 2^32. -/
theorem ten_pow_lt (k : Nat) (hk : k ≤ 9) : 10 ^ k < 2 ^ 32 := by
  calc 10 ^ k ≤ 10 ^ 9 := Nat.pow_le_pow_right (by decide) hk
    _ < 2 ^ 32 := by decide

/-- The digits at the positions `0` to `t` are all zero. -/
theorem digitsZeroUpTo_iff (num len t : Nat) :
    digitsZeroUpTo num len t = true ↔ ∀ s, s ≤ t → digitAt num len s = 0 := by
  simp only [digitsZeroUpTo, List.all_eq_true, List.mem_range, decide_eq_true_eq]
  constructor
  · intro h s hs
    exact h s (by omega)
  · intro h s hs
    exact h s (by omega)

/-- The loop of `LCD_DisplayIntNum` from `t` on, when `enshow` is still 0 exactly if the
digits before `t` that may be blanked are all zero. -/
theorem LCD_DisplayIntNum_loop_spec (x y num len fc bc fontSize xSize : Nat)
    (hlen : len ≤ 10) (fuel : Nat) :
    ∀ t enshow : Nat, t ≤ len → len - t ≤ fuel →
      (enshow = 0 ↔ ∀ s, s < t → s < len - 1 → digitAt num len s = 0) →
      LCD_DisplayIntNum_loop x y num len fc bc fontSize xSize fuel t enshow =
        (List.range' t (len - t)).map fun t =>
          { x := (x + t * xSize) % 65536, y := y,
            num := if t < len - 1 ∧ digitsZeroUpTo num len t = true then 32
                   else digitAt num len t + 48,
            fc := fc, bc := bc, fontSize := fontSize, mode := 0 } := by
  induction fuel with
  | zero =>
    intro t enshow ht hfuel _
    have h0 : len - t = 0 := by omega
    simp [LCD_DisplayIntNum_loop, h0]
  | succ fuel ih =>
    intro t enshow ht hfuel hen
    by_cases hlt : t < len
    · have hk : (len - t - 1) % 256 = len - 1 - t := by
        rw [Nat.mod_eq_of_lt (by omega)]
        omega
      have hpow : LCD_CalPow 10 (len - 1 - t) = 10 ^ (len - 1 - t) := by
        rw [LCD_CalPow_eq, Nat.mod_eq_of_lt (ten_pow_lt _ (by omega))]
      have hd10 : digitAt num len t < 10 := by
        simp only [digitAt]
        exact Nat.mod_lt _ (by decide)
      have htemp : ((num / LCD_CalPow 10 ((len - t - 1) % 256)) % 10) % 256 =
          digitAt num len t := by
        rw [hk, hpow]
        simp only [digitAt]
        exact Nat.mod_eq_of_lt (by
          have := Nat.mod_lt (num / 10 ^ (len - 1 - t)) (by decide : 0 < 10)
          omega)
      have hsucc : (t + 1) % 256 = t + 1 := Nat.mod_eq_of_lt (by omega)
      have hchar : (digitAt num len t + 48) % 256 = digitAt num len t + 48 :=
        Nat.mod_eq_of_lt (by omega)
      have hrange : List.range' t (len - t) = t :: List.range' (t + 1) (len - (t + 1)) := by
        have h1 : len - t = (len - (t + 1)) + 1 := by omega
        rw [h1, List.range'_succ]
      rw [hrange, List.map_cons, LCD_DisplayIntNum_loop]
      simp only [hlt, if_true, htemp, hsucc, hchar]
      by_cases hblank : enshow = 0 ∧ t < len - 1
      · obtain ⟨he0, ht1⟩ := hblank
        have hprev := hen.mp he0
        by_cases hz : digitAt num len t = 0
        · have hall : digitsZeroUpTo num len t = true := by
            rw [digitsZeroUpTo_iff]
            intro s hs
            rcases Nat.lt_or_ge s t with h | h
            · exact hprev s h (by omega)
            · have : s = t := by omega
              rw [this]
              exact hz
          simp only [he0, ht1, and_self, if_true, hz, hall]
          congr 1
          apply ih (t + 1) 0 (by omega) (by omega)
          constructor
          · intro _ s hs hs1
            rcases Nat.lt_or_ge s t with h | h
            · exact hprev s h hs1
            · have : s = t := by omega
              rw [this]
              exact hz
          · intro _
            rfl
        · have hall : ¬ digitsZeroUpTo num len t = true := by
            rw [digitsZeroUpTo_iff]
            intro h
            exact hz (h t (le_refl _))
          simp only [he0, ht1, and_self, if_true, hz, if_false, hall, and_false]
          congr 1
          apply ih (t + 1) 1 (by omega) (by omega)
          constructor
          · intro h
            exact absurd h (by decide)
          · intro h
            exact absurd (h t (by omega) ht1) hz
      · have hspec : ¬ (t < len - 1 ∧ digitsZeroUpTo num len t = true) := by
          intro ⟨ht1, hall⟩
          rw [digitsZeroUpTo_iff] at hall
          apply hblank
          refine ⟨hen.mpr ?_, ht1⟩
          intro s hs _
          exact hall s (by omega)
        simp only [hblank, if_false, hspec]
        congr 1
        apply ih (t + 1) enshow (by omega) (by omega)
        constructor
        · intro he0 s hs hs1
          have hprev := hen.mp he0
          rcases Nat.lt_or_ge s t with h | h
          · exact hprev s h hs1
          · have hst : s = t := by omega
            exfalso
            apply hblank
            exact ⟨he0, by omega⟩
        · intro h
          apply hen.mpr
          intro s hs hs1
          exact h s (by omega) hs1
    · have h0 : len - t = 0 := by omega
      rw [h0, LCD_DisplayIntNum_loop]
      simp [hlt]

/-- C35: for every 16-bit `num`, every `len` from 1 to 10 and every font size,
`LCD_DisplayIntNum` makes exactly `len` calls of `LCD_DisplayChar`, in non-overlay
mode, the call number `t` (from 0) at the column `x + t * (fontSize / 2)` (passed as
`uint16_t`) of the row `y`: with `d_t = num / 10^(len-1-t) mod 10` it draws a space
when `t < len - 1` and `d_0 .. d_t` are all zero, and the character `'0' + d_t`
otherwise. `LCD_CalPow(10, k)` is `10^k mod 2^32` for every `k` and is not zero for
`k <= 31`. -/
theorem C35_display_int_num (x y num len fc bc fontSize : Nat)
    (_hnum : num < 65536) (_hlen1 : 1 ≤ len) (hlen : len ≤ 10) (hfont : fontSize < 256) :
    LCD_DisplayIntNum x y num len fc bc fontSize =
      (List.range len).map (fun t =>
        { x := (x + t * (fontSize / 2)) % 65536, y := y,
          num := if t < len - 1 ∧ digitsZeroUpTo num len t = true then 32
                 else digitAt num len t + 48,
          fc := fc, bc := bc, fontSize := fontSize, mode := 0 }) ∧
    (LCD_DisplayIntNum x y num len fc bc fontSize).length = len ∧
    (∀ t, digitsZeroUpTo num len t = true ↔ ∀ s, s ≤ t → num / 10 ^ (len - 1 - s) % 10 = 0) ∧
    (∀ k, LCD_CalPow 10 k = 10 ^ k % 2 ^ 32) ∧
    (∀ k, k ≤ 31 → LCD_CalPow 10 k ≠ 0) := by
  have hx : fontSize / 2 % 256 = fontSize / 2 := Nat.mod_eq_of_lt (by omega)
  have hmain : LCD_DisplayIntNum x y num len fc bc fontSize =
      (List.range len).map (fun t =>
        { x := (x + t * (fontSize / 2)) % 65536, y := y,
          num := if t < len - 1 ∧ digitsZeroUpTo num len t = true then 32
                 else digitAt num len t + 48,
          fc := fc, bc := bc, fontSize := fontSize, mode := 0 }) := by
    rw [LCD_DisplayIntNum, hx, List.range_eq_range']
    exact LCD_DisplayIntNum_loop_spec x y num len fc bc fontSize (fontSize / 2) hlen 256 0 0
      (Nat.zero_le _) (by omega) (by simp)
  refine ⟨hmain, ?_, ?_, ?_, ?_⟩
  · rw [hmain]
    simp
  · intro t
    exact digitsZeroUpTo_iff num len t
  · intro k
    exact LCD_CalPow_eq 10 k
  · intro k hk
    rw [LCD_CalPow_eq]
    interval_cases k <;> decide

/-- Witness of C35: `num = 507` shown in a field of 5 digits from the column 10 with the
font size 16: two spaces, then the characters 5, 0 and 7, eight columns apart. -/
theorem C35_display_int_num_witness :
    (507 : Nat) < 65536 ∧ 1 ≤ 5 ∧ 5 ≤ 10 ∧ (16 : Nat) < 256 ∧
    (LCD_DisplayIntNum 10 20 507 5 1 2 16).map (fun c => (c.x, c.num)) =
      [(10, 32), (18, 32), (26, 53), (34, 48), (42, 55)] ∧
    (LCD_DisplayIntNum 10 20 507 5 1 2 16).length = 5 :=
  ⟨by decide, by decide, by decide, by decide, by decide,
    (C35_display_int_num 10 20 507 5 1 2 16 (by decide) (by decide) (by decide)
      (by decide)).2.1⟩

/-! ## LCD_DisplayChar -/

/-- With a font size other than 12, 16, 24 and 32 the outer loop of `LCD_DisplayChar`
writes nothing: it makes no pass or returns in its first pass. -/
theorem LCD_DisplayChar_bytes_other (fonts : LcdFonts) (num xSize fc bc fontSize mode x0
    characterSize fuel i : Nat) (st : CharState)
    (h12 : fontSize ≠ 12) (h16 : fontSize ≠ 16) (h24 : fontSize ≠ 24) (h32 : fontSize ≠ 32) :
    LCD_DisplayChar_bytes fonts num xSize fc bc fontSize mode x0 characterSize fuel i st
      = [] := by
  cases fuel with
  | zero => rfl
  | succ fuel =>
    simp [LCD_DisplayChar_bytes, LCD_DisplayChar_select, h12, h16, h24, h32]

/-- The two ways of writing the colour choice on the lowest bit of a byte agree. -/
theorem ite_mod_two (a fc bc : Nat) :
    (if a % 2 = 0 then bc else fc) = if a % 2 = 1 then fc else bc := by
  split_ifs <;> first | rfl | omega

/-- The number of pixels of a glyph of `rows` rows and `cols` columns. -/
theorem glyphPixels_length (glyph : Nat → Nat) (rows cols bytesPerRow fc bc : Nat) :
    (glyphPixels glyph rows cols bytesPerRow fc bc).length = rows * cols := by
  unfold glyphPixels
  induction rows with
  | zero => simp
  | succ n ih =>
    rw [List.range_succ, List.flatMap_append, List.length_append, ih]
    simp [Nat.succ_mul]

set_option maxHeartbeats 4000000

/-- Font size 12 in non-overlay mode: the twelve bytes of the glyph give twelve rows of six
pixels, bits 0 to 5 of each byte. -/
theorem LCD_DisplayChar_bytes_12 (fonts : LcdFonts) (x y num fc bc : Nat) :
    LCD_DisplayChar_bytes fonts num 6 fc bc 12 0 x 12 12 0 ⟨x, y, 0⟩ =
      glyphPixels (fonts.asciiFont_1206 num) 12 6 1 fc bc := by
  simp [LCD_DisplayChar_bytes, LCD_DisplayChar_select, LCD_DisplayChar_bits, glyphPixels,
    pixelOf, List.range_succ, List.flatMap, ite_mod_two]

/-- Font size 16 in non-overlay mode: sixteen rows of eight pixels, one byte a row. -/
theorem LCD_DisplayChar_bytes_16 (fonts : LcdFonts) (x y num fc bc : Nat) :
    LCD_DisplayChar_bytes fonts num 8 fc bc 16 0 x 16 16 0 ⟨x, y, 0⟩ =
      glyphPixels (fonts.asciiFont_1608 num) 16 8 1 fc bc := by
  simp [LCD_DisplayChar_bytes, LCD_DisplayChar_select, LCD_DisplayChar_bits, glyphPixels,
    pixelOf, List.range_succ, List.flatMap, ite_mod_two]

/-- Font size 24 in non-overlay mode: twenty-four rows of twelve pixels, two bytes a row, the
second byte giving its bits 0 to 3. -/
theorem LCD_DisplayChar_bytes_24 (fonts : LcdFonts) (x y num fc bc : Nat) :
    LCD_DisplayChar_bytes fonts num 12 fc bc 24 0 x 48 48 0 ⟨x, y, 0⟩ =
      glyphPixels (fonts.asciiFont_2412 num) 24 12 2 fc bc := by
  simp [LCD_DisplayChar_bytes, LCD_DisplayChar_select, LCD_DisplayChar_bits, glyphPixels,
    pixelOf, List.range_succ, List.flatMap, ite_mod_two]

/-- Font size 32 in non-overlay mode: thirty-two rows of sixteen pixels, two bytes a row. -/
theorem LCD_DisplayChar_bytes_32 (fonts : LcdFonts) (x y num fc bc : Nat) :
    LCD_DisplayChar_bytes fonts num 16 fc bc 32 0 x 64 64 0 ⟨x, y, 0⟩ =
      glyphPixels (fonts.asciiFont_3216 num) 32 16 2 fc bc := by
  simp [LCD_DisplayChar_bytes, LCD_DisplayChar_select, LCD_DisplayChar_bits, glyphPixels,
    pixelOf, List.range_succ, List.flatMap, ite_mod_two]

/-- C36: in non-overlay mode (mode 0) and for each font size 12, 16, 24 and 32,
`LCD_DisplayChar` sets the address window from column `x` to `x + fontSize/2 - 1` and from
row `y` to `y + fontSize - 1` (the two ends as passed in 16 bits) and then writes the pixels of
the glyph `num - 32` of the table of that font size, row by row and column by column: the
pixel of row `r` and column `c` is the foreground colour when bit `c % 8` of byte
`r * bytesPerRow + c / 8` of the glyph is set and the background colour otherwise, with one
byte a row for sizes 12 and 16 and two for sizes 24 and 32. The number of pixels written is
`(fontSize / 2) * fontSize`, 72, 128, 288 and 512. With any other font size, in either mode,
the address window is set and no pixel is written. -/
theorem C36_display_char_pixels (fonts : LcdFonts) (x y num fc bc fontSize mode : Nat) :
    LCD_DisplayChar fonts x y num fc bc 12 0 =
        LcdOp.addressSet x y (toU16 ((x : Int) + 6 - 1)) (toU16 ((y : Int) + 12 - 1)) ::
          glyphPixels (fonts.asciiFont_1206 ((num + 256 - 32) % 256)) 12 6 1 fc bc ∧
      LCD_DisplayChar fonts x y num fc bc 16 0 =
        LcdOp.addressSet x y (toU16 ((x : Int) + 8 - 1)) (toU16 ((y : Int) + 16 - 1)) ::
          glyphPixels (fonts.asciiFont_1608 ((num + 256 - 32) % 256)) 16 8 1 fc bc ∧
      LCD_DisplayChar fonts x y num fc bc 24 0 =
        LcdOp.addressSet x y (toU16 ((x : Int) + 12 - 1)) (toU16 ((y : Int) + 24 - 1)) ::
          glyphPixels (fonts.asciiFont_2412 ((num + 256 - 32) % 256)) 24 12 2 fc bc ∧
      LCD_DisplayChar fonts x y num fc bc 32 0 =
        LcdOp.addressSet x y (toU16 ((x : Int) + 16 - 1)) (toU16 ((y : Int) + 32 - 1)) ::
          glyphPixels (fonts.asciiFont_3216 ((num + 256 - 32) % 256)) 32 16 2 fc bc ∧
      (LCD_DisplayChar fonts x y num fc bc 12 0).tail.length = 12 / 2 * 12 ∧
      (LCD_DisplayChar fonts x y num fc bc 16 0).tail.length = 16 / 2 * 16 ∧
      (LCD_DisplayChar fonts x y num fc bc 24 0).tail.length = 24 / 2 * 24 ∧
      (LCD_DisplayChar fonts x y num fc bc 32 0).tail.length = 32 / 2 * 32 ∧
      (fontSize ≠ 12 → fontSize ≠ 16 → fontSize ≠ 24 → fontSize ≠ 32 →
        LCD_DisplayChar fonts x y num fc bc fontSize mode =
          [LcdOp.addressSet x y (toU16 ((x : Int) + ((fontSize / 2) % 256 : Nat) - 1))
            (toU16 ((y : Int) + fontSize - 1))]) := by
  have h12 : LCD_DisplayChar fonts x y num fc bc 12 0 =
      LcdOp.addressSet x y (toU16 ((x : Int) + 6 - 1)) (toU16 ((y : Int) + 12 - 1)) ::
        glyphPixels (fonts.asciiFont_1206 ((num + 256 - 32) % 256)) 12 6 1 fc bc := by
    have h := LCD_DisplayChar_bytes_12 fonts x y ((num + 256 - 32) % 256) fc bc
    simp only [LCD_DisplayChar]
    exact congrArg _ h
  have h16 : LCD_DisplayChar fonts x y num fc bc 16 0 =
      LcdOp.addressSet x y (toU16 ((x : Int) + 8 - 1)) (toU16 ((y : Int) + 16 - 1)) ::
        glyphPixels (fonts.asciiFont_1608 ((num + 256 - 32) % 256)) 16 8 1 fc bc := by
    have h := LCD_DisplayChar_bytes_16 fonts x y ((num + 256 - 32) % 256) fc bc
    simp only [LCD_DisplayChar]
    exact congrArg _ h
  have h24 : LCD_DisplayChar fonts x y num fc bc 24 0 =
      LcdOp.addressSet x y (toU16 ((x : Int) + 12 - 1)) (toU16 ((y : Int) + 24 - 1)) ::
        glyphPixels (fonts.asciiFont_2412 ((num + 256 - 32) % 256)) 24 12 2 fc bc := by
    have h := LCD_DisplayChar_bytes_24 fonts x y ((num + 256 - 32) % 256) fc bc
    simp only [LCD_DisplayChar]
    exact congrArg _ h
  have h32 : LCD_DisplayChar fonts x y num fc bc 32 0 =
      LcdOp.addressSet x y (toU16 ((x : Int) + 16 - 1)) (toU16 ((y : Int) + 32 - 1)) ::
        glyphPixels (fonts.asciiFont_3216 ((num + 256 - 32) % 256)) 32 16 2 fc bc := by
    have h := LCD_DisplayChar_bytes_32 fonts x y ((num + 256 - 32) % 256) fc bc
    simp only [LCD_DisplayChar]
    exact congrArg _ h
  refine ⟨h12, h16, h24, h32, ?_, ?_, ?_, ?_, ?_⟩
  · rw [h12, List.tail_cons, glyphPixels_length]
  · rw [h16, List.tail_cons, glyphPixels_length]
  · rw [h24, List.tail_cons, glyphPixels_length]
  · rw [h32, List.tail_cons, glyphPixels_length]
  · intro n12 n16 n24 n32
    simp only [LCD_DisplayChar]
    rw [LCD_DisplayChar_bytes_other fonts _ _ fc bc fontSize mode x _ _ 0 _ n12 n16 n24 n32]

/-- C36 at the sample font tables: the character 65 at (3, 4) with font size 20 only sets the
window, and with font size 12 it writes 72 pixels after setting the window (3, 4, 8, 15). -/
theorem C36_display_char_pixels_witness :
    LCD_DisplayChar sampleFonts 3 4 65 1 0 20 0 = [LcdOp.addressSet 3 4 12 23] ∧
      (LCD_DisplayChar sampleFonts 3 4 65 1 0 12 0).head? = some (LcdOp.addressSet 3 4 8 15) ∧
      (LCD_DisplayChar sampleFonts 3 4 65 1 0 12 0).tail.length = 72 :=
  ⟨(C36_display_char_pixels sampleFonts 3 4 65 1 0 20 0).2.2.2.2.2.2.2.2
      (by decide) (by decide) (by decide) (by decide),
    by rw [(C36_display_char_pixels sampleFonts 3 4 65 1 0 20 0).1]; rfl,
    (C36_display_char_pixels sampleFonts 3 4 65 1 0 20 0).2.2.2.2.1⟩

end BspLcd
